import Mathlib

/-!
# MovementDetector: a shallow embedding of `src/MovementDetector.{h,cpp}`

Modelling conventions.

* `float` quantities are rationals (`ℚ`), and the arithmetic comes in two layers. The
  definitions at the top level compute exactly; they carry the claims about control flow,
  counters, callbacks and comparisons of stored values. The definitions of the namespace
  `Rounded` are the same methods with every arithmetic result rounded as the program rounds it:
  they take the roundings as a parameter `A : Arith`, and `ieeeArith` rounds a `float` result to
  IEEE 754 binary32 and a `double` result to binary64, to nearest with ties to even. With
  `exactArith`, which rounds nothing, the `Rounded` methods are those of the top level. The
  claims whose truth depends on the value of a sum, quotient, product or difference are stated
  on the layer `Rounded` at `ieeeArith`. Overflow, infinities and NaN are not modelled: the
  exponent range of the formats is unbounded above.
* `int` / `long` quantities are unbounded integers (`Int`); signed overflow, which is undefined
  behaviour in the source, is not modelled.
* The ranging sensor is the stream of values returned by successive `pulseIn` calls
  (`Nat → Int`, a duration in microseconds, `0` meaning "no echo").
* `Serial` output, `pinMode`, `digitalWrite` and the blocking delays have no effect on the
  detector's fields and are left out.
* The two callback slots are modelled by a flag (registered or not); every invocation of a
  registered callback is recorded, with its arguments, in the list of events a call returns.
-/

namespace MovementDetector

/-- Movement state (`enum State`). -/
inductive State
  | IDLE
  | MOVED
  | STOPPED
  | DANGERCLOSE
  | OUTOFRANGE
  deriving DecidableEq, Repr

/-- Movement direction (`enum MovementDirection`). -/
inductive MovementDirection
  | NONE
  | FORWARD
  | BACKWARD
  deriving DecidableEq, Repr

open State MovementDirection

/-- Configuration options (`struct DetectorConfig`), with the defaults of the header. The default
of `dynamicThreshold` is the literal `0.01f`, the `float` nearest to 1/100; the other defaults
are `float`s exactly. -/
structure DetectorConfig where
  movementThreshold : ℚ := 3 / 2
  stabilityCheckCount : Int := 3
  dangerCloseDistance : ℚ := 25
  defaultBaseline : ℚ := 100
  sleepDelay : Int := 100
  maximumDistance : ℚ := 200
  outOfRangeCheckCount : Int := 2
  averageReadingCount : Int := 3
  dynamicThreshold : ℚ := 5368709 / 536870912
  deriving DecidableEq

/-- One invocation of a registered callback, with the arguments it received. -/
inductive Event
  | stateChange (oldState newState : State) (distance : ℚ)
      (oldDirection newDirection : MovementDirection)
  | resetBaseLine
  deriving DecidableEq

/-- The fields of `class MovementDetector`. -/
structure Detector where
  triggerPin : Int
  echoPin : Int
  config : DetectorConfig
  currentState : State
  previousState : State
  currentDirection : MovementDirection
  previousDirection : MovementDirection
  maxDistance : ℚ
  baselineDistance : ℚ
  previousDistance : ℚ
  lastValidDistance : ℚ
  distanceValid : Bool
  stableCounter : Int
  outOfRangeCounter : Int
  onStateChange : Bool
  onResetBaseLine : Bool
  deriving DecidableEq

/-- The macro `#define MinimumDistance 0.0`. -/
def MinimumDistance : ℚ := 0

/-- The macro `#define MaximumDistance 400.0`. -/
def MaximumDistance : ℚ := 400

/-- Arduino's `max(a,b)`, the macro `((a)>(b)?(a):(b))`. -/
def max (a b : ℚ) : ℚ := if a > b then a else b

/-- Arduino's `abs(x)`, the macro `((x)>0?(x):-(x))`. -/
def abs (x : ℚ) : ℚ := if x > 0 then x else -x

/-- The constructor `MovementDetector(triggerPin, echoPin)` with the field initialisers of the
header. `distanceValid` has no initialiser; its indeterminate value is the third argument. -/
def new (triggerPin echoPin : Int) (indeterminate : Bool) : Detector where
  triggerPin := triggerPin
  echoPin := echoPin
  config := {}
  currentState := IDLE
  previousState := IDLE
  currentDirection := NONE
  previousDirection := NONE
  maxDistance := 400
  baselineDistance := 0
  previousDistance := 0
  lastValidDistance := 100
  distanceValid := indeterminate
  stableCounter := 0
  outOfRangeCounter := 0
  onStateChange := false
  onResetBaseLine := false

/-- Method `setStateChangeCallback(cb)`; the flag says whether `cb` is non-null. -/
def setStateChangeCallback (s : Detector) (cb : Bool) : Detector :=
  { s with onStateChange := cb }

/-- Method `setResetBaseLineCallback(cb)`; the flag says whether `cb` is non-null. -/
def setResetBaseLineCallback (s : Detector) (cb : Bool) : Detector :=
  { s with onResetBaseLine := cb }

/-- Method `getCurrentState()`. -/
def getCurrentState (s : Detector) : State := s.currentState

/-- Method `withinDelta(a, b, delta)`: `abs(a - b) <= delta`, the difference computed exactly;
`Rounded.withinDelta` rounds it. -/
def withinDelta (a b delta : ℚ) : Bool := decide (abs (a - b) ≤ delta)

/-- Method `resetBaseLine()` (lines 134-141). -/
def resetBaseLine (s : Detector) : Detector × List Event :=
  let s := { s with baselineDistance := s.lastValidDistance }
  let s := { s with currentState := IDLE }
  if s.onResetBaseLine then (s, [Event.resetBaseLine]) else (s, [])

/-- Method `changeState(newState, newDirection)` (lines 143-158). -/
def changeState (s : Detector) (newState : State) (newDirection : MovementDirection) :
    Detector × List Event :=
  if newState ≠ s.currentState ∨ newDirection ≠ s.currentDirection then
    let s := { s with previousState := s.currentState }
    let s := { s with currentState := newState }
    let s := { s with previousDirection := s.currentDirection }
    let s := { s with currentDirection := newDirection }
    let s := if newState = IDLE ∨ newState = STOPPED then { s with currentDirection := NONE } else s
    if s.onStateChange then
      (s, [Event.stateChange s.previousState s.currentState s.baselineDistance
            s.previousDirection s.currentDirection])
    else (s, [])
  else (s, [])

/-- The running totals of the loop in `getDistance`. -/
structure Acc where
  total : ℚ
  validReadings : Int
  deriving DecidableEq

/-- One iteration of the loop in `getDistance`, for the value `duration` returned by `pulseIn`,
in exact arithmetic; `Rounded.getDistanceIter` rounds the distance and the running total. -/
def getDistanceIter (maxDistance : ℚ) (acc : Acc) (duration : Int) : Acc :=
  if duration = 0 then acc
  else
    let distance : ℚ := (duration : ℚ) * (34 / 1000) / 2
    if distance ≤ MinimumDistance ∨ distance > maxDistance then acc
    else { total := acc.total + distance, validReadings := acc.validReadings + 1 }

/-- The result of `getDistance`: the returned value, the detector afterwards and the rest of the
sensor's stream. -/
structure Sample where
  distance : ℚ
  detector : Detector
  rest : Nat → Int

/-- Method `getDistance()` (lines 160-201) in exact arithmetic: the loop takes
`config.averageReadingCount` values from `pulseIn`; `Rounded.getDistance` rounds the quotient. -/
def getDistance (s : Detector) (pulseIn : Nat → Int) : Sample :=
  let n := s.config.averageReadingCount.toNat
  let acc := ((List.range n).map pulseIn).foldl (getDistanceIter s.maxDistance) ⟨0, 0⟩
  let rest := fun i => pulseIn (n + i)
  if acc.validReadings > 0 then
    let average := acc.total / (acc.validReadings : ℚ)
    let s := { s with lastValidDistance := average }
    let s := { s with distanceValid := true }
    ⟨average, s, rest⟩
  else
    let s := { s with distanceValid := false }
    ⟨s.lastValidDistance, s, rest⟩

/-- The loop of `initializeBaselineDistance`, with `retries` iterations left; `baseline` is
bound to the field `baselineDistance`, as at its only call site. -/
def initializeBaselineLoop (s : Detector) (pulseIn : Nat → Int) : Nat → Bool × Detector × (Nat → Int)
  | 0 => (false, s, pulseIn)
  | retries + 1 =>
    let r := getDistance s pulseIn
    if r.distance > MinimumDistance ∧ r.distance ≤ MaximumDistance then
      (true, { r.detector with baselineDistance := r.distance }, r.rest)
    else initializeBaselineLoop r.detector r.rest retries

/-- Method `initializeBaselineDistance(baselineDistance, maxRetries)`; the header's default is
`maxRetries = 5`. -/
def initializeBaselineDistance (s : Detector) (pulseIn : Nat → Int) (maxRetries : Int) :
    Bool × Detector × (Nat → Int) :=
  initializeBaselineLoop s pulseIn maxRetries.toNat

/-- Method `setup(cfg)` (lines 16-32). -/
def setup (s : Detector) (cfg : DetectorConfig) (pulseIn : Nat → Int) : Detector × (Nat → Int) :=
  let s := { s with config := cfg }
  let r := initializeBaselineDistance s pulseIn 5
  let s := if !r.1 then { r.2.1 with baselineDistance := r.2.1.config.defaultBaseline } else r.2.1
  let s := { s with maxDistance :=
    if s.config.maximumDistance < MaximumDistance then s.config.maximumDistance else MaximumDistance }
  (s, r.2.2)

/-- Lines 61-106 of `update()`: the danger-close override and the state-specific transition,
given the locals `distance`, `dynamicThreshold` and `newDirection`. -/
def updateTransition (s : Detector) (distance dynamicThreshold : ℚ)
    (newDirection : MovementDirection) : Detector × List Event :=
  if distance < s.config.dangerCloseDistance then
    let r := changeState s DANGERCLOSE newDirection
    ({ r.1 with baselineDistance := distance }, r.2)
  else
    match s.currentState with
    | IDLE =>
      if !withinDelta distance s.baselineDistance dynamicThreshold then
        let r := changeState s MOVED newDirection
        ({ r.1 with stableCounter := 0, previousDistance := distance }, r.2)
      else (s, [])
    | MOVED =>
      if withinDelta distance s.previousDistance dynamicThreshold then
        let s := { s with stableCounter := s.stableCounter + 1 }
        if s.stableCounter ≥ s.config.stabilityCheckCount then
          let r := changeState s STOPPED newDirection
          ({ r.1 with baselineDistance := distance }, r.2)
        else (s, [])
      else ({ s with stableCounter := 0, previousDistance := distance }, [])
    | STOPPED =>
      changeState { s with stableCounter := 0 } IDLE NONE
    | DANGERCLOSE =>
      if !withinDelta distance s.config.dangerCloseDistance dynamicThreshold then
        changeState { s with baselineDistance := distance, stableCounter := 0 } IDLE newDirection
      else (s, [])
    | OUTOFRANGE =>
      changeState s IDLE newDirection

/-- Lines 53-108 of `update()`: the dynamic threshold and the direction inference of lines
53-59, followed by `updateTransition`; the product of line 54 is computed exactly, and
`Rounded.updateClassify` rounds it. -/
def updateClassify (s : Detector) (distance : ℚ) : Detector × List Event :=
  let dynamicThreshold := max s.config.movementThreshold (distance * s.config.dynamicThreshold)
  if !withinDelta distance s.previousDistance dynamicThreshold then
    let newDirection := if distance < s.previousDistance then FORWARD else BACKWARD
    updateTransition { s with previousDistance := distance } distance dynamicThreshold newDirection
  else updateTransition s distance dynamicThreshold NONE

/-- The body of `update()` after the call `float distance = getDistance();` (lines 38-108):
`distance` is the value returned, and the flag `distanceValid` is read from the detector. -/
def updateWith (s : Detector) (distance : ℚ) : Detector × List Event :=
  if !s.distanceValid then resetBaseLine s
  else if distance < MinimumDistance ∨ distance > s.maxDistance then
    let s := { s with outOfRangeCounter := s.outOfRangeCounter + 1 }
    if s.outOfRangeCounter > s.config.outOfRangeCheckCount then
      let r := changeState s OUTOFRANGE NONE
      ({ r.1 with previousDistance := r.1.lastValidDistance }, r.2)
    else updateClassify s distance
  else updateClassify { s with outOfRangeCounter := 0 } distance

/-- Method `update()` (lines 34-109): one sampling pass followed by the classification of its result. -/
def update (s : Detector) (pulseIn : Nat → Int) : (Detector × List Event) × (Nat → Int) :=
  let r := getDistance s pulseIn
  (updateWith r.detector r.distance, r.rest)

/-- One tick whose sampling pass succeeded with the filtered value `distance`: `getDistance`
has stored it in `lastValidDistance` and set `distanceValid`, and the rest of `update()` runs. -/
def feed (s : Detector) (distance : ℚ) : Detector × List Event :=
  updateWith { s with lastValidDistance := distance, distanceValid := true } distance

/-- The detector after a sequence of successful ticks with the given filtered distances. -/
def feedAll (s : Detector) (distances : List ℚ) : Detector :=
  distances.foldl (fun s d => (feed s d).1) s

/-- The value of `currentState` observed after each tick of a sequence of successful ticks. -/
def statesAfter (s : Detector) : List ℚ → List State
  | [] => []
  | d :: ds => (feed s d).1.currentState :: statesAfter (feed s d).1 ds

/-- The value of `currentDirection` observed after each tick of a sequence of successful ticks. -/
def directionsAfter (s : Detector) : List ℚ → List MovementDirection
  | [] => []
  | d :: ds => (feed s d).1.currentDirection :: directionsAfter (feed s d).1 ds

/-- A sensor that never hears an echo: every `pulseIn` times out. -/
def noEcho : Nat → Int := fun _ => 0

/-- A detector constructed on pins 9 and 10 and set up with `cfg` while the sensor is silent:
`setup` leaves `baselineDistance = 100`. -/
def setUpAt100 (cfg : DetectorConfig) : Detector :=
  (setup (new 9 10 false) cfg noEcho).1

/-- A detector with the default configuration held in OUTOFRANGE with `outOfRangeCounter = 3`,
the sampler having just reported a valid reading. -/
def heldOutOfRange : Detector :=
  { new 9 10 true with
    currentState := OUTOFRANGE, baselineDistance := 100, previousDistance := 100,
    outOfRangeCounter := 3 }

/-- A detector that has just entered MOVED: set up at baseline 100 with the default
configuration (`stabilityCheckCount = 3`), then fed 100 and 150. -/
def justMoved : Detector := feedAll (setUpAt100 {}) [100, 150]

/-- A detector that has just entered STOPPED: `justMoved` after three more ticks at 150. -/
def justStopped : Detector := feedAll justMoved [150, 150, 150]

/-- The dynamic threshold computed at line 54 for the filtered value `distance`. -/
def dynamicThresholdAt (s : Detector) (distance : ℚ) : ℚ :=
  max s.config.movementThreshold (distance * s.config.dynamicThreshold)

/-- The early return of the range check (lines 43-48): the distance is out of bounds and the
incremented counter exceeds `config.outOfRangeCheckCount`. -/
def rangeCheckFires (s : Detector) (d : ℚ) : Prop :=
  (d < MinimumDistance ∨ d > s.maxDistance) ∧
    s.outOfRangeCounter + 1 > s.config.outOfRangeCheckCount

instance (s : Detector) (d : ℚ) : Decidable (rangeCheckFires s d) :=
  inferInstanceAs (Decidable (_ ∧ _))

/-- The distance a raw measurement stands for (line 178): `duration * 0.034 / 2`, computed
exactly. -/
def rawDistance (duration : Int) : ℚ := (duration : ℚ) * (34 / 1000) / 2

/-- The raw measurements one sampling pass takes from the sensor. -/
def batch (s : Detector) (pulseIn : Nat → Int) : List Int :=
  (List.range s.config.averageReadingCount.toNat).map pulseIn

/-- The set `S` of the sampler contract, in the order measured: the measurements that are not
timeouts and whose distance lies in `(0, maxDistance]`. -/
def survivors (maxDistance : ℚ) (raw : List Int) : List ℚ :=
  ((raw.filter (fun duration => duration ≠ 0)).map rawDistance).filter
    (fun x => 0 < x ∧ x ≤ maxDistance)

/-- Arithmetic mean of a list of distances. -/
def mean (xs : List ℚ) : ℚ := xs.sum / (xs.length : ℚ)

/-- A raw measurement survives when it is not a timeout and lies in `(0, maxDistance]`. -/
def survives (maxDistance : ℚ) (duration : Int) : Prop :=
  duration ≠ 0 ∧ 0 < rawDistance duration ∧ rawDistance duration ≤ maxDistance

instance (maxDistance : ℚ) (duration : Int) : Decidable (survives maxDistance duration) :=
  inferInstanceAs (Decidable (_ ∧ _))

/-- Three echoes of 6000 µs (102 cm each) followed by silence. -/
def echoThenSilence : Nat → Int := fun i => if i < 3 then 6000 else 0

/-- The effect C5 describes, from the detector `s` before the call to the detector `s1` after
it, with `events` the callbacks invoked: the baseline becomes `lastValidDistance`, the state
IDLE, the baseline-reset callback runs exactly once if registered and is the only callback run,
and seven fields keep their values. -/
def ResetEffect (s s1 : Detector) (events : List Event) : Prop :=
  s1.baselineDistance = s.lastValidDistance ∧
  s1.currentState = IDLE ∧
  events = (if s.onResetBaseLine = true then [Event.resetBaseLine] else []) ∧
  s1.previousState = s.previousState ∧
  s1.currentDirection = s.currentDirection ∧
  s1.previousDirection = s.previousDirection ∧
  s1.previousDistance = s.previousDistance ∧
  s1.lastValidDistance = s.lastValidDistance ∧
  s1.stableCounter = s.stableCounter ∧
  s1.outOfRangeCounter = s.outOfRangeCounter

instance (s s1 : Detector) (events : List Event) : Decidable (ResetEffect s s1 events) :=
  inferInstanceAs (Decidable (_ ∧ _))

/-- The configuration of the header with `defaultBaseline` changed to 50. -/
def configBaseline50 : DetectorConfig := { defaultBaseline := 50 }

/-- The detector states reachable from a freshly constructed detector by any sequence of calls
of `setup`, `update` and the two callback setters, with any sensor stream at each call. -/
inductive Reachable : Detector → Prop
  | fresh (triggerPin echoPin : Int) (b : Bool) : Reachable (new triggerPin echoPin b)
  | afterSetup {s : Detector} (cfg : DetectorConfig) (pulseIn : Nat → Int) :
      Reachable s → Reachable (setup s cfg pulseIn).1
  | afterUpdate {s : Detector} (pulseIn : Nat → Int) :
      Reachable s → Reachable (update s pulseIn).1.1
  | afterSetStateChangeCallback {s : Detector} (cb : Bool) :
      Reachable s → Reachable (setStateChangeCallback s cb)
  | afterSetResetBaseLineCallback {s : Detector} (cb : Bool) :
      Reachable s → Reachable (setResetBaseLineCallback s cb)

/-- A sensor that always measures 6000 µs, that is 102 cm. -/
def echo102 : Nat → Int := fun _ => 6000

/-- A sensor that always measures 9000 µs, that is 153 cm. -/
def echo153 : Nat → Int := fun _ => 9000

/-- A sensor that always measures 11000 µs, that is 187 cm. -/
def echo187 : Nat → Int := fun _ => 11000

/-- A sensor that always measures 1000 µs, that is 17 cm. -/
def echo17 : Nat → Int := fun _ => 1000

/-- A fresh detector set up with the defaults in front of an object at 102 cm and ticked once
with the object at 153 cm: it has just entered MOVED. -/
def movedAt153 : Detector :=
  (update (setup (new 9 10 false) {} echo102).1 echo153).1.1

/-- The detector `movedAt153` after two more ticks at 153 cm, both within the threshold. -/
def twiceStableAt153 : Detector :=
  (update (update movedAt153 echo153).1.1 echo153).1.1

/-- The detector `movedAt153` after three more ticks at 153 cm: it has just entered STOPPED. -/
def stoppedAt153 : Detector :=
  (update twiceStableAt153 echo153).1.1

/-- The detector `movedAt153` ticked once more while the sensor is silent. -/
def resetWhileMoved : Detector :=
  (update movedAt153 noEcho).1.1

/-- What C8 asks of the outcome `r` of a call entered with state `cs` and direction `cd`: at most
one callback invocation, one exactly when the pair (state, direction) changed, and with the old
and the new pair as its state and direction arguments. -/
def NotifiedExactly (cs : State) (cd : MovementDirection) (r : Detector × List Event) : Prop :=
  r.2.length ≤ 1 ∧
  (r.2 ≠ [] ↔ (r.1.currentState ≠ cs ∨ r.1.currentDirection ≠ cd)) ∧
  ∀ e ∈ r.2, ∃ dist : ℚ,
    e = Event.stateChange cs r.1.currentState dist cd r.1.currentDirection

/-- A detector with the state-change callback registered, set up at baseline 100 and resting in
IDLE after one tick at 100. -/
def idleWithCallback : Detector :=
  (feed (setStateChangeCallback (setUpAt100 {}) true) 100).1

/-- The outcome C9 allows for one call entered in state `s`: the baseline is unchanged, or the
resulting state is STOPPED or DANGERCLOSE, or the call went from DANGERCLOSE to IDLE. -/
def BaselineFramed (s : Detector) (r : Detector × List Event) : Prop :=
  r.1.baselineDistance = s.baselineDistance ∨ r.1.currentState = STOPPED ∨
    r.1.currentState = DANGERCLOSE ∨ (s.currentState = DANGERCLOSE ∧ r.1.currentState = IDLE)

/-- What lines 43-59 of `update()` leave of the detector `s` when they hand the detector `s1`
over to `updateTransition`: every field but `previousDistance` and `outOfRangeCounter` is
unchanged. -/
structure HandedOver (s s1 : Detector) : Prop where
  config : s1.config = s.config
  currentState : s1.currentState = s.currentState
  currentDirection : s1.currentDirection = s.currentDirection
  baselineDistance : s1.baselineDistance = s.baselineDistance
  lastValidDistance : s1.lastValidDistance = s.lastValidDistance
  maxDistance : s1.maxDistance = s.maxDistance
  stableCounter : s1.stableCounter = s.stableCounter
  distanceValid : s1.distanceValid = s.distanceValid
  onStateChange : s1.onStateChange = s.onStateChange

/-- The fields that neither `changeState` nor lines 61-106 of `update()` ever write: `s1` has
them as `s` does. -/
structure SameSettings (s s1 : Detector) : Prop where
  config : s1.config = s.config
  maxDistance : s1.maxDistance = s.maxDistance
  lastValidDistance : s1.lastValidDistance = s.lastValidDistance
  outOfRangeCounter : s1.outOfRangeCounter = s.outOfRangeCounter
  distanceValid : s1.distanceValid = s.distanceValid
  onStateChange : s1.onStateChange = s.onStateChange

/-- The fields that the sampler and the baseline acquisition never write: `s1` has them as `s`
does. Only `lastValidDistance`, `distanceValid` and `baselineDistance` are left out. -/
structure SamplerFrame (s s1 : Detector) : Prop where
  config : s1.config = s.config
  currentState : s1.currentState = s.currentState
  previousState : s1.previousState = s.previousState
  currentDirection : s1.currentDirection = s.currentDirection
  previousDirection : s1.previousDirection = s.previousDirection
  maxDistance : s1.maxDistance = s.maxDistance
  previousDistance : s1.previousDistance = s.previousDistance
  stableCounter : s1.stableCounter = s.stableCounter
  outOfRangeCounter : s1.outOfRangeCounter = s.outOfRangeCounter
  onStateChange : s1.onStateChange = s.onStateChange
  onResetBaseLine : s1.onResetBaseLine = s.onResetBaseLine

/-- The assignment `config = cfg` at line 21 of `setup`. -/
def withConfig (s : Detector) (cfg : DetectorConfig) : Detector :=
  { s with config := cfg }

/-- Lines 23-31 of `setup`, given the outcome `r` of `initializeBaselineDistance`: the fallback
to `config.defaultBaseline` when it reports failure, then the clamp of the ceiling. -/
def setupFinish (r : Bool × Detector × (Nat → Int)) : Detector × (Nat → Int) :=
  let s := if !r.1 then { r.2.1 with baselineDistance := r.2.1.config.defaultBaseline } else r.2.1
  let s := { s with maxDistance :=
    if s.config.maximumDistance < MaximumDistance then s.config.maximumDistance else MaximumDistance }
  (s, r.2.2)

/-- The configuration of the header with `maximumDistance` changed to 1000. -/
def configMaximum1000 : DetectorConfig := { maximumDistance := 1000 }

/-- The callback trace C20 describes for a call entered with state `cs`, direction `cd` and
baseline `b`, fed the distance `d`, with outcome `r`: nothing when the pair (state, direction) is
unchanged, and otherwise one state-change invocation whose distance argument is the old baseline
`b`, except on the way from DANGERCLOSE to IDLE, where it is `d`. -/
def CarriesBaseline (cs : State) (cd : MovementDirection) (b d : ℚ)
    (r : Detector × List Event) : Prop :=
  r.2 =
    if r.1.currentState ≠ cs ∨ r.1.currentDirection ≠ cd then
      [Event.stateChange cs r.1.currentState
        (if cs = DANGERCLOSE ∧ r.1.currentState = IDLE then d else b) cd r.1.currentDirection]
    else []

/-- The baselines C20 speaks of for a call entered in state `s`, fed the distance `d`, with
outcome `r`: the call stores `d` as the new baseline when it goes from MOVED to STOPPED, when it
ends in DANGERCLOSE having changed state or direction, and when it goes from DANGERCLOSE to
IDLE. -/
def StoresDistance (s : Detector) (d : ℚ) (r : Detector × List Event) : Prop :=
  (s.currentState = MOVED → r.1.currentState = STOPPED → r.1.baselineDistance = d) ∧
  (r.1.currentState = DANGERCLOSE →
    (r.1.currentState ≠ s.currentState ∨ r.1.currentDirection ≠ s.currentDirection) →
    r.1.baselineDistance = d) ∧
  (s.currentState = DANGERCLOSE → r.1.currentState = IDLE → r.1.baselineDistance = d)

/-- A detector in DANGERCLOSE: set up at baseline 100 with the default configuration
(`dangerCloseDistance = 25`), then fed 100 and 20. -/
def inDangerClose : Detector := feedAll (setUpAt100 {}) [100, 20]

/-- A detector with the state-change callback registered that is in MOVED with
`stableCounter = 2` and baseline 100: `idleWithCallback` fed 150 three times. -/
def aboutToStop : Detector := feedAll idleWithCallback [150, 150, 150]

/-! ## Rounded arithmetic -/

/-- The power `2 ^ e` for an integer exponent. -/
def pow2 (e : Int) : ℚ :=
  if 0 ≤ e then ((2 ^ e.toNat : Nat) : ℚ) else 1 / ((2 ^ (-e).toNat : Nat) : ℚ)

/-- The number of halvings that bring `n` below 2, at most `fuel` of them. -/
def halvings : Nat → Nat → Nat
  | 0, _ => 0
  | fuel + 1, n => if n < 2 then 0 else halvings fuel (n / 2) + 1

/-- The binary logarithm of a natural number, rounded down (0 for 0). -/
def floorLog2 (n : Nat) : Nat := halvings n n

/-- The binary exponent of a non-zero rational: the integer `e` with `2 ^ e ≤ |q| < 2 ^ (e + 1)`. -/
def ilog2 (q : ℚ) : Int :=
  let e : Int := (floorLog2 q.num.natAbs : Int) - (floorLog2 q.den : Int)
  if pow2 e * (q.den : ℚ) ≤ (q.num.natAbs : ℚ) then e else e - 1

/-- Rounding of a rational to the nearest integer, ties to the even one. -/
def roundHalfEven (q : ℚ) : Int :=
  let f : Int := q.num / (q.den : Int)
  let r : ℚ := q - (f : ℚ)
  if r < 1 / 2 then f
  else if 1 / 2 < r then f + 1
  else if f % 2 = 0 then f else f + 1

/-- Rounding to the nearest binary floating-point number with a `p`-bit significand, ties to
even, where `2 ^ emin` is the smallest positive subnormal. Overflow is not modelled: the exponent
is unbounded above. -/
def roundTo (p : Nat) (emin : Int) (q : ℚ) : ℚ :=
  if q = 0 then 0
  else
    let k : Int := Max.max (ilog2 q - ((p : Int) - 1)) emin
    (roundHalfEven (q / pow2 k) : ℚ) * pow2 k

/-- Rounding to IEEE 754 binary32, the type `float`. -/
def float32 (q : ℚ) : ℚ := roundTo 24 (-149) q

/-- Rounding to IEEE 754 binary64, the type `double`. -/
def float64 (q : ℚ) : ℚ := roundTo 53 (-1074) q

/-- The rounding applied to the result of every arithmetic operation of the source: `toFloat`
for a result of type `float`, `toDouble` for a result of type `double`. -/
structure Arith where
  toFloat : ℚ → ℚ
  toDouble : ℚ → ℚ

/-- Exact arithmetic: no result is rounded. -/
def exactArith : Arith := ⟨id, id⟩

/-- The arithmetic of the program: `float` is binary32 and `double` is binary64, both rounded to
nearest, ties to even. -/
def ieeeArith : Arith := ⟨float32, float64⟩

namespace Rounded

/-- Method `withinDelta(a, b, delta)`: `abs(a - b) <= delta`, the difference being a `float`. -/
def withinDelta (A : Arith) (a b delta : ℚ) : Bool := decide (abs (A.toFloat (a - b)) ≤ delta)

/-- The distance a raw measurement stands for (line 178): `float distance = duration * 0.034 / 2`,
the `long` value converted to `double`, a product and a quotient of type `double`, the result
converted to `float`. -/
def rawDistance (A : Arith) (duration : Int) : ℚ :=
  A.toFloat (A.toDouble (A.toDouble (A.toDouble (duration : ℚ) * A.toDouble (34 / 1000)) / 2))

/-- One iteration of the loop in `getDistance`, for the value `duration` returned by `pulseIn`. -/
def getDistanceIter (A : Arith) (maxDistance : ℚ) (acc : Acc) (duration : Int) : Acc :=
  if duration = 0 then acc
  else
    let distance : ℚ :=
      A.toFloat (A.toDouble (A.toDouble (A.toDouble (duration : ℚ) * A.toDouble (34 / 1000)) / 2))
    if distance ≤ MinimumDistance ∨ distance > maxDistance then acc
    else { total := A.toFloat (acc.total + distance), validReadings := acc.validReadings + 1 }

/-- Method `getDistance()` (lines 160-201): the loop takes `config.averageReadingCount` values
from `pulseIn`; `total / validReadings` converts the count to `float` and divides in `float`. -/
def getDistance (A : Arith) (s : Detector) (pulseIn : Nat → Int) : Sample :=
  let n := s.config.averageReadingCount.toNat
  let acc := ((List.range n).map pulseIn).foldl (getDistanceIter A s.maxDistance) ⟨0, 0⟩
  let rest := fun i => pulseIn (n + i)
  if acc.validReadings > 0 then
    let average := A.toFloat (acc.total / A.toFloat (acc.validReadings : ℚ))
    let s := { s with lastValidDistance := average }
    let s := { s with distanceValid := true }
    ⟨average, s, rest⟩
  else
    let s := { s with distanceValid := false }
    ⟨s.lastValidDistance, s, rest⟩

/-- The loop of `initializeBaselineDistance`, with `retries` iterations left; `baseline` is
bound to the field `baselineDistance`, as at its only call site. -/
def initializeBaselineLoop (A : Arith) (s : Detector) (pulseIn : Nat → Int) :
    Nat → Bool × Detector × (Nat → Int)
  | 0 => (false, s, pulseIn)
  | retries + 1 =>
    let r := getDistance A s pulseIn
    if r.distance > MinimumDistance ∧ r.distance ≤ MaximumDistance then
      (true, { r.detector with baselineDistance := r.distance }, r.rest)
    else initializeBaselineLoop A r.detector r.rest retries

/-- Method `initializeBaselineDistance(baselineDistance, maxRetries)`; the header's default is
`maxRetries = 5`. -/
def initializeBaselineDistance (A : Arith) (s : Detector) (pulseIn : Nat → Int)
    (maxRetries : Int) : Bool × Detector × (Nat → Int) :=
  initializeBaselineLoop A s pulseIn maxRetries.toNat

/-- Method `setup(cfg)` (lines 16-32). -/
def setup (A : Arith) (s : Detector) (cfg : DetectorConfig) (pulseIn : Nat → Int) :
    Detector × (Nat → Int) :=
  let s := { s with config := cfg }
  let r := initializeBaselineDistance A s pulseIn 5
  let s := if !r.1 then { r.2.1 with baselineDistance := r.2.1.config.defaultBaseline } else r.2.1
  let s := { s with maxDistance :=
    if s.config.maximumDistance < MaximumDistance then s.config.maximumDistance else MaximumDistance }
  (s, r.2.2)

/-- Lines 61-106 of `update()`: the danger-close override and the state-specific transition,
given the locals `distance`, `dynamicThreshold` and `newDirection`. -/
def updateTransition (A : Arith) (s : Detector) (distance dynamicThreshold : ℚ)
    (newDirection : MovementDirection) : Detector × List Event :=
  if distance < s.config.dangerCloseDistance then
    let r := changeState s DANGERCLOSE newDirection
    ({ r.1 with baselineDistance := distance }, r.2)
  else
    match s.currentState with
    | IDLE =>
      if !withinDelta A distance s.baselineDistance dynamicThreshold then
        let r := changeState s MOVED newDirection
        ({ r.1 with stableCounter := 0, previousDistance := distance }, r.2)
      else (s, [])
    | MOVED =>
      if withinDelta A distance s.previousDistance dynamicThreshold then
        let s := { s with stableCounter := s.stableCounter + 1 }
        if s.stableCounter ≥ s.config.stabilityCheckCount then
          let r := changeState s STOPPED newDirection
          ({ r.1 with baselineDistance := distance }, r.2)
        else (s, [])
      else ({ s with stableCounter := 0, previousDistance := distance }, [])
    | STOPPED =>
      changeState { s with stableCounter := 0 } IDLE NONE
    | DANGERCLOSE =>
      if !withinDelta A distance s.config.dangerCloseDistance dynamicThreshold then
        changeState { s with baselineDistance := distance, stableCounter := 0 } IDLE newDirection
      else (s, [])
    | OUTOFRANGE =>
      changeState s IDLE newDirection

/-- Lines 53-108 of `update()`: the dynamic threshold of line 54, whose product is a `float`,
and the direction inference of lines 53-59, followed by `updateTransition`. -/
def updateClassify (A : Arith) (s : Detector) (distance : ℚ) : Detector × List Event :=
  let dynamicThreshold :=
    max s.config.movementThreshold (A.toFloat (distance * s.config.dynamicThreshold))
  if !withinDelta A distance s.previousDistance dynamicThreshold then
    let newDirection := if distance < s.previousDistance then FORWARD else BACKWARD
    updateTransition A { s with previousDistance := distance } distance dynamicThreshold
      newDirection
  else updateTransition A s distance dynamicThreshold NONE

/-- The body of `update()` after the call `float distance = getDistance();` (lines 38-108):
`distance` is the value returned, and the flag `distanceValid` is read from the detector. -/
def updateWith (A : Arith) (s : Detector) (distance : ℚ) : Detector × List Event :=
  if !s.distanceValid then resetBaseLine s
  else if distance < MinimumDistance ∨ distance > s.maxDistance then
    let s := { s with outOfRangeCounter := s.outOfRangeCounter + 1 }
    if s.outOfRangeCounter > s.config.outOfRangeCheckCount then
      let r := changeState s OUTOFRANGE NONE
      ({ r.1 with previousDistance := r.1.lastValidDistance }, r.2)
    else updateClassify A s distance
  else updateClassify A { s with outOfRangeCounter := 0 } distance

/-- Method `update()` (lines 34-109): one sampling pass followed by the classification of its
result. -/
def update (A : Arith) (s : Detector) (pulseIn : Nat → Int) :
    (Detector × List Event) × (Nat → Int) :=
  let r := getDistance A s pulseIn
  (updateWith A r.detector r.distance, r.rest)

/-- The detector states reachable from a freshly constructed detector by any sequence of calls
of `setup`, `update` and the two callback setters, with any sensor stream at each call. -/
inductive Reachable (A : Arith) : Detector → Prop
  | fresh (triggerPin echoPin : Int) (b : Bool) : Reachable A (new triggerPin echoPin b)
  | afterSetup {s : Detector} (cfg : DetectorConfig) (pulseIn : Nat → Int) :
      Reachable A s → Reachable A (setup A s cfg pulseIn).1
  | afterUpdate {s : Detector} (pulseIn : Nat → Int) :
      Reachable A s → Reachable A (update A s pulseIn).1.1
  | afterSetStateChangeCallback {s : Detector} (cb : Bool) :
      Reachable A s → Reachable A (setStateChangeCallback s cb)
  | afterSetResetBaseLineCallback {s : Detector} (cb : Bool) :
      Reachable A s → Reachable A (setResetBaseLineCallback s cb)

end Rounded

namespace Rounded

/-- The raw measurements that survive the filter of `getDistance`, as distances and in the order
measured: those that are not timeouts and whose distance, computed as the source does, lies in
`(0, maxDistance]`. -/
def survivors (A : Arith) (maxDistance : ℚ) (raw : List Int) : List ℚ :=
  ((raw.filter (fun duration => duration ≠ 0)).map (rawDistance A)).filter
    (fun x => 0 < x ∧ x ≤ maxDistance)

/-- The sum of a list of distances as the source accumulates it: from the left, starting at
`start`, each partial sum rounded to `float`. -/
def sumFrom (A : Arith) (start : ℚ) (xs : List ℚ) : ℚ :=
  xs.foldl (fun total x => A.toFloat (total + x)) start

/-- The mean of a list of distances as the source computes it: the rounded running sum divided
by the count converted to `float`, the quotient rounded to `float`. -/
def mean (A : Arith) (xs : List ℚ) : ℚ :=
  A.toFloat (sumFrom A 0 xs / A.toFloat (xs.length : ℚ))

/-- A raw measurement survives when it is not a timeout and its distance lies in
`(0, maxDistance]`. -/
def survives (A : Arith) (maxDistance : ℚ) (duration : Int) : Prop :=
  duration ≠ 0 ∧ 0 < rawDistance A duration ∧ rawDistance A duration ≤ maxDistance

instance (A : Arith) (maxDistance : ℚ) (duration : Int) :
    Decidable (survives A maxDistance duration) :=
  inferInstanceAs (Decidable (_ ∧ _))

end Rounded

/-- A sensor that always measures 10300 µs, that is 175.1 cm. -/
def echo175 : Nat → Int := fun _ => 10300

namespace Rounded

/-- The detector states reachable from a freshly constructed detector by a sequence of calls of
`setup`, `update` and the two callback setters, with any sensor stream at each call, in which no
call of `update` obtains from the sampler a valid filtered distance above `maxDistance`. -/
inductive ReachableInRange (A : Arith) : Detector → Prop
  | fresh (triggerPin echoPin : Int) (b : Bool) : ReachableInRange A (new triggerPin echoPin b)
  | afterSetup {s : Detector} (cfg : DetectorConfig) (pulseIn : Nat → Int) :
      ReachableInRange A s → ReachableInRange A (setup A s cfg pulseIn).1
  | afterUpdate {s : Detector} (pulseIn : Nat → Int) :
      ReachableInRange A s →
      ((getDistance A s pulseIn).detector.distanceValid = true →
        (getDistance A s pulseIn).distance ≤ s.maxDistance) →
      ReachableInRange A (update A s pulseIn).1.1
  | afterSetStateChangeCallback {s : Detector} (cb : Bool) :
      ReachableInRange A s → ReachableInRange A (setStateChangeCallback s cb)
  | afterSetResetBaseLineCallback {s : Detector} (cb : Bool) :
      ReachableInRange A s → ReachableInRange A (setResetBaseLineCallback s cb)

end Rounded

/-- An arithmetic keeps the sign when the rounding of a non-negative `float` result is never
negative. -/
def KeepsSign (A : Arith) : Prop := ∀ q : ℚ, 0 ≤ q → 0 ≤ A.toFloat q

/-- A detector resting in IDLE with the default configuration, a valid sample and the baseline
`612315 / 4096` (149.490966796875, a `float`). -/
def idleAtBoundary : Detector :=
  { new 9 10 true with
    baselineDistance := 612315 / 4096
    previousDistance := 612315 / 4096
    lastValidDistance := 612315 / 4096 }

/-- A detector in DANGERCLOSE with a valid sample whose configuration is the header's but for
`dangerCloseDistance = 612315 / 4096` (149.490966796875, a `float`). -/
def dangerCloseAtBoundary : Detector :=
  { new 9 10 true with
    config := { dangerCloseDistance := 612315 / 4096 }
    currentState := DANGERCLOSE
    currentDirection := FORWARD
    baselineDistance := 140
    previousDistance := 140
    lastValidDistance := 140 }

/-- The configuration of the header with `maximumDistance` changed to `175.1f`, the `float`
nearest to 175.1. -/
def configMaximum175 : DetectorConfig := { maximumDistance := 5737677 / 32768 }

/-- A detector constructed on pins 9 and 10, set up with `configMaximum175` and updated three
times, every measurement being 10300 µs. -/
def outOfRangeAt175 : Detector :=
  (Rounded.update ieeeArith
    (Rounded.update ieeeArith
      (Rounded.update ieeeArith
        (Rounded.setup ieeeArith (new 9 10 false) configMaximum175 echo175).1
        echo175).1.1
      echo175).1.1
    echo175).1.1

/-- A detector constructed on pins 9 and 10, set up with the default configuration and updated
once, every measurement being 6000 µs. -/
def updatedAt102 : Detector :=
  (Rounded.update ieeeArith (Rounded.setup ieeeArith (new 9 10 false) {} echo102).1 echo102).1.1

/-- A sensor that measures 1 µs once and then stays silent. -/
def echoOnce : Nat → Int := fun i => if i = 0 then 1 else 0

/-! ## Theorems -/

/-- After `changeState` the current state is the requested one. -/
theorem changeState_currentState (s : Detector) (newState : State)
    (newDirection : MovementDirection) :
    (changeState s newState newDirection).1.currentState = newState := by
  unfold changeState
  by_cases h : newState ≠ s.currentState ∨ newDirection ≠ s.currentDirection
  · simp only [if_pos h]; split_ifs <;> rfl
  · simp only [if_neg h]
    push_neg at h
    exact h.1.symm

/-- The baseline is not touched by `changeState`. -/
theorem changeState_baselineDistance (s : Detector) (newState : State)
    (newDirection : MovementDirection) :
    (changeState s newState newDirection).1.baselineDistance = s.baselineDistance := by
  unfold changeState; dsimp only; split_ifs <;> rfl

/-- The detector `movedAt153` is reachable: one `setup`, one `update`. -/
theorem reachable_movedAt153 : Reachable movedAt153 :=
  Reachable.afterUpdate echo153 (Reachable.afterSetup {} echo102 (Reachable.fresh 9 10 false))

/-- The detector `stoppedAt153` is reachable: three more `update` calls. -/
theorem reachable_stoppedAt153 : Reachable stoppedAt153 :=
  Reachable.afterUpdate echo153
    (Reachable.afterUpdate echo153 (Reachable.afterUpdate echo153 reachable_movedAt153))

/-- C1 (danger-close precedence). From every detector state, a filtered distance `d` that is
flagged valid, passes the range check `0 ≤ d ≤ maxDistance` and is below
`config.dangerCloseDistance` leaves `currentState = DANGERCLOSE` and `baselineDistance = d` after
one `update()`. Scenario: set up at baseline 100 with the default `dangerCloseDistance = 25`, the
filtered distances `[100, 20]` give the states `[IDLE, DANGERCLOSE]` and `baselineDistance = 20`. -/
theorem dangerClose_precedence :
    (∀ (s : Detector) (d : ℚ), s.distanceValid = true → 0 ≤ d → d ≤ s.maxDistance →
        d < s.config.dangerCloseDistance →
        (updateWith s d).1.currentState = DANGERCLOSE ∧ (updateWith s d).1.baselineDistance = d) ∧
    ((setUpAt100 {}).baselineDistance = 100 ∧
      (setUpAt100 {}).config.dangerCloseDistance = 25 ∧
      statesAfter (setUpAt100 {}) [100, 20] = [IDLE, DANGERCLOSE] ∧
      (feedAll (setUpAt100 {}) [100, 20]).baselineDistance = 20) := by
  refine ⟨?_, by decide!⟩
  intro s d hv h0 hmax hdc
  have hr : ¬ (d < MinimumDistance ∨ d > s.maxDistance) := by
    simp only [MinimumDistance]; push_neg; exact ⟨h0, hmax⟩
  simp only [updateWith, hv, Bool.not_true, Bool.false_eq_true, if_false, if_neg hr, updateClassify,
    updateTransition]
  split_ifs <;> simp_all [changeState_currentState]

/-- Instance of C1 at a detector resting in OUTOFRANGE (default configuration, ceiling 400):
the valid in-range distance 20 is below `dangerCloseDistance = 25`, and one `update()` leaves
DANGERCLOSE with baseline 20. -/
theorem dangerClose_precedence_witness :
    ((heldOutOfRange.distanceValid = true ∧ (0 : ℚ) ≤ 20 ∧ 20 ≤ heldOutOfRange.maxDistance ∧
        20 < heldOutOfRange.config.dangerCloseDistance) ∧
      heldOutOfRange.currentState = OUTOFRANGE) ∧
    ((updateWith heldOutOfRange 20).1.currentState = DANGERCLOSE ∧
      (updateWith heldOutOfRange 20).1.baselineDistance = 20) :=
  ⟨by decide!, dangerClose_precedence.1 heldOutOfRange 20 (by decide!) (by decide!) (by decide!)
    (by decide!)⟩

/-- C2 (debounce), evaluated on the code. `justMoved` is in MOVED with `stableCounter = 0`,
`previousDistance = 150` and `stabilityCheckCount = 3`. Part (a) holds there: three samples at 150
give MOVED, MOVED, STOPPED. Part (b) fails: after two samples at 150 the sample 200 differs from
`previousDistance = 150` by more than the dynamic threshold, yet the third `update()` ends in
STOPPED with `stableCounter = 3`, not in MOVED with `stableCounter = 0`. The same happens through
the sampler: set up at 102 cm, moved to 153 cm, two more ticks at 153 cm, then one at 187 cm. -/
theorem debounce_reset_missed :
    (justMoved.currentState = MOVED ∧ justMoved.stableCounter = 0 ∧
      justMoved.previousDistance = 150 ∧ justMoved.config.stabilityCheckCount = 3) ∧
    statesAfter justMoved [150, 150, 150] = [MOVED, MOVED, STOPPED] ∧
    ((feedAll justMoved [150, 150]).previousDistance = 150 ∧
      (feedAll justMoved [150, 150]).stableCounter = 2 ∧
      withinDelta 200 150 (dynamicThresholdAt (feedAll justMoved [150, 150]) 200) = false) ∧
    statesAfter justMoved [150, 150, 200] = [MOVED, MOVED, STOPPED] ∧
    (feedAll justMoved [150, 150, 200]).stableCounter = 3 ∧
    ((movedAt153.currentState = MOVED ∧ movedAt153.stableCounter = 0 ∧
        twiceStableAt153.currentState = MOVED ∧ twiceStableAt153.stableCounter = 2 ∧
        twiceStableAt153.previousDistance = 153 ∧
        (getDistance twiceStableAt153 echo187).distance = 187) ∧
      (update twiceStableAt153 echo187).1.1.currentState = STOPPED ∧
      (update twiceStableAt153 echo187).1.1.stableCounter = 3) := by
  decide!

/-- C3 (pulse-state law) fails as stated. From STOPPED, the valid in-range distance 20 (below
`dangerCloseDistance = 25`) leads to DANGERCLOSE, also through the sampler (a detector stopped at
153 cm that then measures 17 cm); from OUTOFRANGE with the out-of-range counter
already above `outOfRangeCheckCount`, another out-of-bounds distance 500 keeps OUTOFRANGE. Hence
the next state is not IDLE for every sampler result. -/
theorem pulse_state_counterexample :
    (justStopped.currentState = STOPPED ∧ (feed justStopped 20).1.currentState = DANGERCLOSE) ∧
    (Reachable stoppedAt153 ∧ stoppedAt153.currentState = STOPPED ∧
      (update stoppedAt153 echo17).1.1.currentState = DANGERCLOSE) ∧
    (heldOutOfRange.currentState = OUTOFRANGE ∧ heldOutOfRange.distanceValid = true ∧
      (updateWith heldOutOfRange 500).1.currentState = OUTOFRANGE) ∧
    ¬ (∀ (s : Detector) (d : ℚ), s.currentState = STOPPED ∨ s.currentState = OUTOFRANGE →
        (updateWith s d).1.currentState = IDLE) := by
  refine ⟨by decide!, ⟨reachable_stoppedAt153, by decide!⟩, by decide!, fun h => ?_⟩
  have h1 := h heldOutOfRange 500 (Or.inr (by decide!))
  revert h1
  decide!

/-- When the reading is valid and the range check does not return early, `update()` continues
with lines 53-108 on the detector whose out-of-range counter was incremented or cleared. -/
theorem updateWith_of_not_fires (s : Detector) (d : ℚ) (hv : s.distanceValid = true)
    (hf : ¬ rangeCheckFires s d) :
    updateWith s d =
      updateClassify { s with outOfRangeCounter :=
        if d < MinimumDistance ∨ d > s.maxDistance then s.outOfRangeCounter + 1 else 0 } d := by
  unfold rangeCheckFires at hf
  by_cases hr : d < MinimumDistance ∨ d > s.maxDistance
  · have hc : ¬ s.outOfRangeCounter + 1 > s.config.outOfRangeCheckCount := fun hc => hf ⟨hr, hc⟩
    simp only [updateWith, hv, Bool.not_true, Bool.false_eq_true, if_false, if_pos hr, if_neg hc]
  · simp only [updateWith, hv, Bool.not_true, Bool.false_eq_true, if_false, if_neg hr]

/-- The danger-close override of lines 61-65. -/
theorem updateClassify_dangerClose (s : Detector) (d : ℚ) (hd : d < s.config.dangerCloseDistance) :
    (updateClassify s d).1.currentState = DANGERCLOSE ∧
      (updateClassify s d).1.baselineDistance = d := by
  unfold updateClassify updateTransition
  dsimp only
  split_ifs <;> simp_all [changeState_currentState]

/-- The cases STOPPED and OUTOFRANGE of the switch both end in IDLE. -/
theorem updateClassify_pulse (s : Detector) (d : ℚ) (hd : ¬ d < s.config.dangerCloseDistance)
    (h : s.currentState = STOPPED ∨ s.currentState = OUTOFRANGE) :
    (updateClassify s d).1.currentState = IDLE := by
  unfold updateClassify updateTransition
  dsimp only
  rcases h with h | h <;> split_ifs <;> simp_all [changeState_currentState]

/-- C3 amended. From STOPPED or OUTOFRANGE the state after the next `update()` is: IDLE when the
sampler reports an invalid reading; OUTOFRANGE when the reading is valid and the range check
returns early; DANGERCLOSE when it is valid, the range check does not return early and
`d < dangerCloseDistance`; and IDLE when it is valid, the range check does not return early and
`d ≥ dangerCloseDistance`. -/
theorem pulse_state_next (s : Detector) (d : ℚ)
    (h : s.currentState = STOPPED ∨ s.currentState = OUTOFRANGE) :
    (s.distanceValid = false → (updateWith s d).1.currentState = IDLE) ∧
    (s.distanceValid = true → rangeCheckFires s d →
      (updateWith s d).1.currentState = OUTOFRANGE) ∧
    (s.distanceValid = true → ¬ rangeCheckFires s d → d < s.config.dangerCloseDistance →
      (updateWith s d).1.currentState = DANGERCLOSE) ∧
    (s.distanceValid = true → ¬ rangeCheckFires s d → s.config.dangerCloseDistance ≤ d →
      (updateWith s d).1.currentState = IDLE) := by
  refine ⟨fun hv => ?_, fun hv hf => ?_, fun hv hf hd => ?_, fun hv hf hd => ?_⟩
  · simp [updateWith, hv, resetBaseLine]
    split_ifs <;> rfl
  · obtain ⟨hr, hc⟩ := hf
    simp [updateWith, hv, hr, hc, changeState_currentState]
  · rw [updateWith_of_not_fires s d hv hf]
    refine (updateClassify_dangerClose _ d ?_).1
    exact hd
  · rw [updateWith_of_not_fires s d hv hf]
    refine updateClassify_pulse _ d ?_ ?_
    · exact not_lt.mpr hd
    · exact h

/-- Instance of the amended C3 at `justStopped` (STOPPED, last reading valid): the in-range
distance 150, not below `dangerCloseDistance = 25`, brings the detector back to IDLE. -/
theorem pulse_state_next_witness :
    (justStopped.currentState = STOPPED ∧ justStopped.distanceValid = true ∧
      ¬ rangeCheckFires justStopped 150 ∧ justStopped.config.dangerCloseDistance ≤ 150) ∧
    (updateWith justStopped 150).1.currentState = IDLE :=
  ⟨by decide!,
    (pulse_state_next justStopped 150 (Or.inl (by decide!))).2.2.2 (by decide!) (by decide!)
      (by decide!)⟩

/-- C10 (move and stop) fails as stated. Set up at baseline 100 with the defaults
(`movementThreshold = 1.5`, `stabilityCheckCount = 3`), the valid filtered distances
`[100, 150, 150, 150]` do not give the states `[IDLE, MOVED, MOVED, STOPPED]`: the state after the
fourth tick is MOVED. -/
theorem move_and_stop_counterexample :
    ((setUpAt100 {}).baselineDistance = 100 ∧ (setUpAt100 {}).config.movementThreshold = 3 / 2 ∧
      (setUpAt100 {}).config.stabilityCheckCount = 3) ∧
    statesAfter (setUpAt100 {}) [100, 150, 150, 150] ≠ [IDLE, MOVED, MOVED, STOPPED] ∧
    (feedAll (setUpAt100 {}) [100, 150, 150, 150]).currentState = MOVED := by
  decide!

/-- C10 amended. Set up at baseline 100 with the defaults (`movementThreshold = 1.5`,
`stabilityCheckCount = 3`), the valid filtered distances `[100, 150, 150, 150]` give the states
`[IDLE, MOVED, MOVED, MOVED]`, with `currentDirection = BACKWARD` after each tick on which the
state is MOVED; STOPPED is the state after a fifth tick at 150. -/
theorem move_and_stop_scenario :
    ((setUpAt100 {}).baselineDistance = 100 ∧ (setUpAt100 {}).config.movementThreshold = 3 / 2 ∧
      (setUpAt100 {}).config.stabilityCheckCount = 3) ∧
    statesAfter (setUpAt100 {}) [100, 150, 150, 150] = [IDLE, MOVED, MOVED, MOVED] ∧
    directionsAfter (setUpAt100 {}) [100, 150, 150, 150] = [NONE, BACKWARD, BACKWARD, BACKWARD] ∧
    statesAfter (setUpAt100 {}) [100, 150, 150, 150, 150] = [IDLE, MOVED, MOVED, MOVED, STOPPED] := by
  decide!

/-- The survivors of a batch, one measurement at a time. -/
theorem survivors_cons (maxDistance : ℚ) (duration : Int) (raw : List Int) :
    survivors maxDistance (duration :: raw) =
      if survives maxDistance duration then rawDistance duration :: survivors maxDistance raw
      else survivors maxDistance raw := by
  unfold survives survivors
  by_cases h0 : duration = 0
  · simp [h0]
  · by_cases hr : 0 < rawDistance duration ∧ rawDistance duration ≤ maxDistance
    · simp [h0, hr, List.filter_cons]
    · have hr2 : ¬ ((duration ≠ 0) ∧ 0 < rawDistance duration ∧ rawDistance duration ≤ maxDistance) :=
        fun hc => hr hc.2
      rw [if_neg hr2]
      simp [h0, List.filter_cons]
      intro h1
      by_contra h2
      exact hr ⟨h1, not_lt.mp h2⟩

/-- One iteration of the loop keeps a measurement exactly when it survives. -/
theorem getDistanceIter_eq (maxDistance : ℚ) (acc : Acc) (duration : Int) :
    getDistanceIter maxDistance acc duration =
      if survives maxDistance duration then
        ⟨acc.total + rawDistance duration, acc.validReadings + 1⟩
      else acc := by
  unfold getDistanceIter survives rawDistance MinimumDistance
  by_cases h0 : duration = 0
  · simp [h0]
  · by_cases hr : 0 < (duration : ℚ) * (34 / 1000) / 2 ∧ (duration : ℚ) * (34 / 1000) / 2 ≤ maxDistance
    · have hr2 : ¬ ((duration : ℚ) * (34 / 1000) / 2 ≤ 0 ∨ (duration : ℚ) * (34 / 1000) / 2 > maxDistance) := by
        push_neg; exact hr
      rw [if_neg h0]
      simp only [if_neg hr2]
      rw [if_pos ⟨h0, hr⟩]
    · have hr2 : (duration : ℚ) * (34 / 1000) / 2 ≤ 0 ∨ (duration : ℚ) * (34 / 1000) / 2 > maxDistance := by
        by_contra hc; push_neg at hc; exact hr hc
      rw [if_neg h0]
      simp only [if_pos hr2]
      rw [if_neg (fun hc => hr hc.2)]

/-- The loop of `getDistance` adds up the survivors and counts them. -/
theorem foldl_getDistanceIter (maxDistance : ℚ) (raw : List Int) (acc : Acc) :
    raw.foldl (getDistanceIter maxDistance) acc =
      ⟨acc.total + (survivors maxDistance raw).sum,
        acc.validReadings + ((survivors maxDistance raw).length : Int)⟩ := by
  induction raw generalizing acc with
  | nil => simp [survivors]
  | cons duration raw ih =>
    rw [List.foldl_cons, ih, getDistanceIter_eq, survivors_cons]
    by_cases h : survives maxDistance duration
    · simp only [if_pos h, List.sum_cons, List.length_cons, Nat.cast_add, Nat.cast_one]
      congr 1 <;> ring
    · simp only [if_neg h]

/-- Closed form of `getDistance`: the mean of the survivors when there is one, the stored
`lastValidDistance` otherwise. -/
theorem getDistance_eq (s : Detector) (pulseIn : Nat → Int) :
    getDistance s pulseIn =
      if survivors s.maxDistance (batch s pulseIn) ≠ [] then
        ⟨mean (survivors s.maxDistance (batch s pulseIn)),
          { s with lastValidDistance := mean (survivors s.maxDistance (batch s pulseIn)),
                   distanceValid := true },
          fun i => pulseIn (s.config.averageReadingCount.toNat + i)⟩
      else
        ⟨s.lastValidDistance, { s with distanceValid := false },
          fun i => pulseIn (s.config.averageReadingCount.toNat + i)⟩ := by
  unfold getDistance batch
  simp only [foldl_getDistanceIter, zero_add]
  by_cases h : survivors s.maxDistance
      (List.map pulseIn (List.range s.config.averageReadingCount.toNat)) = []
  · simp [h]
  · have hpos : (0 : Int) < ((survivors s.maxDistance
        (List.map pulseIn (List.range s.config.averageReadingCount.toNat))).length : Int) := by
      exact_mod_cast List.length_pos.mpr h
    simp only [gt_iff_lt, hpos, if_true, ne_eq, h, not_false_eq_true, mean, Int.cast_natCast]

/-- A batch of timeouts has no survivor. -/
theorem survivors_eq_nil_of_timeouts (maxDistance : ℚ) (raw : List Int)
    (h : ∀ x ∈ raw, x = 0) : survivors maxDistance raw = [] := by
  induction raw with
  | nil => simp [survivors]
  | cons x raw ih =>
    rw [survivors_cons, if_neg, ih (fun y hy => h y (List.mem_cons_of_mem _ hy))]
    exact fun hs => hs.1 (h x (List.mem_cons_self _ _))

/-- C5 (invalid-reading reset). For every detector state, when the sampler reports
`valid = false`, `update()` sets `baselineDistance` to `lastValidDistance` and `currentState` to
IDLE, invokes the baseline-reset callback exactly once if one is registered and no state-change
callback, and leaves `previousState`, `currentDirection`, `previousDirection`, `previousDistance`,
`lastValidDistance`, `stableCounter` and `outOfRangeCounter` unchanged. Stated for the body of
`update()` after the sampler call and for `update()` as a whole. -/
theorem invalid_reading_reset :
    (∀ (s : Detector) (d : ℚ), s.distanceValid = false →
      ResetEffect s (updateWith s d).1 (updateWith s d).2) ∧
    (∀ (s : Detector) (pulseIn : Nat → Int),
      (getDistance s pulseIn).detector.distanceValid = false →
      ResetEffect s (update s pulseIn).1.1 (update s pulseIn).1.2) := by
  have key : ∀ (s : Detector) (d : ℚ), s.distanceValid = false →
      ResetEffect s (updateWith s d).1 (updateWith s d).2 := by
    intro s d hv
    unfold ResetEffect
    simp only [updateWith, hv, Bool.not_false, if_true, resetBaseLine]
    split_ifs with h <;> simp
  refine ⟨key, fun s pulseIn hv => ?_⟩
  have h := key (getDistance s pulseIn).detector (getDistance s pulseIn).distance hv
  rw [getDistance_eq] at hv h
  by_cases hS : survivors s.maxDistance (batch s pulseIn) ≠ []
  · rw [if_pos hS] at hv
    simp at hv
  · rw [if_neg hS] at h
    unfold update
    rw [getDistance_eq, if_neg hS]
    exact h

/-- Instance of C5: `justMoved` (MOVED, direction BACKWARD) with the reset callback registered,
ticked while the sensor is silent. -/
theorem invalid_reading_reset_witness :
    (getDistance (setResetBaseLineCallback justMoved true) noEcho).detector.distanceValid = false ∧
    ResetEffect (setResetBaseLineCallback justMoved true)
      (update (setResetBaseLineCallback justMoved true) noEcho).1.1
      (update (setResetBaseLineCallback justMoved true) noEcho).1.2 ∧
    (update (setResetBaseLineCallback justMoved true) noEcho).1.2 = [Event.resetBaseLine] :=
  ⟨by decide!,
    invalid_reading_reset.2 (setResetBaseLineCallback justMoved true) noEcho (by decide!),
    by decide!⟩

/-- A batch in which every measurement fails has no survivor. -/
theorem survivors_eq_nil_of_failed (maxDistance : ℚ) (raw : List Int)
    (h : ∀ x ∈ raw, ¬ survives maxDistance x) : survivors maxDistance raw = [] := by
  induction raw with
  | nil => simp [survivors]
  | cons x raw ih =>
    rw [survivors_cons, if_neg (h x (List.mem_cons_self _ _)),
      ih (fun y hy => h y (List.mem_cons_of_mem _ hy))]

/-- When no measurement of the first batch survives and the stored `lastValidDistance` lies in
`(0, 400]`, the first attempt of `initializeBaselineDistance` takes the fallback value returned by
`getDistance` for a reading and reports success. -/
theorem initializeBaselineLoop_of_failed_batch (s : Detector) (pulseIn : Nat → Int) (retries : Nat)
    (h : survivors s.maxDistance (batch s pulseIn) = [])
    (h0 : 0 < s.lastValidDistance) (h4 : s.lastValidDistance ≤ 400) :
    initializeBaselineLoop s pulseIn (retries + 1) =
      (true, { s with distanceValid := false, baselineDistance := s.lastValidDistance },
        fun i => pulseIn (s.config.averageReadingCount.toNat + i)) := by
  unfold initializeBaselineLoop
  simp only [getDistance_eq, if_neg (not_not.mpr h), MinimumDistance, MaximumDistance]
  rw [if_pos ⟨h0, h4⟩]

/-- On a fresh detector, when every raw measurement of the first batch of `setup(cfg)` fails,
`setup` leaves `baselineDistance = 100` (the initial `lastValidDistance`), whatever
`cfg.defaultBaseline` is. -/
theorem setup_baseline_of_failed_batch (triggerPin echoPin : Int) (b : Bool)
    (cfg : DetectorConfig) (pulseIn : Nat → Int)
    (h : ∀ i < cfg.averageReadingCount.toNat, ¬ survives 400 (pulseIn i)) :
    (setup (new triggerPin echoPin b) cfg pulseIn).1.baselineDistance = 100 := by
  have hS : survivors 400 ((List.range cfg.averageReadingCount.toNat).map pulseIn) = [] := by
    apply survivors_eq_nil_of_failed
    intro x hx
    obtain ⟨i, hi, rfl⟩ := List.mem_map.mp hx
    exact h i (List.mem_range.mp hi)
  simp only [setup, initializeBaselineDistance, show (5 : Int).toNat = 4 + 1 from rfl]
  rw [initializeBaselineLoop_of_failed_batch _ _ _ hS]
  · rfl
  · simp [new]
  · norm_num [new]

/-- C6 (setup fallback), evaluated on the code. A fresh detector is set up with
`defaultBaseline = 50` while every measurement times out: `initializeBaselineDistance` reports
success on the fallback value and `setup` leaves `baselineDistance = 100`, not
`cfg.defaultBaseline = 50`. -/
theorem setup_fallback_missed :
    configBaseline50.defaultBaseline = 50 ∧
    (∀ i < 15, noEcho i = 0) ∧
    (initializeBaselineDistance { new 9 10 false with config := configBaseline50 } noEcho 5).1 = true ∧
    (setup (new 9 10 false) configBaseline50 noEcho).1.baselineDistance = 100 ∧
    (setup (new 9 10 false) configBaseline50 noEcho).1.baselineDistance ≠
      configBaseline50.defaultBaseline := by
  decide!

/-- C7 (direction invariant), evaluated on the code. After `setup` at 102 cm, one `update()` at
153 cm gives MOVED with direction BACKWARD, and one `update()` with every measurement timing out
runs `resetBaseLine`, which assigns `currentState = IDLE` and leaves `currentDirection`: the
reachable state has `currentState = IDLE` and `currentDirection = BACKWARD`. -/
theorem direction_invariant_broken :
    Reachable resetWhileMoved ∧
    (movedAt153.currentState = MOVED ∧ movedAt153.currentDirection = BACKWARD) ∧
    resetWhileMoved.currentState = IDLE ∧
    resetWhileMoved.currentDirection = BACKWARD ∧
    ¬ (∀ s : Detector, Reachable s →
        s.currentState = IDLE ∨ s.currentState = STOPPED → s.currentDirection = NONE) := by
  have hr : Reachable resetWhileMoved := Reachable.afterUpdate noEcho reachable_movedAt153
  refine ⟨hr, by decide!, by decide!, by decide!, fun h => ?_⟩
  have h1 := h resetWhileMoved hr (Or.inl (by decide!))
  revert h1
  decide!

/-- Closed form of `changeState`. -/
theorem changeState_eq (s : Detector) (newState : State) (newDirection : MovementDirection) :
    changeState s newState newDirection =
      if newState ≠ s.currentState ∨ newDirection ≠ s.currentDirection then
        ({ s with
            previousState := s.currentState, currentState := newState,
            previousDirection := s.currentDirection,
            currentDirection := if newState = IDLE ∨ newState = STOPPED then NONE else newDirection },
          if s.onStateChange = true then
            [Event.stateChange s.currentState newState s.baselineDistance s.currentDirection
              (if newState = IDLE ∨ newState = STOPPED then NONE else newDirection)]
          else [])
      else (s, []) := by
  unfold changeState
  dsimp only
  split_ifs <;> rfl

/-- When the reading is valid and the range check returns early (lines 44-47). -/
theorem updateWith_of_fires (s : Detector) (d : ℚ) (hv : s.distanceValid = true)
    (hf : rangeCheckFires s d) :
    updateWith s d =
      ({ (changeState { s with outOfRangeCounter := s.outOfRangeCounter + 1 } OUTOFRANGE NONE).1 with
          previousDistance :=
            (changeState { s with outOfRangeCounter := s.outOfRangeCounter + 1 }
              OUTOFRANGE NONE).1.lastValidDistance },
        (changeState { s with outOfRangeCounter := s.outOfRangeCounter + 1 } OUTOFRANGE NONE).2) := by
  obtain ⟨hr, hc⟩ := hf
  unfold updateWith
  rw [if_neg (by rw [hv]; simp), if_pos hr]
  dsimp only
  rw [if_pos hc]

/-- The predicate `NotifiedExactly` only looks at the state, the direction and the events of the outcome. -/
theorem notifiedExactly_congr {cs : State} {cd : MovementDirection} {r r1 : Detector × List Event}
    (h : NotifiedExactly cs cd r) (h1 : r1.1.currentState = r.1.currentState)
    (h2 : r1.1.currentDirection = r.1.currentDirection) (h3 : r1.2 = r.2) :
    NotifiedExactly cs cd r1 := by
  unfold NotifiedExactly at *
  rw [h1, h2, h3]
  exact h

/-- A call that changes neither state nor direction and invokes nothing is as C8 asks. -/
theorem notifiedExactly_silent (s : Detector) :
    NotifiedExactly s.currentState s.currentDirection (s, []) := by
  simp [NotifiedExactly]

/-- A call of `changeState` notifies exactly on change, except when asked to stay in IDLE or STOPPED. -/
theorem changeState_notified (s : Detector) (newState : State) (newDirection : MovementDirection)
    (hcb : s.onStateChange = true)
    (hok : newState ≠ s.currentState ∨ ¬ (newState = IDLE ∨ newState = STOPPED)) :
    NotifiedExactly s.currentState s.currentDirection (changeState s newState newDirection) := by
  rw [changeState_eq]
  unfold NotifiedExactly
  by_cases hc : newState ≠ s.currentState ∨ newDirection ≠ s.currentDirection
  · rw [if_pos hc]
    simp only [hcb, if_true, List.length_singleton, le_refl, ne_eq, List.cons_ne_nil,
      not_false_eq_true, true_iff, List.mem_singleton, forall_eq, true_and]
    refine ⟨?_, ⟨s.baselineDistance, rfl⟩⟩
    rcases hok with h | h
    · exact Or.inl h
    · rw [if_neg h]
      rcases hc with h1 | h1
      · exact Or.inl h1
      · exact Or.inr h1
  · rw [if_neg hc]
    simp

/-- Lines 61-106 notify exactly on change. -/
theorem updateTransition_notified (s : Detector) (d thr : ℚ) (nd : MovementDirection)
    (hcb : s.onStateChange = true) :
    NotifiedExactly s.currentState s.currentDirection (updateTransition s d thr nd) := by
  unfold updateTransition
  by_cases hd : d < s.config.dangerCloseDistance
  · rw [if_pos hd]
    exact notifiedExactly_congr (changeState_notified s DANGERCLOSE nd hcb (Or.inr (by simp)))
      rfl rfl rfl
  · rw [if_neg hd]
    split
    · rename_i hs
      split_ifs
      · exact notifiedExactly_congr
          (changeState_notified s MOVED nd hcb (Or.inl (by rw [hs]; decide))) rfl rfl rfl
      · exact notifiedExactly_silent s
    · rename_i hs
      dsimp only
      split_ifs
      · exact notifiedExactly_congr
          (changeState_notified { s with stableCounter := s.stableCounter + 1 } STOPPED nd hcb
            (Or.inl (by show STOPPED ≠ s.currentState; rw [hs]; decide))) rfl rfl rfl
      · exact notifiedExactly_congr (notifiedExactly_silent s) rfl rfl rfl
      · exact notifiedExactly_congr (notifiedExactly_silent s) rfl rfl rfl
    · rename_i hs
      exact changeState_notified { s with stableCounter := 0 } IDLE NONE hcb
        (Or.inl (by show IDLE ≠ s.currentState; rw [hs]; decide))
    · rename_i hs
      split_ifs
      · exact changeState_notified { s with baselineDistance := d, stableCounter := 0 } IDLE nd hcb
          (Or.inl (by show IDLE ≠ s.currentState; rw [hs]; decide))
      · exact notifiedExactly_silent s
    · rename_i hs
      exact changeState_notified s IDLE nd hcb (Or.inl (by rw [hs]; decide))

/-- Lines 53-108 notify exactly on change. -/
theorem updateClassify_notified (s : Detector) (d : ℚ) (hcb : s.onStateChange = true) :
    NotifiedExactly s.currentState s.currentDirection (updateClassify s d) := by
  unfold updateClassify
  dsimp only
  split_ifs <;>
    first
    | exact updateTransition_notified s d _ _ hcb
    | exact updateTransition_notified { s with previousDistance := d } d _ _ hcb

/-- C8 (notification exactly on change). With a state-change callback registered and a filtered
distance flagged valid, one `update()` invokes the callback at most once, invokes it if and only
if the pair (`currentState`, `currentDirection`) after the call differs from the pair before it,
and then passes the pair before the call and the pair after the call as its state and direction
arguments. -/
theorem notification_exactly_on_change (s : Detector) (d : ℚ) (hv : s.distanceValid = true)
    (hcb : s.onStateChange = true) :
    (updateWith s d).2.length ≤ 1 ∧
    ((updateWith s d).2 ≠ [] ↔
      ((updateWith s d).1.currentState ≠ s.currentState ∨
        (updateWith s d).1.currentDirection ≠ s.currentDirection)) ∧
    ∀ e ∈ (updateWith s d).2, ∃ dist : ℚ,
      e = Event.stateChange s.currentState (updateWith s d).1.currentState dist
        s.currentDirection (updateWith s d).1.currentDirection := by
  show NotifiedExactly s.currentState s.currentDirection (updateWith s d)
  by_cases hf : rangeCheckFires s d
  · rw [updateWith_of_fires s d hv hf]
    exact notifiedExactly_congr
      (changeState_notified { s with outOfRangeCounter := s.outOfRangeCounter + 1 }
        OUTOFRANGE NONE hcb (Or.inr (by simp))) rfl rfl rfl
  · rw [updateWith_of_not_fires s d hv hf]
    exact updateClassify_notified _ d hcb

/-- Instance of C8 at `idleWithCallback`: the valid distance 150 moves the detector from
(IDLE, NONE) to (MOVED, BACKWARD), and the callback is invoked once with these two pairs. -/
theorem notification_exactly_on_change_witness :
    (idleWithCallback.distanceValid = true ∧ idleWithCallback.onStateChange = true ∧
      (updateWith idleWithCallback 150).2 = [Event.stateChange IDLE MOVED 100 NONE BACKWARD]) ∧
    ((updateWith idleWithCallback 150).2.length ≤ 1 ∧
      ((updateWith idleWithCallback 150).2 ≠ [] ↔
        ((updateWith idleWithCallback 150).1.currentState ≠ idleWithCallback.currentState ∨
          (updateWith idleWithCallback 150).1.currentDirection ≠
            idleWithCallback.currentDirection)) ∧
      ∀ e ∈ (updateWith idleWithCallback 150).2, ∃ dist : ℚ,
        e = Event.stateChange idleWithCallback.currentState
          (updateWith idleWithCallback 150).1.currentState dist
          idleWithCallback.currentDirection
          (updateWith idleWithCallback 150).1.currentDirection) :=
  ⟨by decide!, notification_exactly_on_change idleWithCallback 150 (by decide!) (by decide!)⟩

/-- Lines 61-106 respect the baseline frame. -/
theorem updateTransition_baseline (s : Detector) (d thr : ℚ) (nd : MovementDirection) :
    BaselineFramed s (updateTransition s d thr nd) := by
  unfold BaselineFramed updateTransition
  by_cases hd : d < s.config.dangerCloseDistance
  · rw [if_pos hd]
    simp [changeState_currentState]
  · rw [if_neg hd]
    split
    · split_ifs <;> simp [changeState_baselineDistance]
    · dsimp only
      split_ifs <;> simp [changeState_currentState]
    · simp [changeState_baselineDistance]
    · rename_i hs
      split_ifs <;> simp [changeState_currentState, hs]
    · simp [changeState_baselineDistance]

/-- Lines 53-108 respect the baseline frame. -/
theorem updateClassify_baseline (s : Detector) (d : ℚ) :
    BaselineFramed s (updateClassify s d) := by
  unfold updateClassify
  dsimp only
  split_ifs <;>
    first
    | exact updateTransition_baseline s d _ _
    | exact updateTransition_baseline { s with previousDistance := d } d _ _

/-- C9 (baseline frame). For every detector state and every sampler result, if one `update()`
changes `baselineDistance` then the reading was invalid, or the resulting state is STOPPED, or it
is DANGERCLOSE, or the prior state was DANGERCLOSE and the resulting one is IDLE. In particular
an `update()` whose resulting state is MOVED or OUTOFRANGE leaves `baselineDistance` unchanged. -/
theorem baseline_frame (s : Detector) (d : ℚ) :
    ((updateWith s d).1.baselineDistance ≠ s.baselineDistance →
      s.distanceValid = false ∨ (updateWith s d).1.currentState = STOPPED ∨
        (updateWith s d).1.currentState = DANGERCLOSE ∨
        (s.currentState = DANGERCLOSE ∧ (updateWith s d).1.currentState = IDLE)) ∧
    ((updateWith s d).1.currentState = MOVED ∨ (updateWith s d).1.currentState = OUTOFRANGE →
      (updateWith s d).1.baselineDistance = s.baselineDistance) := by
  have key : s.distanceValid = true → BaselineFramed s (updateWith s d) := by
    intro hv
    by_cases hf : rangeCheckFires s d
    · rw [updateWith_of_fires s d hv hf]
      exact Or.inl (changeState_baselineDistance _ _ _)
    · rw [updateWith_of_not_fires s d hv hf]
      exact updateClassify_baseline _ d
  constructor
  · intro hne
    cases hv : s.distanceValid with
    | false => exact Or.inl rfl
    | true =>
      rcases key hv with h | h
      · exact absurd h hne
      · exact Or.inr h
  · intro hst
    cases hv : s.distanceValid with
    | false =>
      have hi : (updateWith s d).1.currentState = IDLE := by
        simp only [updateWith, hv, Bool.not_false, if_true, resetBaseLine]
        split_ifs <;> rfl
      rw [hi] at hst
      simp at hst
    | true =>
      rcases key hv with h | h | h | h
      · exact h
      · rw [h] at hst; simp at hst
      · rw [h] at hst; simp at hst
      · rw [h.2] at hst; simp at hst

/-- Instance of C9 at `justMoved`, whose third tick at 150 enters STOPPED and re-anchors the
baseline from 100 to 150; the second tick stays in MOVED and keeps the baseline. -/
theorem baseline_frame_witness :
    ((updateWith (feedAll justMoved [150, 150]) 150).1.baselineDistance ≠
        (feedAll justMoved [150, 150]).baselineDistance ∧
      (updateWith (feedAll justMoved [150]) 150).1.currentState = MOVED) ∧
    ((feedAll justMoved [150, 150]).distanceValid = false ∨
      (updateWith (feedAll justMoved [150, 150]) 150).1.currentState = STOPPED ∨
      (updateWith (feedAll justMoved [150, 150]) 150).1.currentState = DANGERCLOSE ∨
      ((feedAll justMoved [150, 150]).currentState = DANGERCLOSE ∧
        (updateWith (feedAll justMoved [150, 150]) 150).1.currentState = IDLE)) ∧
    (updateWith (feedAll justMoved [150]) 150).1.baselineDistance =
      (feedAll justMoved [150]).baselineDistance :=
  ⟨by decide!,
    (baseline_frame (feedAll justMoved [150, 150]) 150).1 (by decide!),
    (baseline_frame (feedAll justMoved [150]) 150).2 (Or.inl (by decide!))⟩

/-- In MOVED, with a non-negative dynamic threshold and a distance not below
`dangerCloseDistance`, lines 53-108 always take the counting branch of the case MOVED: the
direction inference has already stored the distance in `previousDistance` whenever it was outside
the threshold. -/
theorem updateClassify_moved (s : Detector) (d : ℚ) (hs : s.currentState = MOVED)
    (hd : ¬ d < s.config.dangerCloseDistance) (hthr : 0 ≤ dynamicThresholdAt s d) :
    (updateClassify s d).1.stableCounter = s.stableCounter + 1 ∧
    (updateClassify s d).1.currentState =
      if s.stableCounter + 1 ≥ s.config.stabilityCheckCount then STOPPED else MOVED := by
  have hself :
      withinDelta d d (max s.config.movementThreshold (d * s.config.dynamicThreshold)) = true := by
    unfold dynamicThresholdAt at hthr
    simp [withinDelta, MovementDetector.abs, hthr]
  unfold updateClassify
  dsimp only
  by_cases hw : withinDelta d s.previousDistance
      (max s.config.movementThreshold (d * s.config.dynamicThreshold)) = true
  · simp only [hw, Bool.not_true, Bool.false_eq_true, if_false]
    unfold updateTransition
    rw [if_neg hd]
    simp only [hs, hw, if_true]
    split_ifs <;> simp [changeState_currentState, changeState_eq]
  · simp only [hw, Bool.not_false, if_true]
    unfold updateTransition
    rw [if_neg hd]
    simp only [hs, hself, if_true]
    split_ifs <;> simp [changeState_currentState, changeState_eq]

/-- The macro `abs` computes the absolute value. -/
theorem abs_eq_abs (x : ℚ) : MovementDetector.abs x = |x| := by
  unfold MovementDetector.abs
  split_ifs with h
  · exact (abs_of_pos h).symm
  · exact (abs_of_nonpos (not_lt.mp h)).symm

/-- The macro `max` computes the maximum. -/
theorem max_eq_max (a b : ℚ) : MovementDetector.max a b = Max.max a b := by
  unfold MovementDetector.max
  split_ifs with h
  · exact (max_eq_left (le_of_lt h)).symm
  · exact (max_eq_right (not_lt.mp h)).symm

/-- The test `withinDelta(a, b, delta)` holds exactly when `|a - b| ≤ delta`. -/
theorem withinDelta_iff (a b delta : ℚ) : withinDelta a b delta = true ↔ |a - b| ≤ delta := by
  simp [withinDelta, abs_eq_abs]

/-- When the reading is valid and the range check does not return early, `update()` ends in
`updateTransition`, run with the dynamic threshold of line 54 on a detector that differs from the
original at most in `previousDistance` and `outOfRangeCounter`. -/
theorem updateWith_eq_transition (s : Detector) (d : ℚ) (hv : s.distanceValid = true)
    (hf : ¬ rangeCheckFires s d) :
    ∃ (s1 : Detector) (nd : MovementDirection), HandedOver s s1 ∧
      s1.outOfRangeCounter =
        (if d < MinimumDistance ∨ d > s.maxDistance then s.outOfRangeCounter + 1 else 0) ∧
      updateWith s d =
        updateTransition s1 d
          (Max.max s.config.movementThreshold (d * s.config.dynamicThreshold)) nd := by
  rw [updateWith_of_not_fires s d hv hf, ← max_eq_max]
  unfold updateClassify
  dsimp only
  split_ifs
  all_goals
    refine ⟨_, _, ?_, ?_, rfl⟩
    · exact ⟨rfl, rfl, rfl, rfl, rfl, rfl, rfl, rfl, rfl⟩
    · simp [*]

/-- The case IDLE of the switch. -/
theorem updateTransition_of_idle (s : Detector) (d thr : ℚ) (nd : MovementDirection)
    (hs : s.currentState = IDLE) (hd : ¬ d < s.config.dangerCloseDistance) :
    updateTransition s d thr nd =
      if withinDelta d s.baselineDistance thr = true then (s, [])
      else ({ (changeState s MOVED nd).1 with stableCounter := 0, previousDistance := d },
        (changeState s MOVED nd).2) := by
  unfold updateTransition
  rw [if_neg hd]
  simp only [hs]
  cases withinDelta d s.baselineDistance thr <;> simp

/-- The case DANGERCLOSE of the switch. -/
theorem updateTransition_of_dangerClose (s : Detector) (d thr : ℚ) (nd : MovementDirection)
    (hs : s.currentState = DANGERCLOSE) (hd : ¬ d < s.config.dangerCloseDistance) :
    updateTransition s d thr nd =
      if withinDelta d s.config.dangerCloseDistance thr = true then (s, [])
      else changeState { s with baselineDistance := d, stableCounter := 0 } IDLE nd := by
  unfold updateTransition
  rw [if_neg hd]
  simp only [hs]
  cases withinDelta d s.config.dangerCloseDistance thr <;> simp

/-- C11 (no transition at 40) fails as stated. Set up at baseline 100 with the default
configuration (`dangerCloseDistance = 25`, `movementThreshold = 1.5`, `dynamicThreshold = 0.01f`),
the valid filtered distances `[100, 100, 100, 40]` do not give `[IDLE, IDLE, IDLE, IDLE]`: 40
differs from the baseline by 60, more than the threshold `max(1.5, 0.4) = 1.5`, and the state
after the fourth tick is MOVED. -/
theorem no_transition_at_40_counterexample :
    ((setUpAt100 {}).baselineDistance = 100 ∧ (setUpAt100 {}).config.dangerCloseDistance = 25) ∧
    statesAfter (setUpAt100 {}) [100, 100, 100, 40] ≠ [IDLE, IDLE, IDLE, IDLE] ∧
    (dynamicThresholdAt (feedAll (setUpAt100 {}) [100, 100, 100]) 40 = 3 / 2 ∧
      withinDelta 40 (feedAll (setUpAt100 {}) [100, 100, 100]).baselineDistance (3 / 2) = false) ∧
    (feedAll (setUpAt100 {}) [100, 100, 100, 40]).currentState = MOVED := by
  decide!

/-- C11 amended. Set up at baseline 100 with the default configuration, the valid filtered
distances `[100, 100, 100, 40]` give the states `[IDLE, IDLE, IDLE, MOVED]`: the first three
ticks leave IDLE with direction NONE, and the fourth, at 40 (not below `dangerCloseDistance = 25`
but 60 away from the baseline), enters MOVED with direction FORWARD. -/
theorem no_transition_at_40_scenario :
    ((setUpAt100 {}).baselineDistance = 100 ∧ (setUpAt100 {}).config.dangerCloseDistance = 25) ∧
    statesAfter (setUpAt100 {}) [100, 100, 100, 40] = [IDLE, IDLE, IDLE, MOVED] ∧
    directionsAfter (setUpAt100 {}) [100, 100, 100, 40] = [NONE, NONE, NONE, FORWARD] := by
  decide!

/-- The settings are not written by `changeState`. -/
theorem changeState_sameSettings (s : Detector) (newState : State)
    (newDirection : MovementDirection) :
    SameSettings s (changeState s newState newDirection).1 := by
  rw [changeState_eq]
  split_ifs <;> exact ⟨rfl, rfl, rfl, rfl, rfl, rfl⟩

/-- Lines 61-106 do not write the settings. -/
theorem updateTransition_sameSettings (s : Detector) (d thr : ℚ) (nd : MovementDirection) :
    SameSettings s (updateTransition s d thr nd).1 := by
  have key : ∀ (t : Detector) (ns : State), SameSettings s t →
      ∀ u : Detector, u.config = (changeState t ns nd).1.config →
        u.maxDistance = (changeState t ns nd).1.maxDistance →
        u.lastValidDistance = (changeState t ns nd).1.lastValidDistance →
        u.outOfRangeCounter = (changeState t ns nd).1.outOfRangeCounter →
        u.distanceValid = (changeState t ns nd).1.distanceValid →
        u.onStateChange = (changeState t ns nd).1.onStateChange → SameSettings s u := by
    intro t ns ht u h1 h2 h3 h4 h5 h6
    have hc := changeState_sameSettings t ns nd
    exact ⟨h1.trans (hc.config.trans ht.config), h2.trans (hc.maxDistance.trans ht.maxDistance),
      h3.trans (hc.lastValidDistance.trans ht.lastValidDistance),
      h4.trans (hc.outOfRangeCounter.trans ht.outOfRangeCounter),
      h5.trans (hc.distanceValid.trans ht.distanceValid),
      h6.trans (hc.onStateChange.trans ht.onStateChange)⟩
  have hrefl : SameSettings s s := ⟨rfl, rfl, rfl, rfl, rfl, rfl⟩
  unfold updateTransition
  by_cases hd : d < s.config.dangerCloseDistance
  · rw [if_pos hd]
    exact key s DANGERCLOSE hrefl _ rfl rfl rfl rfl rfl rfl
  · rw [if_neg hd]
    split
    · split_ifs
      · exact key s MOVED hrefl _ rfl rfl rfl rfl rfl rfl
      · exact hrefl
    · dsimp only
      split_ifs
      · exact key { s with stableCounter := s.stableCounter + 1 } STOPPED
          ⟨rfl, rfl, rfl, rfl, rfl, rfl⟩ _ rfl rfl rfl rfl rfl rfl
      · exact ⟨rfl, rfl, rfl, rfl, rfl, rfl⟩
      · exact ⟨rfl, rfl, rfl, rfl, rfl, rfl⟩
    · have h := changeState_sameSettings { s with stableCounter := 0 } IDLE NONE
      exact ⟨h.config, h.maxDistance, h.lastValidDistance, h.outOfRangeCounter, h.distanceValid,
        h.onStateChange⟩
    · split_ifs
      · have h := changeState_sameSettings
          { s with baselineDistance := d, stableCounter := 0 } IDLE nd
        exact ⟨h.config, h.maxDistance, h.lastValidDistance, h.outOfRangeCounter,
          h.distanceValid, h.onStateChange⟩
      · exact hrefl
    · exact changeState_sameSettings s IDLE nd

/-- Lines 61-106 never end in OUTOFRANGE. -/
theorem updateTransition_ne_outOfRange (s : Detector) (d thr : ℚ) (nd : MovementDirection) :
    (updateTransition s d thr nd).1.currentState ≠ OUTOFRANGE := by
  unfold updateTransition
  by_cases hd : d < s.config.dangerCloseDistance
  · rw [if_pos hd]
    simp [changeState_currentState]
  · rw [if_neg hd]
    split
    · rename_i hs
      split_ifs
      · simp [changeState_currentState]
      · simp [hs]
    · rename_i hs
      dsimp only
      split_ifs
      · simp [changeState_currentState]
      · simp [hs]
      · simp [hs]
    · simp [changeState_currentState]
    · rename_i hs
      split_ifs
      · simp [changeState_currentState]
      · simp [hs]
    · simp [changeState_currentState]

/-- The direction after `changeState`: cleared on entering IDLE or STOPPED, the requested one on
any other change, and untouched when nothing changes. -/
theorem changeState_currentDirection (s : Detector) (newState : State)
    (newDirection : MovementDirection) :
    (changeState s newState newDirection).1.currentDirection =
      if newState ≠ s.currentState ∨ newDirection ≠ s.currentDirection then
        (if newState = IDLE ∨ newState = STOPPED then NONE else newDirection)
      else s.currentDirection := by
  rw [changeState_eq]
  by_cases h : newState ≠ s.currentState ∨ newDirection ≠ s.currentDirection
  · rw [if_pos h, if_pos h]
  · rw [if_neg h, if_neg h]

/-- A valid tick on which the range check does not return early keeps the settings, counts the
out-of-bounds reading or clears the counter, and does not end in OUTOFRANGE. -/
theorem updateWith_quiet (s : Detector) (d : ℚ) (hv : s.distanceValid = true)
    (hf : ¬ rangeCheckFires s d) :
    (updateWith s d).1.config = s.config ∧
    (updateWith s d).1.maxDistance = s.maxDistance ∧
    (updateWith s d).1.lastValidDistance = s.lastValidDistance ∧
    (updateWith s d).1.outOfRangeCounter =
      (if d < MinimumDistance ∨ d > s.maxDistance then s.outOfRangeCounter + 1 else 0) ∧
    (updateWith s d).1.currentState ≠ OUTOFRANGE := by
  obtain ⟨s1, nd, hh, hc, he⟩ := updateWith_eq_transition s d hv hf
  rw [he]
  have hf := updateTransition_sameSettings s1 d
    (Max.max s.config.movementThreshold (d * s.config.dynamicThreshold)) nd
  exact ⟨hf.config.trans hh.config, hf.maxDistance.trans hh.maxDistance,
    hf.lastValidDistance.trans hh.lastValidDistance, hf.outOfRangeCounter.trans hc,
    updateTransition_ne_outOfRange _ _ _ _⟩

/-- A valid tick on which the range check returns early ends in OUTOFRANGE with direction NONE
and `previousDistance = lastValidDistance`, and keeps the settings. -/
theorem updateWith_fired (s : Detector) (d : ℚ) (hv : s.distanceValid = true)
    (hf : rangeCheckFires s d) :
    (updateWith s d).1.currentState = OUTOFRANGE ∧
    (updateWith s d).1.currentDirection = NONE ∧
    (updateWith s d).1.previousDistance = (updateWith s d).1.lastValidDistance ∧
    (updateWith s d).1.config = s.config ∧
    (updateWith s d).1.maxDistance = s.maxDistance ∧
    (updateWith s d).1.baselineDistance = s.baselineDistance := by
  rw [updateWith_of_fires s d hv hf]
  have hs := changeState_sameSettings { s with outOfRangeCounter := s.outOfRangeCounter + 1 }
    OUTOFRANGE NONE
  refine ⟨changeState_currentState _ _ _, ?_, rfl, hs.config, hs.maxDistance,
    changeState_baselineDistance _ _ _⟩
  rw [changeState_currentDirection]
  split_ifs with h h1
  · exact absurd h1 (by simp)
  · rfl
  · push_neg at h
    exact h.2.symm

/-- The detector after one more successful tick. -/
theorem feedAll_snoc (s : Detector) (ds : List ℚ) (d : ℚ) :
    feedAll s (ds ++ [d]) = (feed (feedAll s ds) d).1 := by
  simp [feedAll, List.foldl_append]

/-- A run of out-of-bounds ticks no longer than `outOfRangeCheckCount` is counted tick by tick
and does not reach OUTOFRANGE. -/
theorem feedAll_outOfBounds (s : Detector) (ds : List ℚ) (hc : s.outOfRangeCounter = 0)
    (hb : ∀ x ∈ ds, x < 0 ∨ x > s.maxDistance)
    (hl : (ds.length : Int) ≤ s.config.outOfRangeCheckCount) :
    (feedAll s ds).config = s.config ∧ (feedAll s ds).maxDistance = s.maxDistance ∧
    (feedAll s ds).outOfRangeCounter = (ds.length : Int) ∧
    (ds ≠ [] → (feedAll s ds).currentState ≠ OUTOFRANGE) := by
  induction ds using List.reverseRecOn with
  | nil => exact ⟨rfl, rfl, by simpa using hc, fun h => absurd rfl h⟩
  | append_singleton ds d ih =>
    have hl1 : (ds.length : Int) + 1 ≤ s.config.outOfRangeCheckCount := by
      simpa using hl
    obtain ⟨i1, i2, i3, -⟩ := ih (fun x hx => hb x (List.mem_append_left _ hx)) (by linarith)
    have hd : d < 0 ∨ d > s.maxDistance := hb d (by simp)
    have hq := updateWith_quiet
      { feedAll s ds with lastValidDistance := d, distanceValid := true } d rfl
      (fun hf => absurd hf.2 (not_lt.mpr (by
        show (feedAll s ds).outOfRangeCounter + 1 ≤ (feedAll s ds).config.outOfRangeCheckCount
        rw [i1, i3]; exact hl1)))
    rw [feedAll_snoc]
    obtain ⟨q1, q2, -, q4, q5⟩ := hq
    refine ⟨q1.trans i1, q2.trans i2, ?_, fun _ => q5⟩
    refine q4.trans ?_
    have hd2 : d < MinimumDistance ∨ d > (feedAll s ds).maxDistance := by
      rw [i2]; exact hd
    show (if d < MinimumDistance ∨ d > (feedAll s ds).maxDistance then
      (feedAll s ds).outOfRangeCounter + 1 else 0) = _
    rw [if_pos hd2, i3]
    simp

/-- The tick that follows `outOfRangeCheckCount` counted out-of-bounds ticks is again out of
bounds: the range check returns early and the detector is in OUTOFRANGE. -/
theorem feedAll_outOfBounds_fire (s : Detector) (ds : List ℚ) (d : ℚ)
    (hc : s.outOfRangeCounter = 0)
    (hb : ∀ x ∈ ds ++ [d], x < 0 ∨ x > s.maxDistance)
    (hl : (ds.length : Int) = s.config.outOfRangeCheckCount) :
    (feedAll s (ds ++ [d])).currentState = OUTOFRANGE ∧
    (feedAll s (ds ++ [d])).currentDirection = NONE ∧
    (feedAll s (ds ++ [d])).previousDistance = (feedAll s (ds ++ [d])).lastValidDistance ∧
    (feedAll s (ds ++ [d])).config = s.config ∧
    (feedAll s (ds ++ [d])).maxDistance = s.maxDistance := by
  obtain ⟨i1, i2, i3, -⟩ := feedAll_outOfBounds s ds hc
    (fun x hx => hb x (List.mem_append_left _ hx)) (le_of_eq hl)
  have hd : d < MinimumDistance ∨ d > (feedAll s ds).maxDistance := by
    rw [i2]; exact hb d (by simp)
  have hf : rangeCheckFires
      { feedAll s ds with lastValidDistance := d, distanceValid := true } d := by
    refine ⟨hd, ?_⟩
    show (feedAll s ds).outOfRangeCounter + 1 > (feedAll s ds).config.outOfRangeCheckCount
    rw [i1, i3, hl]
    exact lt_add_one _
  obtain ⟨f1, f2, f3, f4, f5, -⟩ := updateWith_fired
    { feedAll s ds with lastValidDistance := d, distanceValid := true } d rfl hf
  rw [feedAll_snoc]
  exact ⟨f1, f2, f3, f4.trans i1, f5.trans i2⟩

/-- From STOPPED or OUTOFRANGE, a successful tick whose distance is in range and not below
`dangerCloseDistance` ends in IDLE. -/
theorem feed_pulse_idle (t : Detector) (d : ℚ)
    (hs : t.currentState = STOPPED ∨ t.currentState = OUTOFRANGE)
    (h0 : 0 ≤ d) (hm : d ≤ t.maxDistance) (hdc : t.config.dangerCloseDistance ≤ d) :
    (feed t d).1.currentState = IDLE := by
  have hr : ¬ (d < MinimumDistance ∨ d > t.maxDistance) := by
    simp only [MinimumDistance]; push_neg; exact ⟨h0, hm⟩
  have e := updateWith_of_not_fires { t with lastValidDistance := d, distanceValid := true } d
    rfl (fun hf => hr hf.1)
  have p := updateClassify_pulse
    { t with lastValidDistance := d, distanceValid := true,
             outOfRangeCounter := if d < MinimumDistance ∨ d > t.maxDistance then
               t.outOfRangeCounter + 1 else 0 } d (not_lt.mpr hdc) hs
  exact (congrArg (fun r => r.1.currentState) e).trans p

/-- C12 (out-of-range debounce), for the body of `update()` fed with sampler results flagged
valid. In general, with `outOfRangeCheckCount = n ≥ 0` and `outOfRangeCounter = 0` at the start,
a run of consecutive out-of-bounds ticks does not reach OUTOFRANGE within its first `n` ticks and
is in OUTOFRANGE, with direction NONE and `previousDistance = lastValidDistance`, after tick
`n + 1`. In particular, with `outOfRangeCheckCount = 2` and `maxDistance < 500`, three ticks at
500 give OUTOFRANGE after the third and not after the first or second, and a fourth tick whose
distance is in range and not below `dangerCloseDistance` gives IDLE. -/
theorem outOfRange_debounce :
    (∀ (s : Detector) (ds : List ℚ), s.outOfRangeCounter = 0 →
      0 ≤ s.config.outOfRangeCheckCount → (∀ x ∈ ds, x < 0 ∨ x > s.maxDistance) →
      (ds ≠ [] → (ds.length : Int) ≤ s.config.outOfRangeCheckCount →
        (feedAll s ds).currentState ≠ OUTOFRANGE) ∧
      ((ds.length : Int) = s.config.outOfRangeCheckCount + 1 →
        (feedAll s ds).currentState = OUTOFRANGE ∧ (feedAll s ds).currentDirection = NONE ∧
          (feedAll s ds).previousDistance = (feedAll s ds).lastValidDistance)) ∧
    (∀ s : Detector, s.outOfRangeCounter = 0 → s.config.outOfRangeCheckCount = 2 →
      s.maxDistance < 500 →
      (feedAll s [500]).currentState ≠ OUTOFRANGE ∧
      (feedAll s [500, 500]).currentState ≠ OUTOFRANGE ∧
      (feedAll s [500, 500, 500]).currentState = OUTOFRANGE ∧
      (feedAll s [500, 500, 500]).currentDirection = NONE ∧
      (feedAll s [500, 500, 500]).previousDistance =
        (feedAll s [500, 500, 500]).lastValidDistance ∧
      ∀ d : ℚ, 0 ≤ d → d ≤ s.maxDistance → s.config.dangerCloseDistance ≤ d →
        (feedAll s [500, 500, 500, d]).currentState = IDLE) := by
  constructor
  · intro s ds hc hn hb
    constructor
    · intro hne hl
      exact (feedAll_outOfBounds s ds hc hb hl).2.2.2 hne
    · intro hl
      rcases List.eq_nil_or_concat ds with h | ⟨ds1, d, h⟩
      · subst h
        simp at hl
        omega
      · rw [List.concat_eq_append] at h
        subst h
        have hl1 : (ds1.length : Int) = s.config.outOfRangeCheckCount := by
          simp at hl
          omega
        obtain ⟨f1, f2, f3, -⟩ := feedAll_outOfBounds_fire s ds1 d hc hb hl1
        exact ⟨f1, f2, f3⟩
  · intro s hc hn hm
    have hb : ∀ (l : List ℚ), (∀ x ∈ l, x = 500) → ∀ x ∈ l, x < 0 ∨ x > s.maxDistance :=
      fun l hl x hx => Or.inr (by rw [hl x hx]; exact hm)
    have h1 := feedAll_outOfBounds s [500] hc (hb _ (by simp)) (by rw [hn]; norm_num)
    have h2 := feedAll_outOfBounds s [500, 500] hc (hb _ (by simp)) (by rw [hn]; norm_num)
    obtain ⟨f1, f2, f3, f4, f5⟩ := feedAll_outOfBounds_fire s [500, 500] 500 hc
      (hb _ (by simp)) (by rw [hn]; norm_num)
    refine ⟨h1.2.2.2 (by simp), h2.2.2.2 (by simp), f1, f2, f3, ?_⟩
    intro d h0 hd hdc
    have he : feedAll s [500, 500, 500, d] = (feed (feedAll s ([500, 500] ++ [500])) d).1 := rfl
    rw [he]
    exact feed_pulse_idle _ d (Or.inr f1) h0 (by rw [f5]; exact hd) (by rw [f4]; exact hdc)

/-- One successful tick at rest: in IDLE with the baseline at `d`, a non-negative
`movementThreshold` and `d` in range and not below `dangerCloseDistance`, the tick invokes no
callback and leaves IDLE, the baseline and the settings. -/
theorem feed_at_rest (t : Detector) (d : ℚ) (hs : t.currentState = IDLE)
    (hb : t.baselineDistance = d) (hmt : 0 ≤ t.config.movementThreshold)
    (h0 : 0 ≤ d) (hm : d ≤ t.maxDistance) (hdc : t.config.dangerCloseDistance ≤ d) :
    (feed t d).2 = [] ∧ (feed t d).1.currentState = IDLE ∧ (feed t d).1.baselineDistance = d ∧
    (feed t d).1.config = t.config ∧ (feed t d).1.maxDistance = t.maxDistance := by
  have hr : ¬ (d < MinimumDistance ∨ d > t.maxDistance) := by
    simp only [MinimumDistance]; push_neg; exact ⟨h0, hm⟩
  obtain ⟨s1, nd, hh, -, he⟩ := updateWith_eq_transition
    { t with lastValidDistance := d, distanceValid := true } d rfl (fun hf => hr hf.1)
  have hw : withinDelta d s1.baselineDistance
      (Max.max t.config.movementThreshold (d * t.config.dynamicThreshold)) = true := by
    rw [withinDelta_iff, hh.baselineDistance]
    show |d - t.baselineDistance| ≤ _
    rw [hb, sub_self, abs_zero]
    exact le_trans hmt (le_max_left _ _)
  have ht := updateTransition_of_idle s1 d
    (Max.max t.config.movementThreshold (d * t.config.dynamicThreshold)) nd
    (hh.currentState.trans hs) (by rw [hh.config]; exact not_lt.mpr hdc)
  rw [if_pos hw] at ht
  have e : feed t d = (s1, []) := he.trans ht
  rw [e]
  exact ⟨rfl, hh.currentState.trans hs, hh.baselineDistance.trans hb, hh.config, hh.maxDistance⟩

/-- Any number of successful ticks at rest leave IDLE, the baseline and the settings. -/
theorem feedAll_at_rest (s : Detector) (d : ℚ) (hs : s.currentState = IDLE)
    (hb : s.baselineDistance = d) (n : Nat) :
    0 ≤ s.config.movementThreshold → 0 ≤ d → d ≤ s.maxDistance →
    s.config.dangerCloseDistance ≤ d →
    (feedAll s (List.replicate n d)).currentState = IDLE ∧
    (feedAll s (List.replicate n d)).baselineDistance = d ∧
    (feedAll s (List.replicate n d)).config = s.config ∧
    (feedAll s (List.replicate n d)).maxDistance = s.maxDistance := by
  intro hmt h0 hm hdc
  induction n with
  | zero => exact ⟨hs, hb, rfl, rfl⟩
  | succ n ih =>
    obtain ⟨i1, i2, i3, i4⟩ := ih
    rw [List.replicate_succ', feedAll_snoc]
    obtain ⟨-, f2, f3, f4, f5⟩ := feed_at_rest (feedAll s (List.replicate n d)) d i1 i2
      (by rw [i3]; exact hmt) h0 (by rw [i4]; exact hm) (by rw [i3]; exact hdc)
    exact ⟨f2, f3, f4.trans i3, f5.trans i4⟩

/-- C13 (idempotence at rest). For a detector in IDLE whose baseline equals `d`, with
`movementThreshold ≥ 0`, `0 ≤ d ≤ maxDistance` and `d ≥ dangerCloseDistance`: after any number
`n` of `update()` calls with the valid filtered distance `d`, the next such call invokes no
callback and leaves `currentState = IDLE` and `baselineDistance = d`. -/
theorem idempotence_at_rest (s : Detector) (d : ℚ) (n : Nat) (hs : s.currentState = IDLE)
    (hb : s.baselineDistance = d) (hmt : 0 ≤ s.config.movementThreshold)
    (h0 : 0 ≤ d) (hm : d ≤ s.maxDistance) (hdc : s.config.dangerCloseDistance ≤ d) :
    (feed (feedAll s (List.replicate n d)) d).2 = [] ∧
    (feed (feedAll s (List.replicate n d)) d).1.currentState = IDLE ∧
    (feed (feedAll s (List.replicate n d)) d).1.baselineDistance = d := by
  obtain ⟨i1, i2, i3, i4⟩ := feedAll_at_rest s d hs hb n hmt h0 hm hdc
  obtain ⟨f1, f2, f3, -⟩ := feed_at_rest (feedAll s (List.replicate n d)) d i1 i2
    (by rw [i3]; exact hmt) h0 (by rw [i4]; exact hm) (by rw [i3]; exact hdc)
  exact ⟨f1, f2, f3⟩

/-- One successful tick in MOVED, with a non-negative `movementThreshold` and a distance in range
and not below `dangerCloseDistance`: the stable counter goes up by one whatever the distance, and
the state is STOPPED once the counter has reached `stabilityCheckCount`, MOVED before. -/
theorem feed_moved (t : Detector) (d : ℚ) (hs : t.currentState = MOVED)
    (hmt : 0 ≤ t.config.movementThreshold)
    (h0 : 0 ≤ d) (hm : d ≤ t.maxDistance) (hdc : t.config.dangerCloseDistance ≤ d) :
    (feed t d).1.stableCounter = t.stableCounter + 1 ∧
    (feed t d).1.currentState =
      (if t.stableCounter + 1 ≥ t.config.stabilityCheckCount then STOPPED else MOVED) ∧
    (feed t d).1.config = t.config ∧ (feed t d).1.maxDistance = t.maxDistance := by
  have hr : ¬ (d < MinimumDistance ∨ d > t.maxDistance) := by
    simp only [MinimumDistance]; push_neg; exact ⟨h0, hm⟩
  have hq := updateWith_quiet { t with lastValidDistance := d, distanceValid := true } d rfl
    (fun hf => hr hf.1)
  have e := updateWith_of_not_fires { t with lastValidDistance := d, distanceValid := true } d
    rfl (fun hf => hr hf.1)
  have p := updateClassify_moved
    { t with lastValidDistance := d, distanceValid := true,
             outOfRangeCounter := if d < MinimumDistance ∨ d > t.maxDistance then
               t.outOfRangeCounter + 1 else 0 } d hs (not_lt.mpr hdc)
    (by
      show 0 ≤ MovementDetector.max t.config.movementThreshold (d * t.config.dynamicThreshold)
      rw [max_eq_max]
      exact le_trans hmt (le_max_left _ _))
  exact ⟨(congrArg (fun r => r.1.stableCounter) e).trans p.1,
    (congrArg (fun r => r.1.currentState) e).trans p.2, hq.1, hq.2.1⟩

/-- A run of successful ticks in MOVED that is shorter than `max(1, stabilityCheckCount)` stays
in MOVED and counts every tick, whatever the distances. -/
theorem feedAll_moved (s : Detector) (ds : List ℚ) (hs : s.currentState = MOVED)
    (hc : s.stableCounter = 0) (hmt : 0 ≤ s.config.movementThreshold)
    (hb : ∀ x ∈ ds, 0 ≤ x ∧ x ≤ s.maxDistance ∧ s.config.dangerCloseDistance ≤ x)
    (hl : (ds.length : Int) < Max.max 1 s.config.stabilityCheckCount) :
    (feedAll s ds).currentState = MOVED ∧ (feedAll s ds).stableCounter = (ds.length : Int) ∧
    (feedAll s ds).config = s.config ∧ (feedAll s ds).maxDistance = s.maxDistance := by
  induction ds using List.reverseRecOn with
  | nil => exact ⟨hs, by simpa using hc, rfl, rfl⟩
  | append_singleton ds d ih =>
    have hl1 : (ds.length : Int) + 1 < Max.max 1 s.config.stabilityCheckCount := by
      simpa using hl
    obtain ⟨i1, i2, i3, i4⟩ := ih (fun x hx => hb x (List.mem_append_left _ hx)) (by linarith)
    obtain ⟨b0, bm, bd⟩ := hb d (by simp)
    obtain ⟨f1, f2, f3, f4⟩ := feed_moved (feedAll s ds) d i1 (by rw [i3]; exact hmt) b0
      (by rw [i4]; exact bm) (by rw [i3]; exact bd)
    rw [feedAll_snoc]
    refine ⟨?_, ?_, f3.trans i3, f4.trans i4⟩
    · rw [f2, i2, i3, if_neg]
      intro hge
      have h1 : (1 : Int) ≤ (ds.length : Int) + 1 := by
        have := Int.natCast_nonneg ds.length
        linarith
      have := max_le h1 hge
      linarith
    · rw [f1, i2]
      simp

/-- C18 (MOVED lasts a fixed number of ticks). In MOVED, with `movementThreshold ≥ 0`, every
valid, in-range filtered distance `d ≥ dangerCloseDistance` makes `update()` increment
`stableCounter` by exactly 1, however far `d` is from `previousDistance`. Consequently, from
MOVED with `stableCounter = 0`, any run of such ticks is still in MOVED while it is shorter than
`max(1, stabilityCheckCount)` and is in STOPPED when its length is `max(1, stabilityCheckCount)`,
whatever the distances are. -/
theorem moved_fixed_duration :
    (∀ (s : Detector) (d : ℚ), s.currentState = MOVED → s.distanceValid = true →
      0 ≤ s.config.movementThreshold → 0 ≤ d → d ≤ s.maxDistance →
      s.config.dangerCloseDistance ≤ d →
      (updateWith s d).1.stableCounter = s.stableCounter + 1) ∧
    (∀ (s : Detector) (ds : List ℚ), s.currentState = MOVED → s.stableCounter = 0 →
      0 ≤ s.config.movementThreshold →
      (∀ x ∈ ds, 0 ≤ x ∧ x ≤ s.maxDistance ∧ s.config.dangerCloseDistance ≤ x) →
      ((ds.length : Int) < Max.max 1 s.config.stabilityCheckCount →
        (feedAll s ds).currentState = MOVED) ∧
      ((ds.length : Int) = Max.max 1 s.config.stabilityCheckCount →
        (feedAll s ds).currentState = STOPPED)) := by
  constructor
  · intro s d hs hv hmt h0 hm hdc
    have hr : ¬ (d < MinimumDistance ∨ d > s.maxDistance) := by
      simp only [MinimumDistance]; push_neg; exact ⟨h0, hm⟩
    rw [updateWith_of_not_fires s d hv (fun hf => hr hf.1)]
    refine (updateClassify_moved _ d ?_ ?_ ?_).1
    · exact hs
    · exact not_lt.mpr hdc
    · show 0 ≤ MovementDetector.max s.config.movementThreshold (d * s.config.dynamicThreshold)
      rw [max_eq_max]
      exact le_trans hmt (le_max_left _ _)
  · intro s ds hs hc hmt hb
    constructor
    · intro hl
      exact (feedAll_moved s ds hs hc hmt hb hl).1
    · intro hl
      rcases List.eq_nil_or_concat ds with h | ⟨ds1, d, h⟩
      · subst h
        have h1 : (1 : Int) ≤ Max.max 1 s.config.stabilityCheckCount := le_max_left _ _
        simp at hl
        omega
      · rw [List.concat_eq_append] at h
        subst h
        have hl1 : (ds1.length : Int) + 1 = Max.max 1 s.config.stabilityCheckCount := by
          simpa using hl
        obtain ⟨i1, i2, i3, i4⟩ := feedAll_moved s ds1 hs hc hmt
          (fun x hx => hb x (List.mem_append_left _ hx)) (by linarith)
        obtain ⟨b0, bm, bd⟩ := hb d (by simp)
        obtain ⟨-, f2, -⟩ := feed_moved (feedAll s ds1) d i1 (by rw [i3]; exact hmt) b0
          (by rw [i4]; exact bm) (by rw [i3]; exact bd)
        rw [feedAll_snoc, f2, i2, i3, if_pos]
        rw [hl1]
        exact le_max_right _ _

/-- Every survivor lies in `(0, maxDistance]`. -/
theorem mem_survivors_range (maxDistance : ℚ) (raw : List Int) (x : ℚ)
    (hx : x ∈ survivors maxDistance raw) : 0 < x ∧ x ≤ maxDistance := by
  unfold survivors at hx
  simpa using (List.mem_filter.mp hx).2

/-- Bounds on the sum of a list of values in `(0, m]`. -/
theorem sum_range (m : ℚ) (xs : List ℚ) (h : ∀ x ∈ xs, 0 < x ∧ x ≤ m) :
    xs.sum ≤ (xs.length : ℚ) * m ∧ (xs ≠ [] → 0 < xs.sum) ∧ 0 ≤ xs.sum := by
  induction xs with
  | nil => simp
  | cons a xs ih =>
    obtain ⟨i1, -, i3⟩ := ih (fun x hx => h x (List.mem_cons_of_mem _ hx))
    obtain ⟨a0, am⟩ := h a (List.mem_cons_self _ _)
    simp only [List.sum_cons, List.length_cons, Nat.cast_add, Nat.cast_one]
    refine ⟨by linarith, fun _ => by linarith, by linarith⟩

/-- The mean of a non-empty list of values in `(0, m]` lies in `(0, m]`. -/
theorem mean_range (m : ℚ) (xs : List ℚ) (hne : xs ≠ []) (h : ∀ x ∈ xs, 0 < x ∧ x ≤ m) :
    0 < mean xs ∧ mean xs ≤ m := by
  obtain ⟨s1, s2, -⟩ := sum_range m xs h
  have hl : (0 : ℚ) < (xs.length : ℚ) := by exact_mod_cast List.length_pos.mpr hne
  unfold mean
  exact ⟨div_pos (s2 hne) hl, by rw [div_le_iff₀ hl]; linarith⟩

/-- A value returned by `getDistance` with `distanceValid = true` lies in `(0, maxDistance]`
and is stored in `lastValidDistance`; a value returned with `distanceValid = false` is the
unchanged `lastValidDistance`. -/
theorem getDistance_value (s : Detector) (pulseIn : Nat → Int) :
    ((getDistance s pulseIn).detector.distanceValid = true →
      0 < (getDistance s pulseIn).distance ∧ (getDistance s pulseIn).distance ≤ s.maxDistance ∧
        (getDistance s pulseIn).detector.lastValidDistance = (getDistance s pulseIn).distance) ∧
    ((getDistance s pulseIn).detector.distanceValid = false →
      (getDistance s pulseIn).distance = s.lastValidDistance ∧
        (getDistance s pulseIn).detector.lastValidDistance = s.lastValidDistance) := by
  rw [getDistance_eq]
  by_cases h : survivors s.maxDistance (batch s pulseIn) ≠ []
  · rw [if_pos h]
    obtain ⟨m1, m2⟩ := mean_range s.maxDistance _ h (mem_survivors_range _ _)
    exact ⟨fun _ => ⟨m1, m2, rfl⟩, fun hv => by simp at hv⟩
  · rw [if_neg h]
    exact ⟨fun hv => by simp at hv, fun _ => ⟨rfl, rfl⟩⟩

/-- The sampler writes `lastValidDistance` and `distanceValid` only. -/
theorem getDistance_frame (s : Detector) (pulseIn : Nat → Int) :
    SamplerFrame s (getDistance s pulseIn).detector ∧
      (getDistance s pulseIn).detector.baselineDistance = s.baselineDistance := by
  rw [getDistance_eq]
  split_ifs <;> exact ⟨⟨rfl, rfl, rfl, rfl, rfl, rfl, rfl, rfl, rfl, rfl, rfl⟩, rfl⟩

/-- The baseline acquisition writes `lastValidDistance`, `distanceValid` and
`baselineDistance` only. -/
theorem initializeBaselineLoop_frame (retries : Nat) (s : Detector) (pulseIn : Nat → Int) :
    SamplerFrame s (initializeBaselineLoop s pulseIn retries).2.1 := by
  induction retries generalizing s pulseIn with
  | zero => exact ⟨rfl, rfl, rfl, rfl, rfl, rfl, rfl, rfl, rfl, rfl, rfl⟩
  | succ n ih =>
    have hg := (getDistance_frame s pulseIn).1
    unfold initializeBaselineLoop
    dsimp only
    split_ifs
    · exact ⟨hg.config, hg.currentState, hg.previousState, hg.currentDirection,
        hg.previousDirection, hg.maxDistance, hg.previousDistance, hg.stableCounter,
        hg.outOfRangeCounter, hg.onStateChange, hg.onResetBaseLine⟩
    · have hi := ih (getDistance s pulseIn).detector (getDistance s pulseIn).rest
      exact ⟨hi.config.trans hg.config, hi.currentState.trans hg.currentState,
        hi.previousState.trans hg.previousState, hi.currentDirection.trans hg.currentDirection,
        hi.previousDirection.trans hg.previousDirection, hi.maxDistance.trans hg.maxDistance,
        hi.previousDistance.trans hg.previousDistance, hi.stableCounter.trans hg.stableCounter,
        hi.outOfRangeCounter.trans hg.outOfRangeCounter, hi.onStateChange.trans hg.onStateChange,
        hi.onResetBaseLine.trans hg.onResetBaseLine⟩

/-- The method `setup(cfg)` is line 21, the baseline acquisition with five retries, and
`setupFinish`. -/
theorem setup_eq_finish (s : Detector) (cfg : DetectorConfig) (pulseIn : Nat → Int) :
    setup s cfg pulseIn =
      setupFinish (initializeBaselineDistance (withConfig s cfg) pulseIn 5) := rfl

/-- What `setup(cfg)` leaves: the configuration `cfg`, the ceiling `min(cfg.maximumDistance,
400)`, the state and the counters of before, the `lastValidDistance` left by the baseline
acquisition, and as baseline either the acquired one or `cfg.defaultBaseline`. -/
theorem setup_fields (s : Detector) (cfg : DetectorConfig) (pulseIn : Nat → Int) :
    (setup s cfg pulseIn).1.config = cfg ∧
    (setup s cfg pulseIn).1.maxDistance = min cfg.maximumDistance 400 ∧
    (setup s cfg pulseIn).1.currentState = s.currentState ∧
    (setup s cfg pulseIn).1.outOfRangeCounter = s.outOfRangeCounter ∧
    (setup s cfg pulseIn).1.lastValidDistance =
      (initializeBaselineDistance (withConfig s cfg) pulseIn 5).2.1.lastValidDistance ∧
    (setup s cfg pulseIn).1.baselineDistance =
      (if (initializeBaselineDistance (withConfig s cfg) pulseIn 5).1 = true then
        (initializeBaselineDistance (withConfig s cfg) pulseIn 5).2.1.baselineDistance
      else cfg.defaultBaseline) := by
  have hf : SamplerFrame (withConfig s cfg)
      (initializeBaselineDistance (withConfig s cfg) pulseIn 5).2.1 :=
    initializeBaselineLoop_frame (5 : Int).toNat (withConfig s cfg) pulseIn
  have hmin : (if cfg.maximumDistance < MaximumDistance then cfg.maximumDistance
      else MaximumDistance) = min cfg.maximumDistance 400 := by
    unfold MaximumDistance
    split_ifs with h
    · exact (min_eq_left (le_of_lt h)).symm
    · exact (min_eq_right (not_lt.mp h)).symm
  rw [setup_eq_finish]
  generalize initializeBaselineDistance (withConfig s cfg) pulseIn 5 = r at hf ⊢
  have hc : r.2.1.config = cfg := hf.config
  unfold setupFinish
  cases hb : r.1 with
  | true =>
    simp only [Bool.not_true, Bool.false_eq_true, if_false, if_true, hc, hmin]
    exact ⟨trivial, trivial, hf.currentState, hf.outOfRangeCounter, trivial, trivial⟩
  | false =>
    simp only [Bool.not_false, if_true, Bool.false_eq_true, if_false, hc, hmin]
    exact ⟨trivial, trivial, hf.currentState, hf.outOfRangeCounter, trivial, trivial⟩

/-- The baseline-reset path ends in IDLE and leaves the out-of-range counter. -/
theorem updateWith_invalid (s : Detector) (d : ℚ) (hv : s.distanceValid = false) :
    (updateWith s d).1.currentState = IDLE ∧
      (updateWith s d).1.outOfRangeCounter = s.outOfRangeCounter := by
  simp only [updateWith, hv, Bool.not_false, if_true, resetBaseLine]
  split_ifs <;> exact ⟨rfl, rfl⟩

/-- In exact arithmetic, in every reachable state the out-of-range counter is 0 and the state is
not OUTOFRANGE. -/
theorem reachable_noOutOfRange (s : Detector) (h : Reachable s) :
    s.outOfRangeCounter = 0 ∧ s.currentState ≠ OUTOFRANGE := by
  induction h with
  | fresh t e b => simp [new]
  | @afterSetup s cfg pulseIn _ ih =>
    obtain ⟨-, -, f3, f4, -⟩ := setup_fields s cfg pulseIn
    rw [f3, f4]
    exact ih
  | @afterUpdate s pulseIn _ ih =>
    have hfr := (getDistance_frame s pulseIn).1
    show (updateWith (getDistance s pulseIn).detector
        (getDistance s pulseIn).distance).1.outOfRangeCounter = 0 ∧
      (updateWith (getDistance s pulseIn).detector
        (getDistance s pulseIn).distance).1.currentState ≠ OUTOFRANGE
    cases hv : (getDistance s pulseIn).detector.distanceValid with
    | false =>
      obtain ⟨r1, r2⟩ := updateWith_invalid _ (getDistance s pulseIn).distance hv
      rw [r1, r2, hfr.outOfRangeCounter]
      exact ⟨ih.1, by simp⟩
    | true =>
      obtain ⟨v1, v2, -⟩ := (getDistance_value s pulseIn).1 hv
      have hr : ¬ ((getDistance s pulseIn).distance < MinimumDistance ∨
          (getDistance s pulseIn).distance > (getDistance s pulseIn).detector.maxDistance) := by
        rw [hfr.maxDistance]
        simp only [MinimumDistance]
        push_neg
        exact ⟨le_of_lt v1, v2⟩
      obtain ⟨-, -, -, q4, q5⟩ := updateWith_quiet _ (getDistance s pulseIn).distance hv
        (fun hf => hr hf.1)
      rw [q4, if_neg hr]
      exact ⟨rfl, q5⟩
  | afterSetStateChangeCallback cb _ ih => exact ih
  | afterSetResetBaseLineCallback cb _ ih => exact ih

/-- C14 (maximum-distance clamp). After `setup(cfg)`, from any detector state and with any sensor
stream, the runtime ceiling `maxDistance` is `min(cfg.maximumDistance, 400)`: exactly 400 when
`cfg.maximumDistance ≥ 400`, and `cfg.maximumDistance` when it is below 400. -/
theorem maximum_distance_clamp (s : Detector) (cfg : DetectorConfig) (pulseIn : Nat → Int) :
    (setup s cfg pulseIn).1.maxDistance = min cfg.maximumDistance 400 ∧
    (400 ≤ cfg.maximumDistance → (setup s cfg pulseIn).1.maxDistance = 400) ∧
    (cfg.maximumDistance < 400 → (setup s cfg pulseIn).1.maxDistance = cfg.maximumDistance) := by
  have h := (setup_fields s cfg pulseIn).2.1
  exact ⟨h, fun hge => h.trans (min_eq_right hge), fun hlt => h.trans (min_eq_left (le_of_lt hlt))⟩

/-- Instance of C14: a configured maximum of 1000 is clamped to 400, the default 200 is kept. -/
theorem maximum_distance_clamp_witness :
    ((400 : ℚ) ≤ configMaximum1000.maximumDistance ∧
      (setup (new 9 10 false) configMaximum1000 echo102).1.maxDistance = 400) ∧
    (({} : DetectorConfig).maximumDistance < 400 ∧
      (setup (new 9 10 false) {} echo102).1.maxDistance = ({} : DetectorConfig).maximumDistance) :=
  ⟨⟨by decide!,
      (maximum_distance_clamp (new 9 10 false) configMaximum1000 echo102).2.1 (by decide!)⟩,
    ⟨by decide!, (maximum_distance_clamp (new 9 10 false) {} echo102).2.2 (by decide!)⟩⟩

/-- The trace of one `changeState` call made on behalf of a detector `s` by lines 43-106: the
call is made on a detector `t` with the state and direction of `s`, and its outcome is kept in
`u` up to fields other than state and direction. -/
theorem carries_of_changeState (s t u : Detector) (d : ℚ) (ns : State)
    (nd : MovementDirection) (hcb : t.onStateChange = true)
    (hok : ns ≠ t.currentState ∨ ¬ (ns = IDLE ∨ ns = STOPPED))
    (h1 : t.currentState = s.currentState) (h2 : t.currentDirection = s.currentDirection)
    (hu1 : u.currentState = (changeState t ns nd).1.currentState)
    (hu2 : u.currentDirection = (changeState t ns nd).1.currentDirection)
    (hb : t.baselineDistance =
      if s.currentState = DANGERCLOSE ∧ ns = IDLE then d else s.baselineDistance) :
    CarriesBaseline s.currentState s.currentDirection s.baselineDistance d
      (u, (changeState t ns nd).2) := by
  unfold CarriesBaseline
  simp only [hu1, hu2, changeState_currentState, changeState_currentDirection]
  rw [changeState_eq, ← h1, ← h2, hcb]
  by_cases hc : ns ≠ t.currentState ∨ nd ≠ t.currentDirection
  · simp only [if_pos hc, if_true]
    have hch : ns ≠ t.currentState ∨
        (if ns = IDLE ∨ ns = STOPPED then NONE else nd) ≠ t.currentDirection := by
      rcases hok with h | h
      · exact Or.inl h
      · rw [if_neg h]; exact hc
    rw [if_pos hch, hb, h1]
  · simp only [if_neg hc]
    push_neg at hc
    rw [if_neg]
    push_neg
    exact ⟨hc.1, rfl⟩

/-- A call that ends with the state and direction it started with, having invoked nothing. -/
theorem carries_silent (s u : Detector) (d : ℚ) (h1 : u.currentState = s.currentState)
    (h2 : u.currentDirection = s.currentDirection) :
    CarriesBaseline s.currentState s.currentDirection s.baselineDistance d (u, []) := by
  unfold CarriesBaseline
  rw [if_neg]
  push_neg
  exact ⟨h1, h2⟩

/-- Lines 61-106 invoke the state-change callback as C20 describes. -/
theorem updateTransition_carries (s : Detector) (d thr : ℚ) (nd : MovementDirection)
    (hcb : s.onStateChange = true) :
    CarriesBaseline s.currentState s.currentDirection s.baselineDistance d
      (updateTransition s d thr nd) := by
  unfold updateTransition
  by_cases hd : d < s.config.dangerCloseDistance
  · rw [if_pos hd]
    exact carries_of_changeState s s _ d DANGERCLOSE nd hcb (Or.inr (by simp)) rfl rfl rfl rfl
      (by simp)
  · rw [if_neg hd]
    split
    · rename_i hs
      split_ifs
      · exact carries_of_changeState s s _ d MOVED nd hcb (Or.inl (by rw [hs]; decide))
          rfl rfl rfl rfl (by simp)
      · exact carries_silent s s d rfl rfl
    · rename_i hs
      dsimp only
      split_ifs
      · exact carries_of_changeState s { s with stableCounter := s.stableCounter + 1 } _ d
          STOPPED nd hcb (Or.inl (by show STOPPED ≠ s.currentState; rw [hs]; decide))
          rfl rfl rfl rfl (by simp)
      · exact carries_silent s _ d rfl rfl
      · exact carries_silent s _ d rfl rfl
    · rename_i hs
      exact carries_of_changeState s { s with stableCounter := 0 } _ d IDLE NONE hcb
        (Or.inl (by show IDLE ≠ s.currentState; rw [hs]; decide)) rfl rfl rfl rfl
        (by simp [hs])
    · rename_i hs
      split_ifs
      · exact carries_of_changeState s { s with baselineDistance := d, stableCounter := 0 } _ d
          IDLE nd hcb (Or.inl (by show IDLE ≠ s.currentState; rw [hs]; decide)) rfl rfl rfl rfl
          (by simp [hs])
      · exact carries_silent s s d rfl rfl
    · rename_i hs
      exact carries_of_changeState s s _ d IDLE nd hcb (Or.inl (by rw [hs]; decide))
        rfl rfl rfl rfl (by simp [hs])

/-- Lines 61-106 store the distance as C20 describes. -/
theorem updateTransition_stores (s : Detector) (d thr : ℚ) (nd : MovementDirection) :
    StoresDistance s d (updateTransition s d thr nd) := by
  unfold StoresDistance updateTransition
  by_cases hd : d < s.config.dangerCloseDistance
  · rw [if_pos hd]
    simp [changeState_currentState]
  · rw [if_neg hd]
    split
    · rename_i hs
      split_ifs <;> simp [changeState_currentState, hs]
    · rename_i hs
      dsimp only
      split_ifs <;> simp [changeState_currentState, hs]
    · rename_i hs
      simp [changeState_currentState, hs]
    · rename_i hs
      split_ifs <;> simp [changeState_currentState, changeState_baselineDistance, hs]
    · rename_i hs
      simp [changeState_currentState, hs]

/-- The body of `update()`, entered with a valid reading and the state-change callback
registered, invokes the callback as C20 describes. -/
theorem updateWith_carries (s : Detector) (d : ℚ) (hv : s.distanceValid = true)
    (hcb : s.onStateChange = true) :
    CarriesBaseline s.currentState s.currentDirection s.baselineDistance d (updateWith s d) := by
  by_cases hf : rangeCheckFires s d
  · rw [updateWith_of_fires s d hv hf]
    exact carries_of_changeState s { s with outOfRangeCounter := s.outOfRangeCounter + 1 } _ d
      OUTOFRANGE NONE hcb (Or.inr (by simp)) rfl rfl rfl rfl (by simp)
  · obtain ⟨s1, nd, hh, -, he⟩ := updateWith_eq_transition s d hv hf
    have h := updateTransition_carries s1 d
      (Max.max s.config.movementThreshold (d * s.config.dynamicThreshold)) nd
      (hh.onStateChange.trans hcb)
    rw [hh.currentState, hh.currentDirection, hh.baselineDistance] at h
    rw [he]
    exact h

/-- The body of `update()`, entered with a valid reading, stores the distance as C20
describes. -/
theorem updateWith_stores (s : Detector) (d : ℚ) (hv : s.distanceValid = true) :
    StoresDistance s d (updateWith s d) := by
  by_cases hf : rangeCheckFires s d
  · obtain ⟨f1, -⟩ := updateWith_fired s d hv hf
    unfold StoresDistance
    rw [f1]
    simp
  · obtain ⟨s1, nd, hh, -, he⟩ := updateWith_eq_transition s d hv hf
    have h := updateTransition_stores s1 d
      (Max.max s.config.movementThreshold (d * s.config.dynamicThreshold)) nd
    unfold StoresDistance at h ⊢
    rw [hh.currentState, hh.currentDirection] at h
    rw [he]
    exact h

/-- C20 (baseline value carried by the state-change callback). With a state-change callback
registered and a valid filtered distance `d`: when one `update()` goes from MOVED to STOPPED, or
ends in DANGERCLOSE having entered it or changed direction in it, the callback is invoked once
with the baseline as it was before the call as its distance argument, while the call stores `d`
as the new baseline; when one `update()` goes from DANGERCLOSE to IDLE, the callback is invoked
once with the new baseline `d` as its distance argument. -/
theorem callback_baseline (s : Detector) (d : ℚ) (hv : s.distanceValid = true)
    (hcb : s.onStateChange = true) :
    (s.currentState = MOVED → (updateWith s d).1.currentState = STOPPED →
      (updateWith s d).2 =
        [Event.stateChange MOVED STOPPED s.baselineDistance s.currentDirection
          (updateWith s d).1.currentDirection] ∧
      (updateWith s d).1.baselineDistance = d) ∧
    ((updateWith s d).1.currentState = DANGERCLOSE →
      (s.currentState ≠ DANGERCLOSE ∨
        (updateWith s d).1.currentDirection ≠ s.currentDirection) →
      (updateWith s d).2 =
        [Event.stateChange s.currentState DANGERCLOSE s.baselineDistance s.currentDirection
          (updateWith s d).1.currentDirection] ∧
      (updateWith s d).1.baselineDistance = d) ∧
    (s.currentState = DANGERCLOSE → (updateWith s d).1.currentState = IDLE →
      (updateWith s d).2 =
        [Event.stateChange DANGERCLOSE IDLE d s.currentDirection
          (updateWith s d).1.currentDirection] ∧
      (updateWith s d).1.baselineDistance = d) := by
  have hc := updateWith_carries s d hv hcb
  obtain ⟨st1, st2, st3⟩ := updateWith_stores s d hv
  unfold CarriesBaseline at hc
  refine ⟨fun h1 h2 => ⟨?_, st1 h1 h2⟩, fun h1 h2 => ⟨?_, ?_⟩, fun h1 h2 => ⟨?_, st3 h1 h2⟩⟩
  · rw [hc, h2, h1, if_pos (Or.inl (by decide))]
    simp
  · have hch : (updateWith s d).1.currentState ≠ s.currentState ∨
        (updateWith s d).1.currentDirection ≠ s.currentDirection := by
      rcases h2 with h | h
      · exact Or.inl (by rw [h1]; exact fun e => h e.symm)
      · exact Or.inr h
    rw [hc, if_pos hch, h1]
    simp
  · refine st2 h1 ?_
    rcases h2 with h | h
    · exact Or.inl (by rw [h1]; exact fun e => h e.symm)
    · exact Or.inr h
  · rw [hc, h2, h1, if_pos (Or.inl (by decide))]
    simp

/-- Instance of C12 at a detector set up with the defaults (`outOfRangeCheckCount = 2`, ceiling
200): three ticks at 500 reach OUTOFRANGE on the third, and a fourth tick at 100 gives IDLE. -/
theorem outOfRange_debounce_witness :
    ((setUpAt100 {}).outOfRangeCounter = 0 ∧ (setUpAt100 {}).config.outOfRangeCheckCount = 2 ∧
      (setUpAt100 {}).maxDistance < 500) ∧
    ((feedAll (setUpAt100 {}) [500]).currentState ≠ OUTOFRANGE ∧
      (feedAll (setUpAt100 {}) [500, 500]).currentState ≠ OUTOFRANGE ∧
      (feedAll (setUpAt100 {}) [500, 500, 500]).currentState = OUTOFRANGE ∧
      (feedAll (setUpAt100 {}) [500, 500, 500, 100]).currentState = IDLE) := by
  have h := outOfRange_debounce.2 (setUpAt100 {}) (by decide!) (by decide!) (by decide!)
  exact ⟨by decide!, h.1, h.2.1, h.2.2.1,
    h.2.2.2.2.2 100 (by decide!) (by decide!) (by decide!)⟩

/-- Instance of C13 at a detector set up at baseline 100 with the defaults: after three ticks at
100, a fourth one invokes nothing and leaves IDLE with baseline 100. -/
theorem idempotence_at_rest_witness :
    ((setUpAt100 {}).currentState = IDLE ∧ (setUpAt100 {}).baselineDistance = 100 ∧
      0 ≤ (setUpAt100 {}).config.movementThreshold ∧ (0 : ℚ) ≤ 100 ∧
      100 ≤ (setUpAt100 {}).maxDistance ∧ (setUpAt100 {}).config.dangerCloseDistance ≤ 100) ∧
    ((feed (feedAll (setUpAt100 {}) (List.replicate 3 100)) 100).2 = [] ∧
      (feed (feedAll (setUpAt100 {}) (List.replicate 3 100)) 100).1.currentState = IDLE ∧
      (feed (feedAll (setUpAt100 {}) (List.replicate 3 100)) 100).1.baselineDistance = 100) :=
  ⟨by decide!,
    idempotence_at_rest (setUpAt100 {}) 100 3 (by decide!) (by decide!) (by decide!)
      (by decide!) (by decide!) (by decide!)⟩

/-- Instance of C18 at `justMoved` (MOVED, `stableCounter = 0`, `stabilityCheckCount = 3`): the
distances 150, 190, 60 differ by more than the threshold from tick to tick, yet the detector is
in MOVED after two of them and in STOPPED after the third. -/
theorem moved_fixed_duration_witness :
    (justMoved.currentState = MOVED ∧ justMoved.stableCounter = 0 ∧
      0 ≤ justMoved.config.movementThreshold ∧
      Max.max 1 justMoved.config.stabilityCheckCount = 3) ∧
    (feedAll justMoved [150, 190]).currentState = MOVED ∧
    (feedAll justMoved [150, 190, 60]).currentState = STOPPED :=
  ⟨by decide!,
    (moved_fixed_duration.2 justMoved [150, 190] (by decide!) (by decide!) (by decide!)
      (by decide!)).1 (by decide!),
    (moved_fixed_duration.2 justMoved [150, 190, 60] (by decide!) (by decide!) (by decide!)
      (by decide!)).2 (by decide!)⟩

/-- Instance of C20 at `aboutToStop` (MOVED, baseline 100, callback registered): the tick at 150
enters STOPPED, the callback receives the old baseline 100 and the detector stores 150. -/
theorem callback_baseline_witness :
    (aboutToStop.distanceValid = true ∧ aboutToStop.onStateChange = true ∧
      aboutToStop.currentState = MOVED ∧ aboutToStop.baselineDistance = 100 ∧
      (updateWith aboutToStop 150).1.currentState = STOPPED ∧
      (updateWith aboutToStop 150).2 = [Event.stateChange MOVED STOPPED 100 BACKWARD NONE]) ∧
    ((updateWith aboutToStop 150).2 =
        [Event.stateChange MOVED STOPPED aboutToStop.baselineDistance
          aboutToStop.currentDirection (updateWith aboutToStop 150).1.currentDirection] ∧
      (updateWith aboutToStop 150).1.baselineDistance = 150) :=
  ⟨by decide!,
    (callback_baseline aboutToStop 150 (by decide!) (by decide!)).1 (by decide!) (by decide!)⟩

/-! ## The rounded layer -/

/-- With exact arithmetic the rounded `withinDelta` is the exact one. -/
theorem rounded_withinDelta_exact (a b delta : ℚ) :
    Rounded.withinDelta exactArith a b delta = withinDelta a b delta := rfl

/-- With exact arithmetic the rounded loop body of `getDistance` is the exact one. -/
theorem rounded_getDistanceIter_exact (maxDistance : ℚ) (acc : Acc) (duration : Int) :
    Rounded.getDistanceIter exactArith maxDistance acc duration =
      getDistanceIter maxDistance acc duration := rfl

/-- With exact arithmetic the rounded `getDistance` is the exact one. -/
theorem rounded_getDistance_exact (s : Detector) (pulseIn : Nat → Int) :
    Rounded.getDistance exactArith s pulseIn = getDistance s pulseIn := rfl

/-- With exact arithmetic the rounded body of `update()` is the exact one. -/
theorem rounded_updateWith_exact (s : Detector) (d : ℚ) :
    Rounded.updateWith exactArith s d = updateWith s d := rfl

/-- With exact arithmetic the rounded `update()` is the exact one. -/
theorem rounded_update_exact (s : Detector) (pulseIn : Nat → Int) :
    Rounded.update exactArith s pulseIn = update s pulseIn := rfl

/-- With exact arithmetic the rounded baseline acquisition is the exact one. -/
theorem rounded_initializeBaselineLoop_exact (retries : Nat) (s : Detector)
    (pulseIn : Nat → Int) :
    Rounded.initializeBaselineLoop exactArith s pulseIn retries =
      initializeBaselineLoop s pulseIn retries := by
  induction retries generalizing s pulseIn with
  | zero => rfl
  | succ n ih =>
    unfold Rounded.initializeBaselineLoop initializeBaselineLoop
    rw [rounded_getDistance_exact]
    dsimp only
    rw [ih]

/-- With exact arithmetic the rounded `setup` is the exact one. -/
theorem rounded_setup_exact (s : Detector) (cfg : DetectorConfig) (pulseIn : Nat → Int) :
    Rounded.setup exactArith s cfg pulseIn = setup s cfg pulseIn := by
  unfold Rounded.setup setup Rounded.initializeBaselineDistance initializeBaselineDistance
  simp only [rounded_initializeBaselineLoop_exact]

/-- The rounded test `withinDelta(a, b, delta)` holds exactly when the rounded difference is at
most `delta` in absolute value. -/
theorem rounded_withinDelta_iff (A : Arith) (a b delta : ℚ) :
    Rounded.withinDelta A a b delta = true ↔ |A.toFloat (a - b)| ≤ delta := by
  simp [Rounded.withinDelta, abs_eq_abs]

/-- When the reading is valid and the range check does not return early, the rounded `update()`
continues with lines 53-108 on the detector whose out-of-range counter was incremented or
cleared. -/
theorem rounded_updateWith_of_not_fires (A : Arith) (s : Detector) (d : ℚ)
    (hv : s.distanceValid = true) (hf : ¬ rangeCheckFires s d) :
    Rounded.updateWith A s d =
      Rounded.updateClassify A { s with outOfRangeCounter :=
        if d < MinimumDistance ∨ d > s.maxDistance then s.outOfRangeCounter + 1 else 0 } d := by
  unfold rangeCheckFires at hf
  by_cases hr : d < MinimumDistance ∨ d > s.maxDistance
  · have hc : ¬ s.outOfRangeCounter + 1 > s.config.outOfRangeCheckCount := fun hc => hf ⟨hr, hc⟩
    simp only [Rounded.updateWith, hv, Bool.not_true, Bool.false_eq_true, if_false, if_pos hr,
      if_neg hc]
  · simp only [Rounded.updateWith, hv, Bool.not_true, Bool.false_eq_true, if_false, if_neg hr]

/-- When the reading is valid and the range check returns early (lines 44-47), rounded layer. -/
theorem rounded_updateWith_of_fires (A : Arith) (s : Detector) (d : ℚ)
    (hv : s.distanceValid = true) (hf : rangeCheckFires s d) :
    Rounded.updateWith A s d = updateWith s d := by
  rw [updateWith_of_fires s d hv hf]
  obtain ⟨hr, hc⟩ := hf
  unfold Rounded.updateWith
  rw [if_neg (by rw [hv]; simp), if_pos hr]
  dsimp only
  rw [if_pos hc]

/-- When the reading is valid and the range check does not return early, the rounded `update()`
ends in `updateTransition`, run with the rounded dynamic threshold of line 54 on a detector that
differs from the original at most in `previousDistance` and `outOfRangeCounter`. -/
theorem rounded_updateWith_eq_transition (A : Arith) (s : Detector) (d : ℚ)
    (hv : s.distanceValid = true) (hf : ¬ rangeCheckFires s d) :
    ∃ (s1 : Detector) (nd : MovementDirection), HandedOver s s1 ∧
      s1.outOfRangeCounter =
        (if d < MinimumDistance ∨ d > s.maxDistance then s.outOfRangeCounter + 1 else 0) ∧
      Rounded.updateWith A s d =
        Rounded.updateTransition A s1 d
          (Max.max s.config.movementThreshold (A.toFloat (d * s.config.dynamicThreshold)))
          nd := by
  rw [rounded_updateWith_of_not_fires A s d hv hf, ← max_eq_max]
  unfold Rounded.updateClassify
  dsimp only
  split_ifs
  all_goals
    refine ⟨_, _, ?_, ?_, rfl⟩
    · exact ⟨rfl, rfl, rfl, rfl, rfl, rfl, rfl, rfl, rfl⟩
    · simp [*]

/-- The case IDLE of the switch, rounded layer. -/
theorem rounded_updateTransition_of_idle (A : Arith) (s : Detector) (d thr : ℚ)
    (nd : MovementDirection) (hs : s.currentState = IDLE)
    (hd : ¬ d < s.config.dangerCloseDistance) :
    Rounded.updateTransition A s d thr nd =
      if Rounded.withinDelta A d s.baselineDistance thr = true then (s, [])
      else ({ (changeState s MOVED nd).1 with stableCounter := 0, previousDistance := d },
        (changeState s MOVED nd).2) := by
  unfold Rounded.updateTransition
  rw [if_neg hd]
  simp only [hs]
  cases Rounded.withinDelta A d s.baselineDistance thr <;> simp

/-- The case DANGERCLOSE of the switch, rounded layer. -/
theorem rounded_updateTransition_of_dangerClose (A : Arith) (s : Detector) (d thr : ℚ)
    (nd : MovementDirection) (hs : s.currentState = DANGERCLOSE)
    (hd : ¬ d < s.config.dangerCloseDistance) :
    Rounded.updateTransition A s d thr nd =
      if Rounded.withinDelta A d s.config.dangerCloseDistance thr = true then (s, [])
      else changeState { s with baselineDistance := d, stableCounter := 0 } IDLE nd := by
  unfold Rounded.updateTransition
  rw [if_neg hd]
  simp only [hs]
  cases Rounded.withinDelta A d s.config.dangerCloseDistance thr <;> simp

/-- The IDLE transition rule for any rounding of the arithmetic results. -/
theorem rounded_idle_rule (A : Arith) (s : Detector) (d : ℚ) (hs : s.currentState = IDLE)
    (hv : s.distanceValid = true) (h0 : 0 ≤ d) (hm : d ≤ s.maxDistance)
    (hd : s.config.dangerCloseDistance ≤ d) :
    (|A.toFloat (d - s.baselineDistance)| >
        Max.max s.config.movementThreshold (A.toFloat (d * s.config.dynamicThreshold)) →
      (Rounded.updateWith A s d).1.currentState = MOVED ∧
        (Rounded.updateWith A s d).1.stableCounter = 0 ∧
        (Rounded.updateWith A s d).1.previousDistance = d) ∧
    (|A.toFloat (d - s.baselineDistance)| ≤
        Max.max s.config.movementThreshold (A.toFloat (d * s.config.dynamicThreshold)) →
      (Rounded.updateWith A s d).1.currentState = IDLE ∧
        (Rounded.updateWith A s d).1.baselineDistance = s.baselineDistance ∧
        (Rounded.updateWith A s d).1.stableCounter = s.stableCounter) := by
  have hr : ¬ (d < MinimumDistance ∨ d > s.maxDistance) := by
    simp only [MinimumDistance]; push_neg; exact ⟨h0, hm⟩
  obtain ⟨s1, nd, hh, -, he⟩ := rounded_updateWith_eq_transition A s d hv (fun hf => hr hf.1)
  rw [he, rounded_updateTransition_of_idle A s1 d _ nd (hh.currentState.trans hs)
    (by rw [hh.config]; exact not_lt.mpr hd), hh.baselineDistance]
  constructor
  · intro h
    rw [if_neg (fun hw => absurd ((rounded_withinDelta_iff _ _ _ _).mp hw) (not_le.mpr h))]
    exact ⟨changeState_currentState _ _ _, rfl, rfl⟩
  · intro h
    rw [if_pos ((rounded_withinDelta_iff _ _ _ _).mpr h)]
    exact ⟨hh.currentState.trans hs, hh.baselineDistance, hh.stableCounter⟩

/-- The DANGERCLOSE exit rule for any rounding of the arithmetic results. -/
theorem rounded_dangerClose_rule (A : Arith) (s : Detector) (d : ℚ)
    (hs : s.currentState = DANGERCLOSE) (hv : s.distanceValid = true) (h0 : 0 ≤ d)
    (hm : d ≤ s.maxDistance) (hd : s.config.dangerCloseDistance ≤ d) :
    (|A.toFloat (d - s.config.dangerCloseDistance)| >
        Max.max s.config.movementThreshold (A.toFloat (d * s.config.dynamicThreshold)) →
      (Rounded.updateWith A s d).1.currentState = IDLE ∧
        (Rounded.updateWith A s d).1.currentDirection = NONE ∧
        (Rounded.updateWith A s d).1.baselineDistance = d ∧
        (Rounded.updateWith A s d).1.stableCounter = 0) ∧
    (|A.toFloat (d - s.config.dangerCloseDistance)| ≤
        Max.max s.config.movementThreshold (A.toFloat (d * s.config.dynamicThreshold)) →
      (Rounded.updateWith A s d).1.currentState = DANGERCLOSE ∧
        (Rounded.updateWith A s d).1.baselineDistance = s.baselineDistance) := by
  have hr : ¬ (d < MinimumDistance ∨ d > s.maxDistance) := by
    simp only [MinimumDistance]; push_neg; exact ⟨h0, hm⟩
  obtain ⟨s1, nd, hh, -, he⟩ := rounded_updateWith_eq_transition A s d hv (fun hf => hr hf.1)
  rw [he, rounded_updateTransition_of_dangerClose A s1 d _ nd (hh.currentState.trans hs)
    (by rw [hh.config]; exact not_lt.mpr hd), hh.config]
  refine ⟨?_, ?_⟩
  · intro h
    rw [if_neg (fun hw => absurd ((rounded_withinDelta_iff _ _ _ _).mp hw) (not_le.mpr h)),
      changeState_eq]
    simp [hh.currentState, hs]
  · intro h
    rw [if_pos ((rounded_withinDelta_iff _ _ _ _).mpr h)]
    exact ⟨hh.currentState.trans hs, hh.baselineDistance⟩

/-- The survivors of a batch, one measurement at a time, rounded layer. -/
theorem rounded_survivors_cons (A : Arith) (maxDistance : ℚ) (duration : Int) (raw : List Int) :
    Rounded.survivors A maxDistance (duration :: raw) =
      if Rounded.survives A maxDistance duration then
        Rounded.rawDistance A duration :: Rounded.survivors A maxDistance raw
      else Rounded.survivors A maxDistance raw := by
  unfold Rounded.survives Rounded.survivors
  by_cases h0 : duration = 0
  · simp [h0]
  · by_cases hr : 0 < Rounded.rawDistance A duration ∧ Rounded.rawDistance A duration ≤ maxDistance
    · simp [h0, hr, List.filter_cons]
    · have hr2 : ¬ ((duration ≠ 0) ∧ 0 < Rounded.rawDistance A duration ∧
          Rounded.rawDistance A duration ≤ maxDistance) := fun hc => hr hc.2
      rw [if_neg hr2]
      simp [h0, List.filter_cons]
      intro h1
      by_contra h2
      exact hr ⟨h1, not_lt.mp h2⟩

/-- One iteration of the rounded loop keeps a measurement exactly when it survives. -/
theorem rounded_getDistanceIter_eq (A : Arith) (maxDistance : ℚ) (acc : Acc) (duration : Int) :
    Rounded.getDistanceIter A maxDistance acc duration =
      if Rounded.survives A maxDistance duration then
        ⟨A.toFloat (acc.total + Rounded.rawDistance A duration), acc.validReadings + 1⟩
      else acc := by
  have hdef : Rounded.getDistanceIter A maxDistance acc duration =
      if duration = 0 then acc
      else if Rounded.rawDistance A duration ≤ 0 ∨ Rounded.rawDistance A duration > maxDistance
        then acc
      else ⟨A.toFloat (acc.total + Rounded.rawDistance A duration), acc.validReadings + 1⟩ :=
    rfl
  rw [hdef]
  unfold Rounded.survives
  by_cases h0 : duration = 0
  · rw [if_pos h0, if_neg (fun hc => hc.1 h0)]
  · by_cases hr : 0 < Rounded.rawDistance A duration ∧ Rounded.rawDistance A duration ≤ maxDistance
    · have hr2 : ¬ (Rounded.rawDistance A duration ≤ 0 ∨
          Rounded.rawDistance A duration > maxDistance) := by
        push_neg; exact hr
      rw [if_neg h0, if_neg hr2, if_pos ⟨h0, hr⟩]
    · have hr2 : Rounded.rawDistance A duration ≤ 0 ∨
          Rounded.rawDistance A duration > maxDistance := by
        by_contra hc; push_neg at hc; exact hr hc
      rw [if_neg h0, if_pos hr2, if_neg (fun hc => hr hc.2)]

/-- The rounded loop of `getDistance` accumulates the survivors and counts them. -/
theorem rounded_foldl_getDistanceIter (A : Arith) (maxDistance : ℚ) (raw : List Int)
    (acc : Acc) :
    raw.foldl (Rounded.getDistanceIter A maxDistance) acc =
      ⟨Rounded.sumFrom A acc.total (Rounded.survivors A maxDistance raw),
        acc.validReadings + ((Rounded.survivors A maxDistance raw).length : Int)⟩ := by
  induction raw generalizing acc with
  | nil => simp [Rounded.survivors, Rounded.sumFrom]
  | cons duration raw ih =>
    rw [List.foldl_cons, ih, rounded_getDistanceIter_eq, rounded_survivors_cons]
    by_cases h : Rounded.survives A maxDistance duration
    · simp only [if_pos h, List.length_cons, Nat.cast_add, Nat.cast_one, Rounded.sumFrom,
        List.foldl_cons]
      congr 1
      ring
    · simp only [if_neg h]

/-- Closed form of the rounded `getDistance`: the rounded mean of the survivors when there is
one, the stored `lastValidDistance` otherwise. -/
theorem rounded_getDistance_eq (A : Arith) (s : Detector) (pulseIn : Nat → Int) :
    Rounded.getDistance A s pulseIn =
      if Rounded.survivors A s.maxDistance (batch s pulseIn) ≠ [] then
        ⟨Rounded.mean A (Rounded.survivors A s.maxDistance (batch s pulseIn)),
          { s with
            lastValidDistance :=
              Rounded.mean A (Rounded.survivors A s.maxDistance (batch s pulseIn)),
            distanceValid := true },
          fun i => pulseIn (s.config.averageReadingCount.toNat + i)⟩
      else
        ⟨s.lastValidDistance, { s with distanceValid := false },
          fun i => pulseIn (s.config.averageReadingCount.toNat + i)⟩ := by
  unfold Rounded.getDistance batch
  simp only [rounded_foldl_getDistanceIter, zero_add]
  by_cases h : Rounded.survivors A s.maxDistance
      (List.map pulseIn (List.range s.config.averageReadingCount.toNat)) = []
  · simp [h]
  · have hpos : (0 : Int) < ((Rounded.survivors A s.maxDistance
        (List.map pulseIn (List.range s.config.averageReadingCount.toNat))).length : Int) := by
      exact_mod_cast List.length_pos.mpr h
    simp only [gt_iff_lt, hpos, if_true, ne_eq, h, not_false_eq_true, Rounded.mean,
      Int.cast_natCast]

/-- A batch of timeouts has no survivor, rounded layer. -/
theorem rounded_survivors_eq_nil_of_timeouts (A : Arith) (maxDistance : ℚ) (raw : List Int)
    (h : ∀ x ∈ raw, x = 0) : Rounded.survivors A maxDistance raw = [] := by
  induction raw with
  | nil => simp [Rounded.survivors]
  | cons x raw ih =>
    rw [rounded_survivors_cons, if_neg, ih (fun y hy => h y (List.mem_cons_of_mem _ hy))]
    exact fun hs => hs.1 (h x (List.mem_cons_self _ _))

/-- The sampler contract for any rounding of the arithmetic results. -/
theorem rounded_sampler (A : Arith) (s : Detector) (pulseIn : Nat → Int) :
    (Rounded.survivors A s.maxDistance (batch s pulseIn) ≠ [] →
      (Rounded.getDistance A s pulseIn).distance =
        Rounded.mean A (Rounded.survivors A s.maxDistance (batch s pulseIn)) ∧
      (Rounded.getDistance A s pulseIn).detector.distanceValid = true ∧
      (Rounded.getDistance A s pulseIn).detector.lastValidDistance =
        Rounded.mean A (Rounded.survivors A s.maxDistance (batch s pulseIn))) ∧
    (Rounded.survivors A s.maxDistance (batch s pulseIn) = [] →
      (Rounded.getDistance A s pulseIn).distance = s.lastValidDistance ∧
      (Rounded.getDistance A s pulseIn).detector.distanceValid = false ∧
      (Rounded.getDistance A s pulseIn).detector.lastValidDistance = s.lastValidDistance) ∧
    (Rounded.survivors A s.maxDistance (batch s pulseIn) ≠ [] →
      (∀ x ∈ batch (Rounded.getDistance A s pulseIn).detector
        (Rounded.getDistance A s pulseIn).rest, x = 0) →
      (Rounded.getDistance A (Rounded.getDistance A s pulseIn).detector
        (Rounded.getDistance A s pulseIn).rest).distance =
        (Rounded.getDistance A s pulseIn).distance ∧
      (Rounded.getDistance A (Rounded.getDistance A s pulseIn).detector
        (Rounded.getDistance A s pulseIn).rest).detector.distanceValid = false) := by
  refine ⟨fun h => ?_, fun h => ?_, fun h ht => ?_⟩
  · rw [rounded_getDistance_eq, if_pos h]
    exact ⟨rfl, rfl, rfl⟩
  · rw [rounded_getDistance_eq, if_neg (not_not.mpr h)]
    exact ⟨rfl, rfl, rfl⟩
  · have h2 := rounded_survivors_eq_nil_of_timeouts A
      (Rounded.getDistance A s pulseIn).detector.maxDistance _ ht
    rw [rounded_getDistance_eq A (Rounded.getDistance A s pulseIn).detector,
      if_neg (not_not.mpr h2)]
    refine ⟨?_, rfl⟩
    rw [rounded_getDistance_eq A s, if_pos h]

/-- The function `pow2` is the integer power of two. -/
theorem pow2_eq_zpow (e : Int) : pow2 e = (2 : ℚ) ^ e := by
  unfold pow2
  split_ifs with h
  · have h2 : ((e.toNat : Nat) : Int) = e := Int.toNat_of_nonneg h
    rw [Nat.cast_pow, Nat.cast_ofNat, ← zpow_natCast, h2]
  · have h2 : (((-e).toNat : Nat) : Int) = -e := Int.toNat_of_nonneg (by omega)
    have h3 : e = -(((-e).toNat : Nat) : Int) := by omega
    conv_rhs => rw [h3]
    rw [zpow_neg, zpow_natCast, Nat.cast_pow, Nat.cast_ofNat, one_div]

/-- With enough fuel `halvings` is the binary logarithm. -/
theorem halvings_eq_log (fuel n : Nat) (h : n ≤ fuel) : halvings fuel n = Nat.log 2 n := by
  induction fuel generalizing n with
  | zero =>
    have h0 : n = 0 := by omega
    subst h0
    simp [halvings]
  | succ f ih =>
    unfold halvings
    split_ifs with h2
    · exact (Nat.log_of_lt h2).symm
    · rw [ih (n / 2) (by omega), Nat.log_of_one_lt_of_le (by norm_num) (not_lt.mp h2)]

/-- The function `floorLog2` is the binary logarithm. -/
theorem floorLog2_eq_log (n : Nat) : floorLog2 n = Nat.log 2 n :=
  halvings_eq_log n n (le_refl n)

/-- The absolute value of a rational, from its numerator and denominator. -/
theorem abs_eq_natAbs_div (q : ℚ) : |q| = (q.num.natAbs : ℚ) / (q.den : ℚ) := by
  rw [Rat.abs_def, Rat.divInt_eq_div]
  push_cast
  rw [Nat.cast_natAbs, Int.cast_abs]

/-- The binary exponent brackets a non-zero rational: `2 ^ e ≤ |q| < 2 ^ (e + 1)`. -/
theorem ilog2_spec (q : ℚ) (hq : q ≠ 0) :
    (2 : ℚ) ^ ilog2 q ≤ |q| ∧ |q| < (2 : ℚ) ^ (ilog2 q + 1) := by
  have ha0 : q.num.natAbs ≠ 0 := Int.natAbs_ne_zero.mpr (Rat.num_ne_zero.mpr hq)
  have hb0 : q.den ≠ 0 := q.den_nz
  have ha1 : ((2 ^ Nat.log 2 q.num.natAbs : Nat) : ℚ) ≤ (q.num.natAbs : ℚ) := by
    exact_mod_cast Nat.pow_log_le_self 2 ha0
  have ha2 : (q.num.natAbs : ℚ) < ((2 ^ (Nat.log 2 q.num.natAbs).succ : Nat) : ℚ) := by
    exact_mod_cast Nat.lt_pow_succ_log_self (by norm_num) q.num.natAbs
  have hb1 : ((2 ^ Nat.log 2 q.den : Nat) : ℚ) ≤ (q.den : ℚ) := by
    exact_mod_cast Nat.pow_log_le_self 2 hb0
  have hb2 : (q.den : ℚ) < ((2 ^ (Nat.log 2 q.den).succ : Nat) : ℚ) := by
    exact_mod_cast Nat.lt_pow_succ_log_self (by norm_num) q.den
  rw [abs_eq_natAbs_div]
  unfold ilog2
  rw [floorLog2_eq_log, floorLog2_eq_log]
  dsimp only
  rw [pow2_eq_zpow]
  generalize Nat.log 2 q.num.natAbs = la at ha1 ha2
  generalize Nat.log 2 q.den = lb at hb1 hb2
  generalize (q.num.natAbs : ℚ) = a at ha1 ha2
  generalize (q.den : ℚ) = b at hb1 hb2
  rw [Nat.pow_succ] at ha2 hb2
  push_cast at ha1 ha2 hb1 hb2
  have hA : (0 : ℚ) < 2 ^ la := by positivity
  have hB : (0 : ℚ) < 2 ^ lb := by positivity
  have hb : 0 < b := lt_of_lt_of_le hB hb1
  have h2 : (2 : ℚ) ≠ 0 := by norm_num
  have e0 : (2 : ℚ) ^ ((la : Int) - (lb : Int)) = 2 ^ la / 2 ^ lb := by
    rw [zpow_sub₀ h2, zpow_natCast, zpow_natCast]
  have e1 : (2 : ℚ) ^ ((la : Int) - (lb : Int) + 1) = 2 ^ la * 2 / 2 ^ lb := by
    rw [zpow_add₀ h2, e0, zpow_one]; ring
  have em : (2 : ℚ) ^ ((la : Int) - (lb : Int) - 1) = 2 ^ la / (2 ^ lb * 2) := by
    rw [zpow_sub₀ h2, e0, zpow_one]; field_simp
  split_ifs with hc
  · rw [e0, e1]
    rw [e0] at hc
    constructor
    · rw [le_div_iff₀ hb]; exact hc
    · rw [div_lt_div_iff₀ hb hB]
      nlinarith
  · rw [sub_add_cancel, e0, em]
    rw [e0] at hc
    push_neg at hc
    constructor
    · rw [div_le_div_iff₀ (by positivity) hb]
      nlinarith
    · rw [div_lt_iff₀ hb]; exact hc

/-- Rounding an integer to the nearest integer gives it back. -/
theorem roundHalfEven_intCast (n : Int) : roundHalfEven (n : ℚ) = n := by
  unfold roundHalfEven
  simp [Rat.num_intCast, Rat.den_intCast]

/-- Rounding to the nearest integer stays within every integer bound of the argument. -/
theorem roundHalfEven_abs_le (q : ℚ) (M : Int) (h : |q| ≤ (M : ℚ)) : |roundHalfEven q| ≤ M := by
  obtain ⟨h1, h2⟩ := abs_le.mp h
  have hf : q.num / (q.den : Int) = ⌊q⌋ := (Rat.floor_def' q).symm
  have hf1 : ((⌊q⌋ : Int) : ℚ) ≤ q := Int.floor_le q
  have hf2 : q < ((⌊q⌋ : Int) : ℚ) + 1 := Int.lt_floor_add_one q
  have lo : -M ≤ ⌊q⌋ := by
    have h3 : ((-M : Int) : ℚ) < ((⌊q⌋ + 1 : Int) : ℚ) := by
      push_cast; linarith
    have h4 : -M < ⌊q⌋ + 1 := by exact_mod_cast h3
    omega
  have hi : ⌊q⌋ ≤ M := by
    have h3 : ((⌊q⌋ : Int) : ℚ) ≤ (M : ℚ) := le_trans hf1 h2
    exact_mod_cast h3
  unfold roundHalfEven
  dsimp only
  rw [hf]
  have up : ¬ (q - ((⌊q⌋ : Int) : ℚ) < 1 / 2) → ⌊q⌋ + 1 ≤ M := by
    intro hr
    have h3 : ((⌊q⌋ : Int) : ℚ) < (M : ℚ) := by linarith
    have h4 : ⌊q⌋ < M := by exact_mod_cast h3
    omega
  split_ifs with c1 c2 c3
  · exact abs_le.mpr ⟨lo, hi⟩
  · exact abs_le.mpr ⟨by omega, up c1⟩
  · exact abs_le.mpr ⟨lo, hi⟩
  · exact abs_le.mpr ⟨by omega, up c1⟩

/-- A non-zero integer multiple of the power of two that `roundTo` selects for it is a fixed
point of `roundTo`. -/
theorem roundTo_of_multiple (p : Nat) (emin : Int) (r : ℚ) (m : Int) (hr : r ≠ 0)
    (hm : r = (m : ℚ) * (2 : ℚ) ^ (Max.max (ilog2 r - ((p : Int) - 1)) emin)) :
    roundTo p emin r = r := by
  unfold roundTo
  rw [if_neg hr]
  dsimp only
  rw [pow2_eq_zpow]
  have hpos : (2 : ℚ) ^ (Max.max (ilog2 r - ((p : Int) - 1)) emin) ≠ 0 :=
    zpow_ne_zero _ (by norm_num)
  have hdiv : r / (2 : ℚ) ^ (Max.max (ilog2 r - ((p : Int) - 1)) emin) = (m : ℚ) := by
    rw [div_eq_iff hpos]; exact hm
  rw [hdiv, roundHalfEven_intCast]
  exact hm.symm

/-- Rounding to a binary floating-point format is idempotent: a rounded value is representable
and rounds to itself. -/
theorem roundTo_roundTo (p : Nat) (emin : Int) (hp : 1 ≤ p) (q : ℚ) :
    roundTo p emin (roundTo p emin q) = roundTo p emin q := by
  by_cases hq : q = 0
  · simp [roundTo, hq]
  have h2 : (2 : ℚ) ≠ 0 := by norm_num
  have h12 : (1 : ℚ) < 2 := by norm_num
  obtain ⟨k, hk⟩ : ∃ k : Int, k = Max.max (ilog2 q - ((p : Int) - 1)) emin := ⟨_, rfl⟩
  obtain ⟨n, hn⟩ : ∃ n : Int, n = roundHalfEven (q / (2 : ℚ) ^ k) := ⟨_, rfl⟩
  have hR : roundTo p emin q = (n : ℚ) * (2 : ℚ) ^ k := by
    unfold roundTo
    rw [if_neg hq]
    dsimp only
    rw [pow2_eq_zpow, ← hk, ← hn]
  rw [hR]
  by_cases hn0 : n = 0
  · simp [roundTo, hn0]
  have hkpos : (0 : ℚ) < (2 : ℚ) ^ k := zpow_pos (by norm_num) k
  have hr0 : (n : ℚ) * (2 : ℚ) ^ k ≠ 0 :=
    mul_ne_zero (by exact_mod_cast hn0) (ne_of_gt hkpos)
  have hk1 : ilog2 q - ((p : Int) - 1) ≤ k := by rw [hk]; exact le_max_left _ _
  have hk2 : emin ≤ k := by rw [hk]; exact le_max_right _ _
  -- the significand has at most `p` bits, or is `2 ^ p`
  have hqk : |q / (2 : ℚ) ^ k| ≤ (((2 : Int) ^ p : Int) : ℚ) := by
    rw [abs_div, abs_of_pos hkpos, div_le_iff₀ hkpos]
    have h3 : |q| < (2 : ℚ) ^ (ilog2 q + 1) := (ilog2_spec q hq).2
    have h4 : (2 : ℚ) ^ (ilog2 q + 1) ≤ (2 : ℚ) ^ ((p : Int) + k) :=
      zpow_le_zpow_right₀ (le_of_lt h12) (by omega)
    have h5 : (2 : ℚ) ^ ((p : Int) + k) = (((2 : Int) ^ p : Int) : ℚ) * (2 : ℚ) ^ k := by
      rw [zpow_add₀ h2, zpow_natCast]; push_cast; rfl
    linarith
  have hnp : |n| ≤ (2 : Int) ^ p := by
    rw [hn]; exact roundHalfEven_abs_le _ _ hqk
  have habs : |(n : ℚ) * (2 : ℚ) ^ k| = ((|n| : Int) : ℚ) * (2 : ℚ) ^ k := by
    rw [abs_mul, abs_of_pos hkpos, Int.cast_abs]
  have hlow : (2 : ℚ) ^ ilog2 ((n : ℚ) * (2 : ℚ) ^ k) ≤ ((|n| : Int) : ℚ) * (2 : ℚ) ^ k := by
    rw [← habs]; exact (ilog2_spec _ hr0).1
  have hpk : (2 : ℚ) ^ ((p : Int) + k) = (((2 : Int) ^ p : Int) : ℚ) * (2 : ℚ) ^ k := by
    rw [zpow_add₀ h2, zpow_natCast]; push_cast; rfl
  by_cases hlt : |n| < (2 : Int) ^ p
  · -- the exponent selected for the rounded value is at most `k`
    have h6 : (2 : ℚ) ^ ilog2 ((n : ℚ) * (2 : ℚ) ^ k) < (2 : ℚ) ^ ((p : Int) + k) := by
      rw [hpk]
      have h7 : ((|n| : Int) : ℚ) < (((2 : Int) ^ p : Int) : ℚ) := by exact_mod_cast hlt
      have h8 := mul_lt_mul_of_pos_right h7 hkpos
      linarith
    have h9 : ilog2 ((n : ℚ) * (2 : ℚ) ^ k) < (p : Int) + k :=
      (zpow_lt_zpow_iff_right₀ h12).mp h6
    obtain ⟨k1, hk1def⟩ : ∃ k1 : Int,
        k1 = Max.max (ilog2 ((n : ℚ) * (2 : ℚ) ^ k) - ((p : Int) - 1)) emin := ⟨_, rfl⟩
    have hle : k1 ≤ k := by rw [hk1def]; exact max_le (by omega) hk2
    apply roundTo_of_multiple p emin _ (n * (2 : Int) ^ (k - k1).toNat) hr0
    rw [← hk1def]
    have h10 : (((k - k1).toNat : Nat) : Int) = k - k1 := Int.toNat_of_nonneg (by omega)
    have h11 : (2 : ℚ) ^ k = (2 : ℚ) ^ (k - k1) * (2 : ℚ) ^ k1 := by
      rw [← zpow_add₀ h2]; congr 1; ring
    rw [h11]
    push_cast
    rw [← zpow_natCast (2 : ℚ), h10]
    ring
  · -- the significand is `2 ^ p`: the exponent selected is at most `k + 1`
    have heq : |n| = (2 : Int) ^ p := le_antisymm hnp (not_lt.mp hlt)
    have h6 : (2 : ℚ) ^ ilog2 ((n : ℚ) * (2 : ℚ) ^ k) ≤ (2 : ℚ) ^ ((p : Int) + k) := by
      rw [hpk, ← heq]; exact hlow
    have h9 : ilog2 ((n : ℚ) * (2 : ℚ) ^ k) ≤ (p : Int) + k :=
      (zpow_le_zpow_iff_right₀ h12).mp h6
    obtain ⟨k1, hk1def⟩ : ∃ k1 : Int,
        k1 = Max.max (ilog2 ((n : ℚ) * (2 : ℚ) ^ k) - ((p : Int) - 1)) emin := ⟨_, rfl⟩
    have hle : k1 ≤ k + 1 := by rw [hk1def]; exact max_le (by omega) (by omega)
    obtain ⟨m, hm⟩ : ∃ m : Int, n = 2 * m := by
      have hdvd : (2 : Int) ∣ |n| := by
        rw [heq]; exact dvd_pow_self 2 (by omega)
      exact (dvd_abs 2 n).mp hdvd
    by_cases hk1k : k1 ≤ k
    · apply roundTo_of_multiple p emin _ (n * (2 : Int) ^ (k - k1).toNat) hr0
      rw [← hk1def]
      have h10 : (((k - k1).toNat : Nat) : Int) = k - k1 := Int.toNat_of_nonneg (by omega)
      have h11 : (2 : ℚ) ^ k = (2 : ℚ) ^ (k - k1) * (2 : ℚ) ^ k1 := by
        rw [← zpow_add₀ h2]; congr 1; ring
      rw [h11]
      push_cast
      rw [← zpow_natCast (2 : ℚ), h10]
      ring
    · have hk1eq : k1 = k + 1 := by omega
      apply roundTo_of_multiple p emin _ m hr0
      rw [← hk1def, hk1eq, zpow_add₀ h2, zpow_one, hm]
      push_cast
      ring

/-- A value of type `float` converts to `float` unchanged. -/
theorem float32_float32 (q : ℚ) : float32 (float32 q) = float32 q :=
  roundTo_roundTo 24 (-149) (by norm_num) q

/-- Every power of two is positive. -/
theorem pow2_pos (e : Int) : 0 < pow2 e := by
  unfold pow2
  split_ifs
  · positivity
  · positivity

/-- Rounding a non-negative rational to the nearest integer gives a non-negative integer. -/
theorem roundHalfEven_nonneg (q : ℚ) (h : 0 ≤ q) : 0 ≤ roundHalfEven q := by
  have hf : 0 ≤ q.num / (q.den : Int) :=
    Int.ediv_nonneg (Rat.num_nonneg.mpr h) (Int.natCast_nonneg _)
  unfold roundHalfEven
  dsimp only
  split_ifs <;> omega

/-- Rounding to a binary floating-point format keeps a non-negative value non-negative. -/
theorem roundTo_nonneg (p : Nat) (emin : Int) (q : ℚ) (h : 0 ≤ q) : 0 ≤ roundTo p emin q := by
  unfold roundTo
  split_ifs
  · exact le_refl _
  · dsimp only
    apply mul_nonneg
    · exact_mod_cast roundHalfEven_nonneg _ (div_nonneg h (le_of_lt (pow2_pos _)))
    · exact le_of_lt (pow2_pos _)

/-- The arithmetic of the program keeps the sign. -/
theorem ieeeArith_keepsSign : KeepsSign ieeeArith :=
  fun q h => roundTo_nonneg 24 (-149) q h

/-- Every survivor lies in `(0, maxDistance]`. -/
theorem rounded_mem_survivors_range (A : Arith) (maxDistance : ℚ) (raw : List Int) (x : ℚ)
    (h : x ∈ Rounded.survivors A maxDistance raw) : 0 < x ∧ x ≤ maxDistance := by
  unfold Rounded.survivors at h
  simpa using (List.mem_filter.mp h).2

/-- The rounded running sum of non-negative distances is non-negative. -/
theorem rounded_sumFrom_nonneg (A : Arith) (hA : KeepsSign A) (xs : List ℚ) (start : ℚ)
    (hs : 0 ≤ start) (hx : ∀ x ∈ xs, 0 ≤ x) : 0 ≤ Rounded.sumFrom A start xs := by
  induction xs generalizing start with
  | nil => exact hs
  | cons x xs ih =>
    unfold Rounded.sumFrom
    rw [List.foldl_cons]
    exact ih _ (hA _ (add_nonneg hs (hx x (List.mem_cons_self _ _))))
      (fun y hy => hx y (List.mem_cons_of_mem _ hy))

/-- The rounded mean of non-negative distances is non-negative. -/
theorem rounded_mean_nonneg (A : Arith) (hA : KeepsSign A) (xs : List ℚ)
    (hx : ∀ x ∈ xs, 0 ≤ x) : 0 ≤ Rounded.mean A xs := by
  unfold Rounded.mean
  exact hA _ (div_nonneg (rounded_sumFrom_nonneg A hA xs 0 (le_refl _) hx)
    (hA _ (Nat.cast_nonneg _)))

/-- The rounded sampler writes `lastValidDistance` and `distanceValid` only. -/
theorem rounded_getDistance_frame (A : Arith) (s : Detector) (pulseIn : Nat → Int) :
    SamplerFrame s (Rounded.getDistance A s pulseIn).detector ∧
      (Rounded.getDistance A s pulseIn).detector.baselineDistance = s.baselineDistance := by
  rw [rounded_getDistance_eq]
  split_ifs <;> exact ⟨⟨rfl, rfl, rfl, rfl, rfl, rfl, rfl, rfl, rfl, rfl, rfl⟩, rfl⟩

/-- A valid filtered distance is never negative when the arithmetic keeps the sign. -/
theorem rounded_getDistance_nonneg (A : Arith) (hA : KeepsSign A) (s : Detector)
    (pulseIn : Nat → Int)
    (hv : (Rounded.getDistance A s pulseIn).detector.distanceValid = true) :
    0 ≤ (Rounded.getDistance A s pulseIn).distance := by
  rw [rounded_getDistance_eq] at hv ⊢
  split_ifs at hv ⊢ with h
  exact rounded_mean_nonneg A hA _
    (fun x hx => le_of_lt (rounded_mem_survivors_range A _ _ x hx).1)

/-- The rounded baseline acquisition writes `lastValidDistance`, `distanceValid` and
`baselineDistance` only. -/
theorem rounded_initializeBaselineLoop_frame (A : Arith) (retries : Nat) (s : Detector)
    (pulseIn : Nat → Int) :
    SamplerFrame s (Rounded.initializeBaselineLoop A s pulseIn retries).2.1 := by
  induction retries generalizing s pulseIn with
  | zero => exact ⟨rfl, rfl, rfl, rfl, rfl, rfl, rfl, rfl, rfl, rfl, rfl⟩
  | succ n ih =>
    have hg := (rounded_getDistance_frame A s pulseIn).1
    unfold Rounded.initializeBaselineLoop
    dsimp only
    split_ifs
    · exact ⟨hg.config, hg.currentState, hg.previousState, hg.currentDirection,
        hg.previousDirection, hg.maxDistance, hg.previousDistance, hg.stableCounter,
        hg.outOfRangeCounter, hg.onStateChange, hg.onResetBaseLine⟩
    · have hi := ih (Rounded.getDistance A s pulseIn).detector
        (Rounded.getDistance A s pulseIn).rest
      exact ⟨hi.config.trans hg.config, hi.currentState.trans hg.currentState,
        hi.previousState.trans hg.previousState, hi.currentDirection.trans hg.currentDirection,
        hi.previousDirection.trans hg.previousDirection, hi.maxDistance.trans hg.maxDistance,
        hi.previousDistance.trans hg.previousDistance, hi.stableCounter.trans hg.stableCounter,
        hi.outOfRangeCounter.trans hg.outOfRangeCounter, hi.onStateChange.trans hg.onStateChange,
        hi.onResetBaseLine.trans hg.onResetBaseLine⟩

/-- The rounded `setup(cfg)` is line 21, the baseline acquisition with five retries, and
`setupFinish`. -/
theorem rounded_setup_eq_finish (A : Arith) (s : Detector) (cfg : DetectorConfig)
    (pulseIn : Nat → Int) :
    Rounded.setup A s cfg pulseIn =
      setupFinish (Rounded.initializeBaselineDistance A (withConfig s cfg) pulseIn 5) := rfl

/-- The rounded `setup(cfg)` leaves the state and the out-of-range counter as they were. -/
theorem rounded_setup_fields (A : Arith) (s : Detector) (cfg : DetectorConfig)
    (pulseIn : Nat → Int) :
    (Rounded.setup A s cfg pulseIn).1.currentState = s.currentState ∧
    (Rounded.setup A s cfg pulseIn).1.outOfRangeCounter = s.outOfRangeCounter := by
  have hf : SamplerFrame (withConfig s cfg)
      (Rounded.initializeBaselineDistance A (withConfig s cfg) pulseIn 5).2.1 :=
    rounded_initializeBaselineLoop_frame A (5 : Int).toNat (withConfig s cfg) pulseIn
  rw [rounded_setup_eq_finish]
  generalize Rounded.initializeBaselineDistance A (withConfig s cfg) pulseIn 5 = r at hf ⊢
  unfold setupFinish
  cases hb : r.1 with
  | true =>
    simp only [Bool.not_true, Bool.false_eq_true, if_false]
    exact ⟨hf.currentState, hf.outOfRangeCounter⟩
  | false =>
    simp only [Bool.not_false, if_true]
    exact ⟨hf.currentState, hf.outOfRangeCounter⟩

/-- Lines 61-106 do not write the settings, rounded layer. -/
theorem rounded_updateTransition_sameSettings (A : Arith) (s : Detector) (d thr : ℚ)
    (nd : MovementDirection) :
    SameSettings s (Rounded.updateTransition A s d thr nd).1 := by
  have key : ∀ (t : Detector) (ns : State), SameSettings s t →
      ∀ u : Detector, u.config = (changeState t ns nd).1.config →
        u.maxDistance = (changeState t ns nd).1.maxDistance →
        u.lastValidDistance = (changeState t ns nd).1.lastValidDistance →
        u.outOfRangeCounter = (changeState t ns nd).1.outOfRangeCounter →
        u.distanceValid = (changeState t ns nd).1.distanceValid →
        u.onStateChange = (changeState t ns nd).1.onStateChange → SameSettings s u := by
    intro t ns ht u h1 h2 h3 h4 h5 h6
    have hc := changeState_sameSettings t ns nd
    exact ⟨h1.trans (hc.config.trans ht.config), h2.trans (hc.maxDistance.trans ht.maxDistance),
      h3.trans (hc.lastValidDistance.trans ht.lastValidDistance),
      h4.trans (hc.outOfRangeCounter.trans ht.outOfRangeCounter),
      h5.trans (hc.distanceValid.trans ht.distanceValid),
      h6.trans (hc.onStateChange.trans ht.onStateChange)⟩
  have hrefl : SameSettings s s := ⟨rfl, rfl, rfl, rfl, rfl, rfl⟩
  unfold Rounded.updateTransition
  by_cases hd : d < s.config.dangerCloseDistance
  · rw [if_pos hd]
    exact key s DANGERCLOSE hrefl _ rfl rfl rfl rfl rfl rfl
  · rw [if_neg hd]
    split
    · split_ifs
      · exact key s MOVED hrefl _ rfl rfl rfl rfl rfl rfl
      · exact hrefl
    · dsimp only
      split_ifs
      · exact key { s with stableCounter := s.stableCounter + 1 } STOPPED
          ⟨rfl, rfl, rfl, rfl, rfl, rfl⟩ _ rfl rfl rfl rfl rfl rfl
      · exact ⟨rfl, rfl, rfl, rfl, rfl, rfl⟩
      · exact ⟨rfl, rfl, rfl, rfl, rfl, rfl⟩
    · have h := changeState_sameSettings { s with stableCounter := 0 } IDLE NONE
      exact ⟨h.config, h.maxDistance, h.lastValidDistance, h.outOfRangeCounter, h.distanceValid,
        h.onStateChange⟩
    · split_ifs
      · have h := changeState_sameSettings
          { s with baselineDistance := d, stableCounter := 0 } IDLE nd
        exact ⟨h.config, h.maxDistance, h.lastValidDistance, h.outOfRangeCounter,
          h.distanceValid, h.onStateChange⟩
      · exact hrefl
    · exact changeState_sameSettings s IDLE nd

/-- Lines 61-106 never end in OUTOFRANGE, rounded layer. -/
theorem rounded_updateTransition_ne_outOfRange (A : Arith) (s : Detector) (d thr : ℚ)
    (nd : MovementDirection) :
    (Rounded.updateTransition A s d thr nd).1.currentState ≠ OUTOFRANGE := by
  unfold Rounded.updateTransition
  by_cases hd : d < s.config.dangerCloseDistance
  · rw [if_pos hd]
    simp [changeState_currentState]
  · rw [if_neg hd]
    split
    · rename_i hs
      split_ifs
      · simp [changeState_currentState]
      · simp [hs]
    · rename_i hs
      dsimp only
      split_ifs
      · simp [changeState_currentState]
      · simp [hs]
      · simp [hs]
    · simp [changeState_currentState]
    · rename_i hs
      split_ifs
      · simp [changeState_currentState]
      · simp [hs]
    · simp [changeState_currentState]

/-- A valid tick on which the range check does not return early keeps the ceiling, counts the
out-of-bounds reading or clears the counter, and does not end in OUTOFRANGE; rounded layer. -/
theorem rounded_updateWith_quiet (A : Arith) (s : Detector) (d : ℚ)
    (hv : s.distanceValid = true) (hf : ¬ rangeCheckFires s d) :
    (Rounded.updateWith A s d).1.maxDistance = s.maxDistance ∧
    (Rounded.updateWith A s d).1.outOfRangeCounter =
      (if d < MinimumDistance ∨ d > s.maxDistance then s.outOfRangeCounter + 1 else 0) ∧
    (Rounded.updateWith A s d).1.currentState ≠ OUTOFRANGE := by
  obtain ⟨s1, nd, hh, hc, he⟩ := rounded_updateWith_eq_transition A s d hv hf
  rw [he]
  have hf := rounded_updateTransition_sameSettings A s1 d
    (Max.max s.config.movementThreshold (A.toFloat (d * s.config.dynamicThreshold))) nd
  exact ⟨hf.maxDistance.trans hh.maxDistance, hf.outOfRangeCounter.trans hc,
    rounded_updateTransition_ne_outOfRange _ _ _ _ _⟩

/-- The baseline-reset path ends in IDLE and leaves the out-of-range counter; rounded layer. -/
theorem rounded_updateWith_invalid (A : Arith) (s : Detector) (d : ℚ)
    (hv : s.distanceValid = false) :
    (Rounded.updateWith A s d).1.currentState = IDLE ∧
      (Rounded.updateWith A s d).1.outOfRangeCounter = s.outOfRangeCounter := by
  simp only [Rounded.updateWith, hv, Bool.not_false, if_true, resetBaseLine]
  split_ifs <;> exact ⟨rfl, rfl⟩

/-- In every state reached without a valid filtered distance above the ceiling, the out-of-range
counter is 0 and the state is not OUTOFRANGE. -/
theorem rounded_reachableInRange_noOutOfRange (A : Arith) (hA : KeepsSign A) (s : Detector)
    (h : Rounded.ReachableInRange A s) :
    s.outOfRangeCounter = 0 ∧ s.currentState ≠ OUTOFRANGE := by
  induction h with
  | fresh t e b => simp [new]
  | @afterSetup s cfg pulseIn _ ih =>
    obtain ⟨f3, f4⟩ := rounded_setup_fields A s cfg pulseIn
    rw [f3, f4]
    exact ih
  | @afterUpdate s pulseIn _ hle ih =>
    have hfr := (rounded_getDistance_frame A s pulseIn).1
    show (Rounded.updateWith A (Rounded.getDistance A s pulseIn).detector
        (Rounded.getDistance A s pulseIn).distance).1.outOfRangeCounter = 0 ∧
      (Rounded.updateWith A (Rounded.getDistance A s pulseIn).detector
        (Rounded.getDistance A s pulseIn).distance).1.currentState ≠ OUTOFRANGE
    cases hv : (Rounded.getDistance A s pulseIn).detector.distanceValid with
    | false =>
      obtain ⟨r1, r2⟩ := rounded_updateWith_invalid A _ (Rounded.getDistance A s pulseIn).distance hv
      rw [r1, r2, hfr.outOfRangeCounter]
      exact ⟨ih.1, by simp⟩
    | true =>
      have hr : ¬ ((Rounded.getDistance A s pulseIn).distance < MinimumDistance ∨
          (Rounded.getDistance A s pulseIn).distance >
            (Rounded.getDistance A s pulseIn).detector.maxDistance) := by
        rw [hfr.maxDistance]
        simp only [MinimumDistance]
        push_neg
        exact ⟨rounded_getDistance_nonneg A hA s pulseIn hv, hle hv⟩
      obtain ⟨-, q4, q5⟩ := rounded_updateWith_quiet A _
        (Rounded.getDistance A s pulseIn).distance hv (fun hf => hr hf.1)
      rw [q4, if_neg hr]
      exact ⟨rfl, q5⟩
  | afterSetStateChangeCallback cb _ ih => exact ih
  | afterSetResetBaseLineCallback cb _ ih => exact ih

/-- Every survivor is the distance of a measurement of the batch. -/
theorem rounded_mem_survivors_raw (A : Arith) (maxDistance : ℚ) (raw : List Int) (x : ℚ)
    (h : x ∈ Rounded.survivors A maxDistance raw) :
    ∃ duration : Int, x = Rounded.rawDistance A duration := by
  unfold Rounded.survivors at h
  obtain ⟨duration, -, hd⟩ := List.mem_map.mp (List.mem_filter.mp h).1
  exact ⟨duration, hd.symm⟩

/-- The binary32 mean of a single `float` is that `float`. -/
theorem rounded_mean_singleton (x : ℚ) (hx : float32 x = x) :
    Rounded.mean ieeeArith [x] = x := by
  have h1 : float32 (((1 : Nat) : ℚ)) = 1 := by decide!
  show float32 (float32 (0 + x) / float32 (((1 : Nat) : ℚ))) = x
  rw [h1, zero_add, hx, div_one, hx]

/-- When a batch has a single survivor, the binary32 sampler returns that survivor. -/
theorem rounded_getDistance_single (s : Detector) (pulseIn : Nat → Int) (x : ℚ)
    (h : Rounded.survivors ieeeArith s.maxDistance (batch s pulseIn) = [x]) :
    (Rounded.getDistance ieeeArith s pulseIn).distance = x ∧
      (Rounded.getDistance ieeeArith s pulseIn).detector.distanceValid = true ∧
      0 < x ∧ x ≤ s.maxDistance := by
  have hmem : x ∈ Rounded.survivors ieeeArith s.maxDistance (batch s pulseIn) := by
    rw [h]; exact List.mem_singleton_self x
  obtain ⟨duration, hd⟩ := rounded_mem_survivors_raw _ _ _ x hmem
  have hx : float32 x = x := by
    rw [hd]
    exact float32_float32 _
  have hne : Rounded.survivors ieeeArith s.maxDistance (batch s pulseIn) ≠ [] := by
    rw [h]; exact List.cons_ne_nil _ _
  obtain ⟨g1, g2, -⟩ := (rounded_sampler ieeeArith s pulseIn).1 hne
  rw [h, rounded_mean_singleton x hx] at g1
  exact ⟨g1, g2, rounded_mem_survivors_range _ _ _ x hmem⟩

/-- C4 (Distance Sampler contract) fails as stated. On a freshly constructed detector (`maxDistance
= 400`) a batch of three measurements of 10300 µs survives whole: `S` holds three times the `float`
175.1 cm (`5737677 / 32768`), whose arithmetic mean is that value; `getDistance` returns `11475355 /
65536` (175.1000214), which is not the arithmetic mean of `S` and exceeds every element of `S`. A
single measurement of 1 µs, 0.017 cm, is returned as the `float` `4563403 / 268435456`
(0.0170000009). -/
theorem sampler_contract_counterexample :
    Rounded.survivors ieeeArith (new 9 10 false).maxDistance (batch (new 9 10 false) echo175) =
      [5737677 / 32768, 5737677 / 32768, 5737677 / 32768] ∧
    mean (Rounded.survivors ieeeArith (new 9 10 false).maxDistance
      (batch (new 9 10 false) echo175)) = 5737677 / 32768 ∧
    (Rounded.getDistance ieeeArith (new 9 10 false) echo175).distance = 11475355 / 65536 ∧
    (Rounded.getDistance ieeeArith (new 9 10 false) echo175).detector.distanceValid = true ∧
    (Rounded.getDistance ieeeArith (new 9 10 false) echo175).distance ≠
      mean (Rounded.survivors ieeeArith (new 9 10 false).maxDistance
        (batch (new 9 10 false) echo175)) ∧
    (∀ x ∈ Rounded.survivors ieeeArith (new 9 10 false).maxDistance
        (batch (new 9 10 false) echo175),
      x < (Rounded.getDistance ieeeArith (new 9 10 false) echo175).distance) ∧
    (Rounded.getDistance ieeeArith (new 9 10 false) echoOnce).distance =
      4563403 / 268435456 ∧
    (Rounded.getDistance ieeeArith (new 9 10 false) echoOnce).distance ≠ 17 / 1000 := by
  decide!

/-- C4 amended (Distance Sampler contract in `float` arithmetic). For every detector state and every
batch of `config.averageReadingCount` raw measurements, let `S` be the measurements that are not
timeouts and whose distance, computed as the `float` `duration * 0.034 / 2`, lies in `(0,
maxDistance]`. If `S` is non-empty, `getDistance` returns the binary32 mean of `S` (the survivors
added in order, each partial sum rounded to `float`, divided by their count as a `float`, the
quotient rounded), sets `distanceValid = true` and stores that value in `lastValidDistance`; when
`S` has one element, the value is that element. If `S` is empty it returns the unchanged
`lastValidDistance`, sets `distanceValid = false` and leaves `lastValidDistance` unchanged. Hence a
batch of timeouts right after a successful call returns the value of that call with `distanceValid =
false`. -/
theorem sampler_contract_binary32 (s : Detector) (pulseIn : Nat → Int) :
    (Rounded.survivors ieeeArith s.maxDistance (batch s pulseIn) ≠ [] →
      (Rounded.getDistance ieeeArith s pulseIn).distance =
        Rounded.mean ieeeArith (Rounded.survivors ieeeArith s.maxDistance (batch s pulseIn)) ∧
      (Rounded.getDistance ieeeArith s pulseIn).detector.distanceValid = true ∧
      (Rounded.getDistance ieeeArith s pulseIn).detector.lastValidDistance =
        Rounded.mean ieeeArith (Rounded.survivors ieeeArith s.maxDistance (batch s pulseIn))) ∧
    (∀ x : ℚ, Rounded.survivors ieeeArith s.maxDistance (batch s pulseIn) = [x] →
      (Rounded.getDistance ieeeArith s pulseIn).distance = x) ∧
    (Rounded.survivors ieeeArith s.maxDistance (batch s pulseIn) = [] →
      (Rounded.getDistance ieeeArith s pulseIn).distance = s.lastValidDistance ∧
      (Rounded.getDistance ieeeArith s pulseIn).detector.distanceValid = false ∧
      (Rounded.getDistance ieeeArith s pulseIn).detector.lastValidDistance =
        s.lastValidDistance) ∧
    (Rounded.survivors ieeeArith s.maxDistance (batch s pulseIn) ≠ [] →
      (∀ x ∈ batch (Rounded.getDistance ieeeArith s pulseIn).detector
        (Rounded.getDistance ieeeArith s pulseIn).rest, x = 0) →
      (Rounded.getDistance ieeeArith (Rounded.getDistance ieeeArith s pulseIn).detector
        (Rounded.getDistance ieeeArith s pulseIn).rest).distance =
        (Rounded.getDistance ieeeArith s pulseIn).distance ∧
      (Rounded.getDistance ieeeArith (Rounded.getDistance ieeeArith s pulseIn).detector
        (Rounded.getDistance ieeeArith s pulseIn).rest).detector.distanceValid = false) :=
  ⟨(rounded_sampler ieeeArith s pulseIn).1,
    fun x hx => (rounded_getDistance_single s pulseIn x hx).1,
    (rounded_sampler ieeeArith s pulseIn).2.1,
    (rounded_sampler ieeeArith s pulseIn).2.2⟩

/-- Instance of the amended C4 at a fresh detector: the batch `[6000, 6000, 6000]` survives whole
and the call returns its binary32 mean 102; the following batch of timeouts returns 102 again,
flagged invalid. -/
theorem sampler_contract_binary32_witness :
    (Rounded.survivors ieeeArith (new 9 10 false).maxDistance
        (batch (new 9 10 false) echoThenSilence) = [102, 102, 102] ∧
      (Rounded.getDistance ieeeArith (new 9 10 false) echoThenSilence).distance = 102) ∧
    ((Rounded.getDistance ieeeArith
        (Rounded.getDistance ieeeArith (new 9 10 false) echoThenSilence).detector
        (Rounded.getDistance ieeeArith (new 9 10 false) echoThenSilence).rest).distance =
        (Rounded.getDistance ieeeArith (new 9 10 false) echoThenSilence).distance ∧
      (Rounded.getDistance ieeeArith
        (Rounded.getDistance ieeeArith (new 9 10 false) echoThenSilence).detector
        (Rounded.getDistance ieeeArith (new 9 10 false) echoThenSilence).rest).detector.distanceValid
        = false) :=
  ⟨by decide!,
    (sampler_contract_binary32 (new 9 10 false) echoThenSilence).2.2.2 (by decide!)
      (by decide!)⟩

/-- C15 (IDLE transition rule) fails as stated. The detector `idleAtBoundary` is in IDLE with
baseline 149.490966796875 and the default thresholds (`movementThreshold = 1.5`, `dynamicThreshold =
0.01f`); the distance `d = 151.0009765625` is valid, in range and not below `dangerCloseDistance`;
all three numbers are `float`s. The deviation `|d - baseline|` is 1.510009765625, more than `t =
max(1.5, d * 0.01f)`, whose product is 1.5100097312...; yet `update()` leaves the detector in IDLE,
because the product rounds to the `float` 1.510009765625. -/
theorem idle_transition_rule_counterexample :
    (idleAtBoundary.currentState = IDLE ∧ idleAtBoundary.distanceValid = true ∧
      (0 : ℚ) ≤ 154625 / 1024 ∧ (154625 / 1024 : ℚ) ≤ idleAtBoundary.maxDistance ∧
      idleAtBoundary.config.dangerCloseDistance ≤ 154625 / 1024) ∧
    (float32 (154625 / 1024) = 154625 / 1024 ∧
      float32 idleAtBoundary.baselineDistance = idleAtBoundary.baselineDistance ∧
      float32 (1 / 100) = idleAtBoundary.config.dynamicThreshold) ∧
    |154625 / 1024 - idleAtBoundary.baselineDistance| >
      Max.max idleAtBoundary.config.movementThreshold
        (154625 / 1024 * idleAtBoundary.config.dynamicThreshold) ∧
    float32 (154625 / 1024 * idleAtBoundary.config.dynamicThreshold) = 6185 / 4096 ∧
    float32 (154625 / 1024 - idleAtBoundary.baselineDistance) = 6185 / 4096 ∧
    (Rounded.updateWith ieeeArith idleAtBoundary (154625 / 1024)).1.currentState = IDLE ∧
    (Rounded.updateWith ieeeArith idleAtBoundary (154625 / 1024)).1.currentState ≠ MOVED := by
  decide!

/-- C15 amended (IDLE transition rule in `float` arithmetic). For every detector in IDLE and every
valid, in-range filtered distance `d ≥ dangerCloseDistance`, let `t = max(movementThreshold, fl(d *
dynamicThreshold))` and `δ = |fl(d - baselineDistance)|`, where `fl` rounds to `float`. If `δ > t`
then after `update()` the state is MOVED, `stableCounter = 0` and `previousDistance = d`; if `δ ≤ t`
the state stays IDLE and `baselineDistance` and `stableCounter` are unchanged. -/
theorem idle_transition_rule_binary32 (s : Detector) (d : ℚ) (hs : s.currentState = IDLE)
    (hv : s.distanceValid = true) (h0 : 0 ≤ d) (hm : d ≤ s.maxDistance)
    (hd : s.config.dangerCloseDistance ≤ d) :
    (|float32 (d - s.baselineDistance)| >
        Max.max s.config.movementThreshold (float32 (d * s.config.dynamicThreshold)) →
      (Rounded.updateWith ieeeArith s d).1.currentState = MOVED ∧
        (Rounded.updateWith ieeeArith s d).1.stableCounter = 0 ∧
        (Rounded.updateWith ieeeArith s d).1.previousDistance = d) ∧
    (|float32 (d - s.baselineDistance)| ≤
        Max.max s.config.movementThreshold (float32 (d * s.config.dynamicThreshold)) →
      (Rounded.updateWith ieeeArith s d).1.currentState = IDLE ∧
        (Rounded.updateWith ieeeArith s d).1.baselineDistance = s.baselineDistance ∧
        (Rounded.updateWith ieeeArith s d).1.stableCounter = s.stableCounter) :=
  rounded_idle_rule ieeeArith s d hs hv h0 hm hd

/-- Instance of the amended C15 at `idleAtBoundary` (IDLE, baseline 149.490966796875): the
distance 151.0009765625 deviates by no more than the rounded threshold and the detector stays in
IDLE; the distance 160 deviates by more and the detector enters MOVED. -/
theorem idle_transition_rule_binary32_witness :
    (idleAtBoundary.currentState = IDLE ∧ idleAtBoundary.distanceValid = true ∧
      idleAtBoundary.baselineDistance = 612315 / 4096) ∧
    ((Rounded.updateWith ieeeArith idleAtBoundary (154625 / 1024)).1.currentState = IDLE ∧
      (Rounded.updateWith ieeeArith idleAtBoundary (154625 / 1024)).1.baselineDistance =
        idleAtBoundary.baselineDistance ∧
      (Rounded.updateWith ieeeArith idleAtBoundary (154625 / 1024)).1.stableCounter =
        idleAtBoundary.stableCounter) ∧
    ((Rounded.updateWith ieeeArith idleAtBoundary 160).1.currentState = MOVED ∧
      (Rounded.updateWith ieeeArith idleAtBoundary 160).1.stableCounter = 0 ∧
      (Rounded.updateWith ieeeArith idleAtBoundary 160).1.previousDistance = 160) :=
  ⟨by decide!,
    (idle_transition_rule_binary32 idleAtBoundary (154625 / 1024) (by decide!) (by decide!)
      (by decide!) (by decide!) (by decide!)).2 (by decide!),
    (idle_transition_rule_binary32 idleAtBoundary 160 (by decide!) (by decide!)
      (by decide!) (by decide!) (by decide!)).1 (by decide!)⟩

/-- C16 (DANGERCLOSE exit rule) fails as stated. The detector `dangerCloseAtBoundary` is in
DANGERCLOSE with `dangerCloseDistance = 149.490966796875` and the default thresholds; the distance
`d = 151.0009765625` is valid, in range and not below `dangerCloseDistance`. The deviation `|d -
dangerCloseDistance|` is 1.510009765625, more than `t = max(1.5, d * 0.01f)`, whose product is
1.5100097312...; yet `update()` leaves the detector in DANGERCLOSE with its baseline, because the
product rounds to the `float` 1.510009765625. -/
theorem dangerClose_exit_rule_counterexample :
    (dangerCloseAtBoundary.currentState = DANGERCLOSE ∧
      dangerCloseAtBoundary.distanceValid = true ∧
      (0 : ℚ) ≤ 154625 / 1024 ∧ (154625 / 1024 : ℚ) ≤ dangerCloseAtBoundary.maxDistance ∧
      dangerCloseAtBoundary.config.dangerCloseDistance ≤ 154625 / 1024) ∧
    (float32 (154625 / 1024) = 154625 / 1024 ∧
      float32 dangerCloseAtBoundary.config.dangerCloseDistance =
        dangerCloseAtBoundary.config.dangerCloseDistance ∧
      float32 (1 / 100) = dangerCloseAtBoundary.config.dynamicThreshold) ∧
    |154625 / 1024 - dangerCloseAtBoundary.config.dangerCloseDistance| >
      Max.max dangerCloseAtBoundary.config.movementThreshold
        (154625 / 1024 * dangerCloseAtBoundary.config.dynamicThreshold) ∧
    float32 (154625 / 1024 * dangerCloseAtBoundary.config.dynamicThreshold) = 6185 / 4096 ∧
    float32 (154625 / 1024 - dangerCloseAtBoundary.config.dangerCloseDistance) = 6185 / 4096 ∧
    (Rounded.updateWith ieeeArith dangerCloseAtBoundary (154625 / 1024)).1.currentState =
      DANGERCLOSE ∧
    (Rounded.updateWith ieeeArith dangerCloseAtBoundary (154625 / 1024)).1.currentState ≠
      IDLE ∧
    (Rounded.updateWith ieeeArith dangerCloseAtBoundary (154625 / 1024)).1.baselineDistance ≠
      154625 / 1024 := by
  decide!

/-- C16 amended (DANGERCLOSE exit rule in `float` arithmetic). For every detector in DANGERCLOSE and
every valid, in-range filtered distance `d ≥ dangerCloseDistance`, let `t = max(movementThreshold,
fl(d * dynamicThreshold))` and `δ = fl(d - dangerCloseDistance)`, where `fl` rounds to `float`; `δ`
is not negative. If `δ > t` then after `update()` the state is IDLE, the direction NONE,
`baselineDistance = d` and `stableCounter = 0`; otherwise, that is for `0 ≤ δ ≤ t`, the detector
stays in DANGERCLOSE with `baselineDistance` unchanged, although `d` is not below
`dangerCloseDistance`. -/
theorem dangerClose_exit_rule_binary32 (s : Detector) (d : ℚ)
    (hs : s.currentState = DANGERCLOSE) (hv : s.distanceValid = true) (h0 : 0 ≤ d)
    (hm : d ≤ s.maxDistance) (hd : s.config.dangerCloseDistance ≤ d) :
    0 ≤ float32 (d - s.config.dangerCloseDistance) ∧
    (float32 (d - s.config.dangerCloseDistance) >
        Max.max s.config.movementThreshold (float32 (d * s.config.dynamicThreshold)) →
      (Rounded.updateWith ieeeArith s d).1.currentState = IDLE ∧
        (Rounded.updateWith ieeeArith s d).1.currentDirection = NONE ∧
        (Rounded.updateWith ieeeArith s d).1.baselineDistance = d ∧
        (Rounded.updateWith ieeeArith s d).1.stableCounter = 0) ∧
    (float32 (d - s.config.dangerCloseDistance) ≤
        Max.max s.config.movementThreshold (float32 (d * s.config.dynamicThreshold)) →
      (Rounded.updateWith ieeeArith s d).1.currentState = DANGERCLOSE ∧
        (Rounded.updateWith ieeeArith s d).1.baselineDistance = s.baselineDistance) := by
  have hn : 0 ≤ float32 (d - s.config.dangerCloseDistance) :=
    ieeeArith_keepsSign _ (sub_nonneg.mpr hd)
  have hr := rounded_dangerClose_rule ieeeArith s d hs hv h0 hm hd
  have ha : |ieeeArith.toFloat (d - s.config.dangerCloseDistance)| =
      float32 (d - s.config.dangerCloseDistance) := abs_of_nonneg hn
  rw [ha] at hr
  exact ⟨hn, hr.1, hr.2⟩

/-- Instance of the amended C16 at `inDangerClose` (DANGERCLOSE, baseline 20,
`dangerCloseDistance = 25`): the distance 26 is not below 25 but within `max(1.5, fl(0.26))` of
it, and the detector stays in DANGERCLOSE with baseline 20; the distance 40 brings it to IDLE
with baseline 40. -/
theorem dangerClose_exit_rule_binary32_witness :
    (inDangerClose.currentState = DANGERCLOSE ∧ inDangerClose.distanceValid = true ∧
      inDangerClose.baselineDistance = 20 ∧ inDangerClose.config.dangerCloseDistance = 25) ∧
    ((Rounded.updateWith ieeeArith inDangerClose 26).1.currentState = DANGERCLOSE ∧
      (Rounded.updateWith ieeeArith inDangerClose 26).1.baselineDistance =
        inDangerClose.baselineDistance) ∧
    ((Rounded.updateWith ieeeArith inDangerClose 40).1.currentState = IDLE ∧
      (Rounded.updateWith ieeeArith inDangerClose 40).1.currentDirection = NONE ∧
      (Rounded.updateWith ieeeArith inDangerClose 40).1.baselineDistance = 40 ∧
      (Rounded.updateWith ieeeArith inDangerClose 40).1.stableCounter = 0) :=
  ⟨by decide!,
    (dangerClose_exit_rule_binary32 inDangerClose 26 (by decide!) (by decide!) (by decide!)
      (by decide!) (by decide!)).2.2 (by decide!),
    (dangerClose_exit_rule_binary32 inDangerClose 40 (by decide!) (by decide!) (by decide!)
      (by decide!) (by decide!)).2.1 (by decide!)⟩

/-- C17 (OUTOFRANGE is unreachable through the sampler) fails as stated. A freshly constructed
detector is set up with `maximumDistance = 175.1f` and updated three times while every measurement
is 10300 µs. Each measurement is the `float` 175.1 cm (`5737677 / 32768`), which equals
`maxDistance` and survives; the filtered distance is their binary32 mean `11475355 / 65536`
(175.1000214), valid and above `maxDistance`. The range check counts it at every call and fires at
the third: the detector, reached by `setup()` and `update()` calls only, is in OUTOFRANGE with
`outOfRangeCounter = 3`. -/
theorem outOfRange_unreachable_counterexample :
    Rounded.Reachable ieeeArith outOfRangeAt175 ∧
    outOfRangeAt175.maxDistance = 5737677 / 32768 ∧
    Rounded.rawDistance ieeeArith 10300 = 5737677 / 32768 ∧
    (Rounded.getDistance ieeeArith
        (Rounded.setup ieeeArith (new 9 10 false) configMaximum175 echo175).1
        echo175).detector.distanceValid = true ∧
    (Rounded.getDistance ieeeArith
        (Rounded.setup ieeeArith (new 9 10 false) configMaximum175 echo175).1
        echo175).distance = 11475355 / 65536 ∧
    (Rounded.getDistance ieeeArith
        (Rounded.setup ieeeArith (new 9 10 false) configMaximum175 echo175).1
        echo175).distance >
      (Rounded.setup ieeeArith (new 9 10 false) configMaximum175 echo175).1.maxDistance ∧
    outOfRangeAt175.outOfRangeCounter = 3 ∧
    outOfRangeAt175.currentState = OUTOFRANGE :=
  ⟨Rounded.Reachable.afterUpdate echo175
      (Rounded.Reachable.afterUpdate echo175
        (Rounded.Reachable.afterUpdate echo175
          (Rounded.Reachable.afterSetup configMaximum175 echo175
            (Rounded.Reachable.fresh 9 10 false)))),
    by decide!, by decide!, by decide!, by decide!, by decide!, by decide!, by decide!⟩

/-- C17 amended (OUTOFRANGE through the real sampler, in `float` arithmetic). Every measurement that
survives the filter of `getDistance` lies in `(0, maxDistance]` and every filtered distance returned
with `distanceValid = true` is at least 0; with a single survivor in the batch the filtered distance
is that survivor, so the condition of the range check in `update()` is false for it. The filtered
distance of several survivors is their binary32 mean, which is not bounded by `maxDistance`. In
every state reached from a freshly constructed detector by `setup()` and `update()` calls, with any
raw readings, in which no call of `update()` obtained a valid filtered distance above `maxDistance`,
`outOfRangeCounter = 0` and `currentState` is not OUTOFRANGE. -/
theorem outOfRange_in_range_invariant :
    (∀ (maxDistance : ℚ) (raw : List Int),
      ∀ x ∈ Rounded.survivors ieeeArith maxDistance raw, 0 < x ∧ x ≤ maxDistance) ∧
    (∀ (s : Detector) (pulseIn : Nat → Int),
      (Rounded.getDistance ieeeArith s pulseIn).detector.distanceValid = true →
      0 ≤ (Rounded.getDistance ieeeArith s pulseIn).distance) ∧
    (∀ (s : Detector) (pulseIn : Nat → Int) (x : ℚ),
      Rounded.survivors ieeeArith s.maxDistance (batch s pulseIn) = [x] →
      (Rounded.getDistance ieeeArith s pulseIn).detector.distanceValid = true ∧
      ¬ ((Rounded.getDistance ieeeArith s pulseIn).distance < MinimumDistance ∨
        (Rounded.getDistance ieeeArith s pulseIn).distance >
          (Rounded.getDistance ieeeArith s pulseIn).detector.maxDistance)) ∧
    (∀ s : Detector, Rounded.ReachableInRange ieeeArith s →
      s.outOfRangeCounter = 0 ∧ s.currentState ≠ OUTOFRANGE) := by
  refine ⟨fun m raw x hx => rounded_mem_survivors_range ieeeArith m raw x hx,
    fun s pulseIn hv => rounded_getDistance_nonneg ieeeArith ieeeArith_keepsSign s pulseIn hv,
    fun s pulseIn x hx => ?_,
    fun s hs => rounded_reachableInRange_noOutOfRange ieeeArith ieeeArith_keepsSign s hs⟩
  obtain ⟨g1, g2, g3, g4⟩ := rounded_getDistance_single s pulseIn x hx
  refine ⟨g2, ?_⟩
  rw [g1, (rounded_getDistance_frame ieeeArith s pulseIn).1.maxDistance]
  simp only [MinimumDistance]
  push_neg
  exact ⟨le_of_lt g3, g4⟩

/-- Instance of the amended C17 at `updatedAt102`: the detector is set up and updated once with
measurements of 6000 µs, the valid filtered distance 102 is below `maxDistance = 200`, and the
detector has `outOfRangeCounter = 0` and is not in OUTOFRANGE. -/
theorem outOfRange_in_range_invariant_witness :
    Rounded.ReachableInRange ieeeArith updatedAt102 ∧
    (updatedAt102.outOfRangeCounter = 0 ∧ updatedAt102.currentState ≠ OUTOFRANGE) :=
  ⟨Rounded.ReachableInRange.afterUpdate echo102
      (Rounded.ReachableInRange.afterSetup {} echo102
        (Rounded.ReachableInRange.fresh 9 10 false))
      (fun _ => by decide!),
    outOfRange_in_range_invariant.2.2.2 updatedAt102
      (Rounded.ReachableInRange.afterUpdate echo102
        (Rounded.ReachableInRange.afterSetup {} echo102
          (Rounded.ReachableInRange.fresh 9 10 false))
        (fun _ => by decide!))⟩

end MovementDetector
